import Mathlib

/-!
# Reconciliation core of the Alibaba cloud provider: backend groups and load balancer attributes

A shallow embedding of `pkg/controller/service/vgroups.go` and
`pkg/controller/service/loadbalancer.go`.

* Go strings are `String`, Go `int` is `Int`, slices are `List`.
* Go maps keyed by strings are finite partial functions `String → Option α`.
* A function returning `error` returns `Except String _`; the message is the one
  built by `fmt.Errorf` in the source.
* Calls to the cloud provider are recorded in a trace (`List Call`), the outcome of
  each call being supplied by the environment.
-/

namespace AlibabaCloud

/-! ## Data model (package `model`, as far as the two source files use it) -/

/-- The backend record `model.BackendAttribute`, with the fields the source reads or writes
(the Go field `Type` is `BackendType` here, `Type` being reserved). -/
structure BackendAttribute where
  NodeName : Option String
  Description : String
  ServerId : String
  ServerIp : String
  Weight : Int
  Port : Int
  BackendType : String
deriving DecidableEq, Repr

/-- The part of `v1.ServicePort` that the source uses. -/
structure ServicePort where
  Name : String
  Port : Int
  NodePort : Int
deriving DecidableEq, Repr

/-- The server group `model.VServerGroup`. -/
structure VServerGroup where
  VGroupId : String
  VGroupName : String
  ServicePort : ServicePort
  Backends : List BackendAttribute
deriving DecidableEq, Repr

/-! ## `diff` (vgroups.go, lines 178-255) -/

/-- Inner loop of the first pass of `diff` (lines 193-207): scan the local backends for one
that matches the remote backend `r`; the comparison is selected by the type of the local
backend `l`. The loop stops at the first hit. -/
def diffFoundLocal (r : BackendAttribute) : List BackendAttribute → Bool
  | [] => false
  | l :: ls =>
    if l.BackendType = "eni" then
      if r.ServerId = l.ServerId ∧ r.ServerIp = l.ServerIp then true
      else diffFoundLocal r ls
    else
      if r.ServerId = l.ServerId then true
      else diffFoundLocal r ls

/-- Inner loop of the second pass of `diff` (lines 214-228): scan the remote backends for one
that matches the local backend `l`. -/
def diffFoundRemote (l : BackendAttribute) : List BackendAttribute → Bool
  | [] => false
  | r :: rs =>
    if l.BackendType = "eni" then
      if r.ServerId = l.ServerId ∧ r.ServerIp = l.ServerIp then true
      else diffFoundRemote l rs
    else
      if r.ServerId = l.ServerId then true
      else diffFoundRemote l rs

/-- Inner loop of the third pass of `diff` (lines 234-252): append `l` to `updates` at the
first remote backend with the same key and a different weight, then stop. -/
def diffUpdateScan (l : BackendAttribute) (updates : List BackendAttribute) :
    List BackendAttribute → List BackendAttribute
  | [] => updates
  | r :: rs =>
    if l.BackendType = "eni" then
      if l.ServerId = r.ServerId ∧ l.ServerIp = r.ServerIp ∧ l.Weight ≠ r.Weight then
        updates ++ [l]
      else diffUpdateScan l updates rs
    else
      if l.ServerId = r.ServerId ∧ l.Weight ≠ r.Weight then updates ++ [l]
      else diffUpdateScan l updates rs

/-- The function `diff(remote, local)`: returns `(addition, deletions, updates)`. -/
def diff (remote lcl : VServerGroup) :
    List BackendAttribute × List BackendAttribute × List BackendAttribute :=
  let deletions := remote.Backends.foldl
    (fun deletions r =>
      if !(diffFoundLocal r lcl.Backends) then deletions ++ [r] else deletions) []
  let addition := lcl.Backends.foldl
    (fun addition l =>
      if !(diffFoundRemote l remote.Backends) then addition ++ [l] else addition) []
  let updates := lcl.Backends.foldl
    (fun updates l => diffUpdateScan l updates remote.Backends) []
  (addition, deletions, updates)

/-- The matching relation of `diff`: `r` carries the key of `l`, the key being
`(ServerId, ServerIp)` when `l` has type `"eni"` and `ServerId` alone otherwise. -/
def sameKey (l r : BackendAttribute) : Prop :=
  if l.BackendType = "eni" then r.ServerId = l.ServerId ∧ r.ServerIp = l.ServerIp
  else r.ServerId = l.ServerId

instance (l r : BackendAttribute) : Decidable (sameKey l r) := by
  unfold sameKey; infer_instance


/-! ## Go maps -/

/-- A Go map with string keys: a partial function; a missing key reads as `none`. -/
abbrev GoMap (α : Type) := String → Option α

/-- The empty map, `make(map[string]T)`. -/
def GoMap.empty {α : Type} : GoMap α := fun _ => none

/-- The assignment `m[k] = v`. -/
def GoMap.set {α : Type} (m : GoMap α) (k : String) (v : α) : GoMap α :=
  fun k' => if k' = k then some v else m k'

/-! ## Cluster objects and the cloud provider -/

/-- The part of `v1.NodeCondition` that the source reads. -/
structure NodeCondition where
  CondType : String
  Status : String

/-- The part of `v1.Node` that the source reads: `Name`, `Labels`, `Spec.Unschedulable`,
`Spec.ProviderID` and `Status.Conditions`. -/
structure Node where
  Name : String
  Labels : GoMap String
  Unschedulable : Bool
  ProviderID : String
  Conditions : List NodeCondition

/-- The type `v1.EndpointAddress`: an address and the node that owns it, if known. -/
structure EndpointAddress where
  IP : String
  NodeName : Option String

/-- The type `v1.EndpointPort`. -/
structure EndpointPort where
  Name : String
  Port : Int

/-- The type `v1.EndpointSubset`. -/
structure EndpointSubset where
  Addresses : List EndpointAddress
  Ports : List EndpointPort

/-- The type `v1.Endpoints`. -/
structure Endpoints where
  Subsets : List EndpointSubset

/-- The candidate set `EndpointWithENI` (vgroups.go, lines 30-41). -/
structure EndpointWithENI where
  TrafficPolicy : String
  Nodes : List Node
  Endpoints : Endpoints

/-- One private address of a network interface in a `DescribeNetworkInterfaces` response. -/
structure PrivateIpSet where
  PrivateIpAddress : String

/-- One network interface of a `DescribeNetworkInterfaces` response. -/
structure NetworkInterfaceSet where
  NetworkInterfaceId : String
  PrivateIpSets : List PrivateIpSet

/-- One page of `ecs.DescribeNetworkInterfacesResponse`. -/
structure DescribeNetworkInterfacesResponse where
  NetworkInterfaceSets : List NetworkInterfaceSet
  NextToken : String

/-- The attributes of `model.LoadBalancer` that `loadbalancer.go` reads. -/
structure LoadBalancerAttribute where
  LoadBalancerId : String
  LoadBalancerName : String
  AddressType : String
  AddressIPVersion : String
  InternetChargeType : String
  Bandwidth : Int
  LoadBalancerSpec : String
  MasterZoneId : String
  SlaveZoneId : String
  ResourceGroupId : String
  DeleteProtection : String
  ModificationProtectionStatus : String
deriving DecidableEq, Repr

/-- The load balancer model `model.LoadBalancer`. -/
structure LoadBalancer where
  NamespacedName : String
  LoadBalancerAttribute : LoadBalancerAttribute
deriving DecidableEq, Repr

/-- A mutating call of the interface `ILoadBalancer` (provider.go), with its arguments
(the context argument is left out). -/
inductive Call where
  | ModifyLoadBalancerInternetSpec (lbId chargeType : String) (bandwidth : Int)
  | ModifyLoadBalancerInstanceSpec (lbId spec : String)
  | SetLoadBalancerDeleteProtection (lbId flag : String)
  | SetLoadBalancerModificationProtection (lbId flag : String)
  | SetLoadBalancerName (lbId name : String)
  | DeleteLoadBalancer (lbId : String)
  | AddVServerGroupBackendServers (vGroupId backends : String)
  | RemoveVServerGroupBackendServers (vGroupId backends : String)
  | SetVServerGroupAttribute (vGroupId backends : String)
deriving DecidableEq, Repr

/-- The cloud provider as the source sees it (interface `prvd.Provider`): the metadata
lookup `VpcID`, the paginated lookup `DescribeNetworkInterfaces` and the outcome of every
mutating load balancer call. -/
structure Provider where
  VpcID : Except String String
  DescribeNetworkInterfaces :
    String → List String → String → Except String DescribeNetworkInterfacesResponse
  call : Call → Except String Unit

/-- Declarations of the repository that the two source files use and that are declared in
files outside the sources at hand: constants of package `model` and of package `service`
whose values are left open, and three helper functions of package `service`.
`BackendLabel` and `RemoveUnscheduled` are the names of two annotations, `MAX_BACKEND_NUM`
is the chunk size of the batched calls, and `jsonMarshal` is `json.Marshal` of the Go
library on a list of backends. -/
structure Env where
  IPv4 : String
  PayByBandwidth : String
  InternetAddressType : String
  ECINodeLabel : String
  LabelNodeRoleMaster : String
  BackendLabel : String
  RemoveUnscheduled : String
  MAX_BACKEND_NUM : Nat
  jsonMarshal : List BackendAttribute → Except String String
  isExcludeNode : Node → Bool
  nodeFromProviderID : String → Except String (String × String)
  findNodeByNodeName : List Node → String → Option Node

/-- Modelled from the spec: the constant `DEFAULT_SERVER_WEIGHT`, declared outside the
sources; the spec gives the default weight as 100. -/
def DEFAULT_SERVER_WEIGHT : Int := 100

/-- Modelled from the spec: the constant `model.ENIBackendType`, declared outside the
sources; the tag of interface-backed backends, the literal `"eni"` that `diff` compares
with. -/
def ENIBackendType : String := "eni"

/-- Modelled from the spec: the constant `model.ECSBackendType`, declared outside the
sources; the tag of compute-backed backends. -/
def ECSBackendType : String := "ecs"

/-- Modelled from the spec: the constant `model.OnFlag`, declared outside the sources; the
enabled value of a flag annotation. -/
def OnFlag : String := "on"

/-- Modelled from the spec: the constant `model.OffFlag`, declared outside the sources; the
disabled value of a flag annotation. -/
def OffFlag : String := "off"

/-- The constant `v1.NodeReady` of the Kubernetes API. -/
def NodeReady : String := "Ready"

/-- The constant `v1.ConditionTrue` of the Kubernetes API. -/
def ConditionTrue : String := "True"

/-- The annotations of the service as `getNodes` reads them: `anno.Get(key)`, the empty
string when the annotation is not set. -/
structure AnnotationRequest where
  Get : String → String

/-! ## Weights in local mode (vgroups.go, lines 509-532) -/

/-- First loop of `setWeightForLocalBackends`: `ecsPods[b.ServerId] += 1` for every backend. -/
def ecsPodsOf (backends : List BackendAttribute) : GoMap Int :=
  backends.foldl (fun ecsPods b => ecsPods.set b.ServerId ((ecsPods b.ServerId).getD 0 + 1))
    GoMap.empty

/-- The function `setWeightForLocalBackends`: every backend gets the number of backends
that share its `ServerId` as weight. -/
def setWeightForLocalBackends (backends : List BackendAttribute) : List BackendAttribute :=
  let ecsPods := ecsPodsOf backends
  backends.map (fun b => { b with Weight := (ecsPods b.ServerId).getD 0 })

/-- The function `remoteDuplicatedECS`: keep the first backend of every `ServerId`. The
state of the loop is the map `nodeMap` and the slice `uniqBackends`. -/
def remoteDuplicatedECS (backends : List BackendAttribute) : List BackendAttribute :=
  (backends.foldl
    (fun (st : GoMap Bool × List BackendAttribute) backend =>
      match st.1 backend.ServerId with
      | some _ => st
      | none => (st.1.set backend.ServerId true, st.2 ++ [backend]))
    (GoMap.empty, [])).2

/-! ## Building backends (vgroups.go, lines 397-421 and 534-648) -/

/-- Inner loop of `setGenericBackendAttribute` (lines 401-407): the port of the first
endpoint port named like the service port, 0 when there is none. -/
def backendPortOf (name : String) : List EndpointPort → Int
  | [] => 0
  | p :: ps => if p.Name = name then p.Port else backendPortOf name ps

/-- The function `setGenericBackendAttribute`: one backend per endpoint address, in subset
order and then address order; `ServerId`, `Weight` and `Type` keep their zero values. -/
def setGenericBackendAttribute (candidates : EndpointWithENI) (vgroup : VServerGroup) :
    List BackendAttribute :=
  candidates.Endpoints.Subsets.foldl
    (fun backends ep =>
      let backendPort := backendPortOf vgroup.ServicePort.Name ep.Ports
      ep.Addresses.foldl
        (fun backends addr =>
          backends ++ [{ NodeName := addr.NodeName, ServerIp := addr.IP, Port := backendPort,
                         Description := vgroup.VGroupName, ServerId := "", Weight := 0,
                         BackendType := "" }])
        backends)
    []

/-- Lines 623-631 of `updateENIBackends`: record in `ecis` the interface of every
requested address that the page `resp` carries. -/
def eniRecord (ips : List String) (resp : DescribeNetworkInterfacesResponse)
    (ecis : GoMap String) : GoMap String :=
  ips.foldl
    (fun ecis ip =>
      resp.NetworkInterfaceSets.foldl
        (fun ecis eni =>
          eni.PrivateIpSets.foldl
            (fun ecis privateIp =>
              if ip = privateIp.PrivateIpAddress then ecis.set ip eni.NetworkInterfaceId
              else ecis)
            ecis)
        ecis)
    ecis

/-- The pagination loop of `updateENIBackends` (lines 618-636). The source loops until the
provider returns an empty continuation token; here at most `fuel` pages are fetched and
`none` says that the fuel ran out. -/
def eniPages (cloud : Provider) (vpcId : String) (ips : List String) :
    Nat → String → GoMap String → Option (Except String (GoMap String))
  | 0, _, _ => none
  | fuel + 1, nextToken, ecis =>
    match cloud.DescribeNetworkInterfaces vpcId ips nextToken with
    | .error err => some (.error ("call DescribeNetworkInterfaces: " ++ err))
    | .ok resp =>
      let ecis := eniRecord ips resp ecis
      if resp.NextToken = "" then some (.ok ecis)
      else eniPages cloud vpcId ips fuel resp.NextToken ecis

/-- The last loop of `updateENIBackends` (lines 638-646): set `ServerId` and `Type` of every
backend, failing at the first address without a resolved interface. -/
def eniAssign (vpcId : String) (ecis : GoMap String) :
    List BackendAttribute → Except String (List BackendAttribute)
  | [] => .ok []
  | b :: bs =>
    match ecis b.ServerIp with
    | none => .error ("can not find eniid for ip " ++ b.ServerIp ++ " in vpc " ++ vpcId)
    | some eniid =>
      match eniAssign vpcId ecis bs with
      | .error err => .error err
      | .ok rest => .ok ({ b with ServerId := eniid, BackendType := ENIBackendType } :: rest)

/-- The function `updateENIBackends`; `none` says that the pagination ran out of fuel. -/
def updateENIBackends (cloud : Provider) (fuel : Nat) (backends : List BackendAttribute) :
    Option (Except String (List BackendAttribute)) :=
  match cloud.VpcID with
  | .error err => some (.error ("get vpc id from metadata error:" ++ err))
  | .ok vpcId =>
    let ips := backends.map (fun b => b.ServerIp)
    match eniPages cloud vpcId ips fuel "" GoMap.empty with
    | none => none
    | some (.error err) => some (.error err)
    | some (.ok ecis) => some (eniAssign vpcId ecis backends)

/-- The backend that `buildClusterBackends` appends for a node with instance id `id`
(lines 557-566). -/
def clusterEcsBackend (vgroup : VServerGroup) (id : String) : BackendAttribute :=
  { NodeName := none, ServerId := id, ServerIp := "", Weight := DEFAULT_SERVER_WEIGHT,
    Port := vgroup.ServicePort.NodePort, BackendType := ECSBackendType,
    Description := vgroup.VGroupName }

/-- First loop of `buildClusterBackends` (lines 547-567): all cluster nodes that
`isExcludeNode` does not reject, failing at the first provider id that does not parse. -/
def clusterEcsBackends (env : Env) (vgroup : VServerGroup) :
    List Node → List BackendAttribute → Except String (List BackendAttribute)
  | [], ecsBackends => .ok ecsBackends
  | node :: nodes, ecsBackends =>
    if env.isExcludeNode node then clusterEcsBackends env vgroup nodes ecsBackends
    else
      match env.nodeFromProviderID node.ProviderID with
      | .error err =>
        .error ("normal parse providerid: " ++ node.ProviderID ++
          ". expected: $\x7bregionid\x7d.$\x7bnodeid\x7d, " ++ err)
      | .ok (_, id) =>
        clusterEcsBackends env vgroup nodes (ecsBackends ++ [clusterEcsBackend vgroup id])

/-- Second loop of `buildClusterBackends` (lines 570-586): the endpoint backends whose node
is found and carries the ECI label; an address without node name is an error, an address
whose node is not found is skipped. -/
def clusterEciBackends (env : Env) (svcKey : String) (nodes : List Node) :
    List BackendAttribute → List BackendAttribute → Except String (List BackendAttribute)
  | [], eciBackends => .ok eciBackends
  | backend :: rest, eciBackends =>
    match backend.NodeName with
    | none =>
      .error ("add ecs backends for service[" ++ svcKey ++ "] error, NodeName is nil for ip " ++
        backend.ServerIp ++ " ")
    | some nodeName =>
      match env.findNodeByNodeName nodes nodeName with
      | none => clusterEciBackends env svcKey nodes rest eciBackends
      | some node =>
        if (node.Labels "type").getD "" = env.ECINodeLabel then
          clusterEciBackends env svcKey nodes rest (eciBackends ++ [backend])
        else clusterEciBackends env svcKey nodes rest eciBackends

/-- The function `buildClusterBackends`; `svcKey` is `util.Key(reqCtx.Service)`, `none` says
that the pagination of the interface lookup ran out of fuel. -/
def buildClusterBackends (env : Env) (cloud : Provider) (fuel : Nat) (svcKey : String)
    (candidates : EndpointWithENI) (vgroup : VServerGroup) :
    Option (Except String (List BackendAttribute)) :=
  if candidates.Endpoints.Subsets.length = 0 then some (.ok [])
  else
    let initBackends := setGenericBackendAttribute candidates vgroup
    match clusterEcsBackends env vgroup candidates.Nodes [] with
    | .error err => some (.error err)
    | .ok ecsBackends =>
      match clusterEciBackends env svcKey candidates.Nodes initBackends [] with
      | .error err => some (.error err)
      | .ok eciBackends =>
        let resolved :=
          if eciBackends.length ≠ 0 then updateENIBackends cloud fuel eciBackends
          else some (.ok eciBackends)
        match resolved with
        | none => none
        | some (.error err) => some (.error ("update eci backends error: " ++ err))
        | some (.ok eciBackends) =>
          some (.ok ((ecsBackends ++ eciBackends).map
            (fun b => { b with Weight := DEFAULT_SERVER_WEIGHT })))

/-! ## Load balancer attributes (loadbalancer.go, lines 73-162 and 197-206) -/

/-- The function `equalsAddressIPVersion`. -/
def equalsAddressIPVersion (env : Env) (lcl remote : String) : Bool :=
  let lcl := if lcl = "" then env.IPv4 else lcl
  let remote := if remote = "" then env.IPv4 else remote
  lcl = remote

/-- Issue one provider call: the trace holds the call, the result is the provider's. -/
def invoke (cloud : Provider) (c : Call) : List Call × Except String Unit :=
  ([c], cloud.call c)

/-- Lines 123-161 of `Update`: instance spec, delete protection, modification protection
and name, the first difference being acted on. -/
def updateAttributes (cloud : Provider) (lbId : String) (l r : LoadBalancerAttribute) :
    List Call × Except String Unit :=
  if l.LoadBalancerSpec ≠ "" ∧ l.LoadBalancerSpec ≠ r.LoadBalancerSpec then
    invoke cloud (.ModifyLoadBalancerInstanceSpec lbId l.LoadBalancerSpec)
  else if l.DeleteProtection ≠ "" ∧ l.DeleteProtection ≠ r.DeleteProtection then
    invoke cloud (.SetLoadBalancerDeleteProtection lbId l.DeleteProtection)
  else if l.ModificationProtectionStatus ≠ "" ∧
      l.ModificationProtectionStatus ≠ r.ModificationProtectionStatus then
    invoke cloud (.SetLoadBalancerModificationProtection lbId l.ModificationProtectionStatus)
  else if l.LoadBalancerName ≠ "" ∧ l.LoadBalancerName ≠ r.LoadBalancerName then
    invoke cloud (.SetLoadBalancerName lbId l.LoadBalancerName)
  else ([], .ok ())

/-- Lines 97-121 of `Update`: charge type and bandwidth. Returns `needUpdate`, `charge` and
`bandwidth` as they stand at line 114. -/
def chargeAndBandwidth (env : Env) (l r : LoadBalancerAttribute) : Bool × String × Int :=
  let needUpdate := false
  let charge := r.InternetChargeType
  let bandwidth := r.Bandwidth
  let (needUpdate, charge) :=
    if l.InternetChargeType ≠ "" ∧ l.InternetChargeType ≠ r.InternetChargeType then
      (true, l.InternetChargeType)
    else (needUpdate, charge)
  let (needUpdate, bandwidth) :=
    if l.Bandwidth ≠ 0 ∧ l.Bandwidth ≠ r.Bandwidth ∧
        l.InternetChargeType = env.PayByBandwidth then
      (true, l.Bandwidth)
    else (needUpdate, bandwidth)
  (needUpdate, charge, bandwidth)

/-- The method `LoadBalancerManager.Update`: the calls issued, in order, and the result. -/
def Update (env : Env) (cloud : Provider) (lcl remote : LoadBalancer) :
    List Call × Except String Unit :=
  let l := lcl.LoadBalancerAttribute
  let r := remote.LoadBalancerAttribute
  let lbId := r.LoadBalancerId
  if l.MasterZoneId ≠ "" ∧ l.MasterZoneId ≠ r.MasterZoneId then
    ([], .error "alicloud: can not change LoadBalancer master zone id once created")
  else if l.SlaveZoneId ≠ "" ∧ l.SlaveZoneId ≠ r.SlaveZoneId then
    ([], .error "alicloud: can not change LoadBalancer slave zone id once created")
  else if l.AddressType ≠ "" ∧ l.AddressType ≠ r.AddressType then
    ([], .error "alicloud: can not change LoadBalancer AddressType once created. delete and retry")
  else if !(equalsAddressIPVersion env l.AddressIPVersion r.AddressIPVersion) then
    ([], .error "alicloud: can not change LoadBalancer AddressIPVersion once created")
  else if l.ResourceGroupId ≠ "" ∧ l.ResourceGroupId ≠ r.ResourceGroupId then
    ([], .error "alicloud: can not change ResourceGroupId once created")
  else
    let (needUpdate, charge, bandwidth) := chargeAndBandwidth env l r
    if needUpdate then
      if r.AddressType = env.InternetAddressType then
        invoke cloud (.ModifyLoadBalancerInternetSpec lbId charge bandwidth)
      else updateAttributes cloud lbId l r
    else updateAttributes cloud lbId l r

/-! ## Node selection (vgroups.go, lines 257-345) -/

/-- The Go function `strings.Split` for a separator of one character, on the characters of
the string: the pieces between the separators, one more than there are separators. -/
def splitChars (sep : Char) : List Char → List (List Char)
  | [] => [[]]
  | c :: cs =>
    if c = sep then [] :: splitChars sep cs
    else
      match splitChars sep cs with
      | [] => [[c]]
      | piece :: pieces => (c :: piece) :: pieces

/-- The Go function `strings.Split(s, sep)` for a separator of one character. -/
def stringsSplit (s : String) (sep : Char) : List String :=
  (splitChars sep s.data).map String.mk

/-- Inner loop of `filterOutByLabel` (lines 327-337) for one node: the value of `found`
after the loop, or the error of the first term reached that has no `=`. The loop stops at
the first term that the labels of the node do not satisfy. -/
def labelsFound (node : Node) : List String → Except String Bool
  | [] => .ok true
  | v :: lbl =>
    let l := stringsSplit v '='
    if l.length < 2 then .error ("parse backend label: " ++ v ++ ", [k1=v1,k2=v2]")
    else
      match node.Labels (l.getD 0 "") with
      | none => .ok false
      | some nv => if nv ≠ l.getD 1 "" then .ok false else labelsFound node lbl

/-- Outer loop of `filterOutByLabel` (lines 326-342). -/
def filterOutByLabelLoop (lbl : List String) : List Node → List Node → Except String (List Node)
  | [], result => .ok result
  | node :: nodes, result =>
    match labelsFound node lbl with
    | .error err => .error err
    | .ok found =>
      filterOutByLabelLoop lbl nodes (if found then result ++ [node] else result)

/-- The function `filterOutByLabel`. -/
def filterOutByLabel (nodes : List Node) (labels : String) : Except String (List Node) :=
  if labels = "" then .ok nodes
  else filterOutByLabelLoop (stringsSplit labels ',') nodes []

/-- Lines 264-271 of `getNodes`: the nodes after the filter by label. -/
def filterByLabelStage (env : Env) (anno : AnnotationRequest) (nodeList : List Node) :
    Except String (List Node) :=
  if anno.Get env.BackendLabel ≠ "" then
    match filterOutByLabel nodeList (anno.Get env.BackendLabel) with
    | .error err => .error ("filter nodes by label error: " ++ err)
    | .ok items => .ok items
  else .ok nodeList

/-- The scan of lines 302-311 of `getNodes`. The `continue` of line 309 continues this
loop over the conditions, so the scan changes nothing; it yields the conditions for which
it writes a log line. -/
def readinessScan (conditions : List NodeCondition) : List NodeCondition :=
  conditions.foldl
    (fun logged cond =>
      if cond.CondType = NodeReady ∧ cond.Status ≠ ConditionTrue then logged ++ [cond]
      else logged)
    []

/-- The loop of lines 273-314 of `getNodes`. -/
def getNodesLoop (env : Env) (anno : AnnotationRequest) : List Node → List Node → List Node
  | [], nodes => nodes
  | n :: items, nodes =>
    let afterUnscheduled :=
      if (n.Labels env.LabelNodeRoleMaster).isSome then getNodesLoop env anno items nodes
      else if n.Labels "type" = some env.ECINodeLabel then
        getNodesLoop env anno items (nodes ++ [n])
      else if n.Conditions.length = 0 then getNodesLoop env anno items nodes
      else
        let _logged := readinessScan n.Conditions
        getNodesLoop env anno items (nodes ++ [n])
    if n.Unschedulable = true ∧ anno.Get env.RemoveUnscheduled ≠ "" then
      if anno.Get env.RemoveUnscheduled = OnFlag then getNodesLoop env anno items nodes
      else afterUnscheduled
    else afterUnscheduled

/-- The function `getNodes`; `listed` is the result of `client.List`. -/
def getNodes (env : Env) (listed : Except String (List Node)) (anno : AnnotationRequest) :
    Except String (List Node) :=
  match listed with
  | .error err => .error ("get nodes error: " ++ err)
  | .ok nodeList =>
    match filterByLabelStage env anno nodeList with
    | .error err => .error err
    | .ok items => .ok (getNodesLoop env anno items [])

/-! ## Backends in ENI mode (vgroups.go, lines 423-441) -/

/-- The function `buildENIBackends`; `none` says that the pagination of the interface lookup
ran out of fuel. -/
def buildENIBackends (cloud : Provider) (fuel : Nat) (candidates : EndpointWithENI)
    (vgroup : VServerGroup) : Option (Except String (List BackendAttribute)) :=
  if candidates.Endpoints.Subsets.length = 0 then some (.ok [])
  else
    let backends := setGenericBackendAttribute candidates vgroup
    match updateENIBackends cloud fuel backends with
    | none => none
    | some (.error err) => some (.error err)
    | some (.ok backends) =>
      some (.ok (backends.map (fun b => { b with Weight := DEFAULT_SERVER_WEIGHT })))

/-! ## Batched dispatch (vgroups.go, lines 114-176) -/

/-- Modelled from the spec: the chunks of the function `Batch`, which is declared outside
the sources. The list is cut into consecutive chunks of `maxChunk` items, the last chunk
holding the remainder; `fuel` bounds the number of chunks and is the length of the list
in `Batch`. -/
def batchChunks {α : Type} (maxChunk : Nat) : Nat → List α → List (List α)
  | 0, _ => []
  | fuel + 1, target =>
    if target.length = 0 then []
    else target.take maxChunk :: batchChunks maxChunk fuel (target.drop maxChunk)

/-- Modelled from the spec: the sequential dispatch of the function `Batch`, which is declared
outside the sources. The operation is applied to the chunks in order; at the first failure
the dispatch stops and the failure is returned. The first component collects what the
operation records. -/
def batchRun {α τ : Type} (batch : List α → List τ × Except String Unit) :
    List (List α) → List τ × Except String Unit
  | [] => ([], .ok ())
  | chunk :: chunks =>
    match batch chunk with
    | (recorded, .error err) => (recorded, .error err)
    | (recorded, .ok _) =>
      ((recorded ++ (batchRun batch chunks).1), (batchRun batch chunks).2)

/-- Modelled from the spec: the function `Batch(m, cnt, batch)`, which is declared outside
the sources: it splits the list into ordered chunks of at most `cnt` items and invokes the
operation on them one after the other, stopping at the first failure. -/
def Batch {α τ : Type} (m : List α) (cnt : Nat) (batch : List α → List τ × Except String Unit) :
    List τ × Except String Unit :=
  batchRun batch (batchChunks cnt m.length m)

/-- The type of the function `Batch` as `vgroups.go` calls it, on lists of backends and with
the provider calls as record. -/
abbrev BatchFn : Type :=
  List BackendAttribute → Nat → (List BackendAttribute → List Call × Except String Unit) →
    List Call × Except String Unit

/-- The operation that the three batched methods pass to `Batch` (lines 141-148, 154-161,
167-174): marshal the chunk and issue the provider call `mk vGroupId payload`. The text of
the marshal error leaves out the rendering of the list. -/
def batchOperation (env : Env) (cloud : Provider) (mk : String → String → Call)
    (vGroup : VServerGroup) (list : List BackendAttribute) : List Call × Except String Unit :=
  match env.jsonMarshal list with
  | .error err => ([], .error ("error marshal backends: " ++ err))
  | .ok payload => invoke cloud (mk vGroup.VGroupId payload)

/-- The method `BatchAddVServerGroupBackendServers`; `batch` is the function `Batch`. -/
def BatchAddVServerGroupBackendServers (env : Env) (cloud : Provider) (batch : BatchFn)
    (vGroup : VServerGroup) (add : List BackendAttribute) : List Call × Except String Unit :=
  batch add env.MAX_BACKEND_NUM
    (batchOperation env cloud Call.AddVServerGroupBackendServers vGroup)

/-- The method `BatchRemoveVServerGroupBackendServers`; `batch` is the function `Batch`. -/
def BatchRemoveVServerGroupBackendServers (env : Env) (cloud : Provider) (batch : BatchFn)
    (vGroup : VServerGroup) (del : List BackendAttribute) : List Call × Except String Unit :=
  batch del env.MAX_BACKEND_NUM
    (batchOperation env cloud Call.RemoveVServerGroupBackendServers vGroup)

/-- The method `BatchUpdateVServerGroupBackendServers`; `batch` is the function `Batch`. -/
def BatchUpdateVServerGroupBackendServers (env : Env) (cloud : Provider) (batch : BatchFn)
    (vGroup : VServerGroup) (update : List BackendAttribute) :
    List Call × Except String Unit :=
  batch update env.MAX_BACKEND_NUM
    (batchOperation env cloud Call.SetVServerGroupAttribute vGroup)

/-- The method `UpdateVServerGroup`; `batch` is the function `Batch`. The calls issued, in
order, and the result. -/
def UpdateVServerGroup (env : Env) (cloud : Provider) (batch : BatchFn)
    (lcl remote : VServerGroup) : List Call × Except String Unit :=
  let (add, del, update) := diff remote lcl
  let added :=
    if add.length > 0 then BatchAddVServerGroupBackendServers env cloud batch lcl add
    else ([], .ok ())
  match added with
  | (calls1, .error err) => (calls1, .error err)
  | (calls1, .ok _) =>
    let removed :=
      if del.length > 0 then BatchRemoveVServerGroupBackendServers env cloud batch remote del
      else ([], .ok ())
    match removed with
    | (calls2, .error err) => (calls1 ++ calls2, .error err)
    | (calls2, .ok _) =>
      if update.length > 0 then
        ((calls1 ++ calls2 ++
            (BatchUpdateVServerGroupBackendServers env cloud batch remote update).1),
          (BatchUpdateVServerGroupBackendServers env cloud batch remote update).2)
      else (calls1 ++ calls2, .ok ())

/-! ## Backends in local mode (vgroups.go, lines 443-507) -/

/-- The loop of lines 458-489 of `buildLocalBackends`: the endpoint backends are sorted into
`ecsBackends` and `eciBackends`. An address without node name is an error, an address whose
node is not found is skipped, as is one on a node that `isExcludeNode` rejects. -/
def localBackendsLoop (env : Env) (svcKey : String) (nodes : List Node)
    (vgroup : VServerGroup) :
    List BackendAttribute → List BackendAttribute → List BackendAttribute →
      Except String (List BackendAttribute × List BackendAttribute)
  | [], ecsBackends, eciBackends => .ok (ecsBackends, eciBackends)
  | backend :: rest, ecsBackends, eciBackends =>
    match backend.NodeName with
    | none =>
      .error ("add ecs backends for service[" ++ svcKey ++ "] error, NodeName is nil for ip " ++
        backend.ServerIp ++ " ")
    | some nodeName =>
      match env.findNodeByNodeName nodes nodeName with
      | none => localBackendsLoop env svcKey nodes vgroup rest ecsBackends eciBackends
      | some node =>
        if (node.Labels "type").getD "" = env.ECINodeLabel then
          localBackendsLoop env svcKey nodes vgroup rest ecsBackends (eciBackends ++ [backend])
        else if env.isExcludeNode node then
          localBackendsLoop env svcKey nodes vgroup rest ecsBackends eciBackends
        else
          match env.nodeFromProviderID node.ProviderID with
          | .error err =>
            .error ("parse providerid: " ++ node.ProviderID ++
              ". expected: $\x7bregionid\x7d.$\x7bnodeid\x7d, " ++ err)
          | .ok (_, id) =>
            localBackendsLoop env svcKey nodes vgroup rest
              (ecsBackends ++ [{ backend with ServerId := id, BackendType := ECSBackendType,
                                              Port := vgroup.ServicePort.NodePort }])
              eciBackends

/-- The function `buildLocalBackends`; `svcKey` is `util.Key(reqCtx.Service)`, `none` says
that the pagination of the interface lookup ran out of fuel. -/
def buildLocalBackends (env : Env) (cloud : Provider) (fuel : Nat) (svcKey : String)
    (candidates : EndpointWithENI) (vgroup : VServerGroup) :
    Option (Except String (List BackendAttribute)) :=
  if candidates.Endpoints.Subsets.length = 0 then some (.ok [])
  else
    let initBackends := setGenericBackendAttribute candidates vgroup
    match localBackendsLoop env svcKey candidates.Nodes vgroup initBackends [] [] with
    | .error err => some (.error err)
    | .ok (ecsBackends, eciBackends) =>
      let resolved :=
        if eciBackends.length ≠ 0 then updateENIBackends cloud fuel eciBackends
        else some (.ok eciBackends)
      match resolved with
      | none => none
      | some (.error err) => some (.error ("update eci backends error: " ++ err))
      | some (.ok eciBackends) =>
        some (.ok (remoteDuplicatedECS (setWeightForLocalBackends (ecsBackends ++ eciBackends))))

/-! ## Deleting a load balancer (loadbalancer.go, lines 52-71) -/

/-- The method `LoadBalancerManager.Delete`: the calls issued, in order, and the result. -/
def Delete (cloud : Provider) (remote : LoadBalancer) : List Call × Except String Unit :=
  if remote.LoadBalancerAttribute.LoadBalancerId = "" then ([], .ok ())
  else
    let deleteCall := invoke cloud (.DeleteLoadBalancer remote.LoadBalancerAttribute.LoadBalancerId)
    if remote.LoadBalancerAttribute.DeleteProtection = OnFlag then
      match cloud.call (.SetLoadBalancerDeleteProtection
          remote.LoadBalancerAttribute.LoadBalancerId OffFlag) with
      | .error err =>
        ([.SetLoadBalancerDeleteProtection remote.LoadBalancerAttribute.LoadBalancerId OffFlag],
          .error ("error to set slb id [" ++ remote.LoadBalancerAttribute.LoadBalancerId ++
            "] delete protection off, svc [" ++ remote.NamespacedName ++ "], err: " ++ err))
      | .ok _ =>
        (.SetLoadBalancerDeleteProtection remote.LoadBalancerAttribute.LoadBalancerId OffFlag ::
          deleteCall.1, deleteCall.2)
    else deleteCall

/-! ## Specification-side definitions -/

/-- The distinct elements of a list, each at the place of its first occurrence. -/
def firstOccurrences : List String → List String
  | [] => []
  | k :: ks => k :: (firstOccurrences ks).filter (fun x => decide (x ≠ k))

/-- The backends that are the first of their `ServerId`, in list order. -/
def firstByServerId : List BackendAttribute → List BackendAttribute
  | [] => []
  | b :: bs => b :: (firstByServerId bs).filter (fun x => decide (x.ServerId ≠ b.ServerId))

/-- The number of backends of `bs` with `ServerId` equal to `k`. -/
def podCount (bs : List BackendAttribute) (k : String) : Nat :=
  (bs.filter (fun b => decide (b.ServerId = k))).length

/-- The instance id that `nodeFromProviderID` yields for a node, `""` when the provider id
does not parse. -/
def instanceIdOf (env : Env) (n : Node) : String :=
  match env.nodeFromProviderID n.ProviderID with
  | .ok (_, id) => id
  | .error _ => ""

/-- The endpoint backend `b` lies on a node of the candidate set that carries the ECI
label. -/
def onEciNode (env : Env) (nodes : List Node) (b : BackendAttribute) : Bool :=
  match b.NodeName with
  | none => false
  | some nodeName =>
    match env.findNodeByNodeName nodes nodeName with
    | none => false
    | some node => decide ((node.Labels "type").getD "" = env.ECINodeLabel)

/-- The backend that `setGenericBackendAttribute` builds for one endpoint address. -/
def genericBackend (vgroup : VServerGroup) (ep : EndpointSubset) (addr : EndpointAddress) :
    BackendAttribute :=
  { NodeName := addr.NodeName, ServerIp := addr.IP,
    Port := backendPortOf vgroup.ServicePort.Name ep.Ports,
    Description := vgroup.VGroupName, ServerId := "", Weight := 0, BackendType := "" }

/-- All five guards at the head of `Update` pass: no guarded field is set and different,
and the address IP versions agree. -/
def guardsPass (env : Env) (lcl remote : LoadBalancer) : Prop :=
  ¬ (lcl.LoadBalancerAttribute.MasterZoneId ≠ "" ∧
      lcl.LoadBalancerAttribute.MasterZoneId ≠ remote.LoadBalancerAttribute.MasterZoneId) ∧
  ¬ (lcl.LoadBalancerAttribute.SlaveZoneId ≠ "" ∧
      lcl.LoadBalancerAttribute.SlaveZoneId ≠ remote.LoadBalancerAttribute.SlaveZoneId) ∧
  ¬ (lcl.LoadBalancerAttribute.AddressType ≠ "" ∧
      lcl.LoadBalancerAttribute.AddressType ≠ remote.LoadBalancerAttribute.AddressType) ∧
  equalsAddressIPVersion env lcl.LoadBalancerAttribute.AddressIPVersion
      remote.LoadBalancerAttribute.AddressIPVersion = true ∧
  ¬ (lcl.LoadBalancerAttribute.ResourceGroupId ≠ "" ∧
      lcl.LoadBalancerAttribute.ResourceGroupId ≠ remote.LoadBalancerAttribute.ResourceGroupId)

instance (env : Env) (lcl remote : LoadBalancer) : Decidable (guardsPass env lcl remote) := by
  unfold guardsPass; infer_instance

/-- The attribute conditions of the spec in priority order, each with the call that corrects
it: charge type or bandwidth (acted on for an internet-facing load balancer only), instance
spec, delete protection, modification protection, name. The flag says that the condition is
unmet, that is, that the desired value is set and differs from the observed one. -/
def updateSteps (env : Env) (l r : LoadBalancerAttribute) : List (Bool × Call) :=
  [ (decide (((l.InternetChargeType ≠ "" ∧ l.InternetChargeType ≠ r.InternetChargeType) ∨
        (l.Bandwidth ≠ 0 ∧ l.Bandwidth ≠ r.Bandwidth ∧
          l.InternetChargeType = env.PayByBandwidth)) ∧
        r.AddressType = env.InternetAddressType),
      .ModifyLoadBalancerInternetSpec r.LoadBalancerId
        (if l.InternetChargeType ≠ "" ∧ l.InternetChargeType ≠ r.InternetChargeType then
          l.InternetChargeType else r.InternetChargeType)
        (if l.Bandwidth ≠ 0 ∧ l.Bandwidth ≠ r.Bandwidth ∧
            l.InternetChargeType = env.PayByBandwidth then l.Bandwidth else r.Bandwidth)),
    (decide (l.LoadBalancerSpec ≠ "" ∧ l.LoadBalancerSpec ≠ r.LoadBalancerSpec),
      .ModifyLoadBalancerInstanceSpec r.LoadBalancerId l.LoadBalancerSpec),
    (decide (l.DeleteProtection ≠ "" ∧ l.DeleteProtection ≠ r.DeleteProtection),
      .SetLoadBalancerDeleteProtection r.LoadBalancerId l.DeleteProtection),
    (decide (l.ModificationProtectionStatus ≠ "" ∧
        l.ModificationProtectionStatus ≠ r.ModificationProtectionStatus),
      .SetLoadBalancerModificationProtection r.LoadBalancerId l.ModificationProtectionStatus),
    (decide (l.LoadBalancerName ≠ "" ∧ l.LoadBalancerName ≠ r.LoadBalancerName),
      .SetLoadBalancerName r.LoadBalancerId l.LoadBalancerName) ]

/-- The call is `ModifyLoadBalancerInternetSpec`. -/
def Call.isInternetSpec : Call → Bool
  | .ModifyLoadBalancerInternetSpec _ _ _ => true
  | _ => false

/-- The key of a selector term: the text before its first `=`. -/
def termKey (t : String) : String := (stringsSplit t '=').getD 0 ""

/-- The value of a selector term: the text between its first `=` and its second `=`, or
the end of the term. -/
def termValue (t : String) : String := (stringsSplit t '=').getD 1 ""

/-- The labels of the node carry `key=value` for the selector term `t`. -/
def termHolds (n : Node) (t : String) : Prop := n.Labels (termKey t) = some (termValue t)

instance (n : Node) (t : String) : Decidable (termHolds n t) := by
  unfold termHolds; infer_instance

/-- The rules of `getNodes` for one node, in the words of the spec: the node is kept when it
is not dropped by the unschedulable rule (unschedulable while the remove-unscheduled
annotation has the enabled value), is not labelled as master, and is labelled as ECI node or
reports at least one condition. -/
def nodeKept (env : Env) (anno : AnnotationRequest) (n : Node) : Bool :=
  !(n.Unschedulable && decide (anno.Get env.RemoveUnscheduled = OnFlag)) &&
  (n.Labels env.LabelNodeRoleMaster).isNone &&
  (decide (n.Labels "type" = some env.ECINodeLabel) || !n.Conditions.isEmpty)

/-- The pages that the lookup loop of `updateENIBackends` follows from the continuation
token `token` on: every lookup succeeds, every page but the last has a non-empty
continuation token, and the last page has an empty one. -/
inductive PagesFollowed (cloud : Provider) (vpcId : String) (ips : List String) :
    String → List DescribeNetworkInterfacesResponse → Prop where
  | last (token : String) (resp : DescribeNetworkInterfacesResponse) :
      cloud.DescribeNetworkInterfaces vpcId ips token = .ok resp →
      resp.NextToken = "" →
      PagesFollowed cloud vpcId ips token [resp]
  | next (token : String) (resp : DescribeNetworkInterfacesResponse)
      (rest : List DescribeNetworkInterfacesResponse) :
      cloud.DescribeNetworkInterfaces vpcId ips token = .ok resp →
      resp.NextToken ≠ "" →
      PagesFollowed cloud vpcId ips resp.NextToken rest →
      PagesFollowed cloud vpcId ips token (resp :: rest)

/-- Some interface on some page has the private address `ip`. -/
def Carried (pages : List DescribeNetworkInterfacesResponse) (ip : String) : Prop :=
  ∃ p ∈ pages, ∃ eni ∈ p.NetworkInterfaceSets, ∃ a ∈ eni.PrivateIpSets,
    a.PrivateIpAddress = ip

/-- Some interface with id `id` on some page has the private address `ip`. -/
def CarriedBy (pages : List DescribeNetworkInterfacesResponse) (id ip : String) : Prop :=
  ∃ p ∈ pages, ∃ eni ∈ p.NetworkInterfaceSets, eni.NetworkInterfaceId = id ∧
    ∃ a ∈ eni.PrivateIpSets, a.PrivateIpAddress = ip

/-- The id of the last interface of the list that has the private address `ip`. -/
def carrierIn : List NetworkInterfaceSet → String → Option String
  | [], _ => none
  | eni :: rest, ip =>
    (carrierIn rest ip).or
      (if eni.PrivateIpSets.any (fun a => decide (ip = a.PrivateIpAddress)) then
        some eni.NetworkInterfaceId
      else none)

/-- The interface id that the pages resolve `ip` to: the last interface, on the last page
that has one, with the private address `ip`. -/
def resolveIP : List DescribeNetworkInterfacesResponse → String → Option String
  | [], _ => none
  | p :: pages, ip => (resolveIP pages ip).or (carrierIn p.NetworkInterfaceSets ip)

instance (pages : List DescribeNetworkInterfacesResponse) (ip : String) :
    Decidable (Carried pages ip) := by
  unfold Carried; infer_instance

/-- One stage of `UpdateVServerGroup`: an empty list is skipped, any other list is handed
to the batched method `run`. -/
def dispatchStage (items : List BackendAttribute)
    (run : List BackendAttribute → List Call × Except String Unit) :
    List Call × Except String Unit :=
  if items = [] then ([], .ok ()) else run items

/-- The provider of the convergence claim: a successful call sets the observed attributes
to the submitted values; a call that is none of the five calls of `Update` changes
nothing. -/
def applyCall (c : Call) (remote : LoadBalancer) : LoadBalancer :=
  match c with
  | .ModifyLoadBalancerInternetSpec _ chargeType bandwidth =>
    { remote with
      LoadBalancerAttribute :=
        { remote.LoadBalancerAttribute with
          InternetChargeType := chargeType, Bandwidth := bandwidth } }
  | .ModifyLoadBalancerInstanceSpec _ spec =>
    { remote with
      LoadBalancerAttribute := { remote.LoadBalancerAttribute with LoadBalancerSpec := spec } }
  | .SetLoadBalancerDeleteProtection _ flag =>
    { remote with
      LoadBalancerAttribute := { remote.LoadBalancerAttribute with DeleteProtection := flag } }
  | .SetLoadBalancerModificationProtection _ flag =>
    { remote with
      LoadBalancerAttribute :=
        { remote.LoadBalancerAttribute with ModificationProtectionStatus := flag } }
  | .SetLoadBalancerName _ name =>
    { remote with
      LoadBalancerAttribute := { remote.LoadBalancerAttribute with LoadBalancerName := name } }
  | _ => remote

/-- One pass of `Update` against that provider: the observed load balancer after the calls
of the pass, a call taking effect when it succeeds. -/
def updatePass (env : Env) (cloud : Provider) (lcl remote : LoadBalancer) : LoadBalancer :=
  (Update env cloud lcl remote).1.foldl
    (fun r c =>
      match cloud.call c with
      | .ok _ => applyCall c r
      | .error _ => r)
    remote

/-- The charge/bandwidth condition is unmet and acted on: the charge type or the bandwidth
is to change and the observed load balancer is internet-facing. -/
def chargeUnmet (env : Env) (l r : LoadBalancerAttribute) : Prop :=
  ((l.InternetChargeType ≠ "" ∧ l.InternetChargeType ≠ r.InternetChargeType) ∨
    (l.Bandwidth ≠ 0 ∧ l.Bandwidth ≠ r.Bandwidth ∧
      l.InternetChargeType = env.PayByBandwidth)) ∧
  r.AddressType = env.InternetAddressType

instance (env : Env) (l r : LoadBalancerAttribute) : Decidable (chargeUnmet env l r) := by
  unfold chargeUnmet; infer_instance

/-- The number of conditions from the first unmet one to the last, in the priority order of
`Update`; 0 when every condition is met or skipped. -/
def unmetRank (env : Env) (l r : LoadBalancerAttribute) : Nat :=
  if chargeUnmet env l r then 5
  else if l.LoadBalancerSpec ≠ "" ∧ l.LoadBalancerSpec ≠ r.LoadBalancerSpec then 4
  else if l.DeleteProtection ≠ "" ∧ l.DeleteProtection ≠ r.DeleteProtection then 3
  else if l.ModificationProtectionStatus ≠ "" ∧
      l.ModificationProtectionStatus ≠ r.ModificationProtectionStatus then 2
  else if l.LoadBalancerName ≠ "" ∧ l.LoadBalancerName ≠ r.LoadBalancerName then 1
  else 0

/-- One step of a stage of `UpdateVServerGroup`, for one chunk of backends: the provider call
`mk vGroupId payload` on the marshalled chunk, or, when the chunk cannot be marshalled, the
error that is returned in place of the call. -/
def stageOp (env : Env) (mk : String → String → Call) (vGroupId : String)
    (chunk : List BackendAttribute) : Except String Call :=
  match env.jsonMarshal chunk with
  | .error err => .error ("error marshal backends: " ++ err)
  | .ok payload => .ok (mk vGroupId payload)

/-- The steps of one stage of `UpdateVServerGroup`: one step for each chunk of at most
`MAX_BACKEND_NUM` backends of the list, in order; an empty list has no step. -/
def stageOps (env : Env) (mk : String → String → Call) (vGroupId : String)
    (items : List BackendAttribute) : List (Except String Call) :=
  (batchChunks env.MAX_BACKEND_NUM items.length items).map (stageOp env mk vGroupId)

/-- Dispatch of a list of steps, one after the other: a step that is a provider call is
issued and recorded, and the dispatch ends with the error of the first step that is a
marshal error or whose call fails; no later step is issued. -/
def dispatchOps (cloud : Provider) : List (Except String Call) → List Call × Except String Unit
  | [] => ([], .ok ())
  | .error err :: _ => ([], .error err)
  | .ok c :: ops =>
    match cloud.call c with
    | .error err => ([c], .error err)
    | .ok _ => (c :: (dispatchOps cloud ops).1, (dispatchOps cloud ops).2)

/-! ## Concrete data used to evaluate the definitions -/

/-- A compute-backed backend with the given instance id, address and weight. -/
def ecsB (id ip : String) (w : Int) : BackendAttribute :=
  { NodeName := none, Description := "", ServerId := id, ServerIp := ip, Weight := w,
    Port := 80, BackendType := "ecs" }

/-- An interface-backed backend with the given interface id, address and weight. -/
def eniB (id ip : String) (w : Int) : BackendAttribute :=
  { NodeName := none, Description := "", ServerId := id, ServerIp := ip, Weight := w,
    Port := 80, BackendType := "eni" }

/-- A server group with the given backends. -/
def groupOf (bs : List BackendAttribute) : VServerGroup :=
  { VGroupId := "g", VGroupName := "g", ServicePort := ⟨"http", 80, 30080⟩, Backends := bs }

/-- A test double of the declarations outside the sources: a node is excluded when it
carries the label `exclude`, a provider id parses unless it is empty, and a node is looked
up by name. -/
def testEnv : Env :=
  { IPv4 := "ipv4", PayByBandwidth := "paybybandwidth", InternetAddressType := "internet",
    ECINodeLabel := "virtual-kubelet",
    LabelNodeRoleMaster := "node-role.kubernetes.io/master",
    BackendLabel := "backend-label", RemoveUnscheduled := "remove-unscheduled-backend",
    MAX_BACKEND_NUM := 50,
    jsonMarshal := fun bs => .ok (String.intercalate "," (bs.map (fun b => b.ServerId))),
    isExcludeNode := fun n => (n.Labels "exclude").isSome,
    nodeFromProviderID := fun pid =>
      if pid = "" then .error "empty provider id" else .ok ("cn-hangzhou", pid),
    findNodeByNodeName := fun nodes name => nodes.find? (fun n => decide (n.Name = name)) }

/-- A provider whose calls all succeed and that knows no network interface. -/
def testCloud : Provider :=
  { VpcID := .ok "vpc-1",
    DescribeNetworkInterfaces := fun _ _ _ => .ok ⟨[], ""⟩,
    call := fun _ => .ok () }

/-- A provider whose mutating calls all fail. -/
def failingCloud : Provider :=
  { VpcID := .ok "vpc-1",
    DescribeNetworkInterfaces := fun _ _ _ => .ok ⟨[], ""⟩,
    call := fun _ => .error "provider error" }

/-- A ready worker node with the given name and provider id. -/
def workerNode (name pid : String) : Node :=
  { Name := name, Labels := GoMap.empty, Unschedulable := false, ProviderID := pid,
    Conditions := [⟨"Ready", "True"⟩] }

/-- Three eligible nodes and one endpoint address, on node A. -/
def threeNodes : EndpointWithENI :=
  { TrafficPolicy := "Cluster",
    Nodes := [workerNode "node-a" "i-a", workerNode "node-b" "i-b", workerNode "node-c" "i-c"],
    Endpoints := ⟨[⟨[⟨"10.0.0.1", some "node-a"⟩], [⟨"http", 8080⟩]⟩]⟩ }

/-- The same three nodes with an endpoint object without subsets. -/
def threeNodesNoEndpoints : EndpointWithENI :=
  { TrafficPolicy := "Cluster",
    Nodes := [workerNode "node-a" "i-a", workerNode "node-b" "i-b", workerNode "node-c" "i-c"],
    Endpoints := ⟨[]⟩ }

/-- An observed internet-facing load balancer, all attributes set. -/
def observedLb : LoadBalancer :=
  { NamespacedName := "default/web",
    LoadBalancerAttribute :=
      { LoadBalancerId := "lb-1", LoadBalancerName := "web", AddressType := "internet",
        AddressIPVersion := "", InternetChargeType := "paybytraffic", Bandwidth := 5,
        LoadBalancerSpec := "slb.s1.small", MasterZoneId := "zone-a", SlaveZoneId := "zone-b",
        ResourceGroupId := "rg-1", DeleteProtection := "on",
        ModificationProtectionStatus := "ConsoleProtection" } }

/-- A desired load balancer that sets no attribute. -/
def emptyLb : LoadBalancer :=
  { NamespacedName := "default/web",
    LoadBalancerAttribute :=
      { LoadBalancerId := "", LoadBalancerName := "", AddressType := "",
        AddressIPVersion := "", InternetChargeType := "", Bandwidth := 0,
        LoadBalancerSpec := "", MasterZoneId := "", SlaveZoneId := "",
        ResourceGroupId := "", DeleteProtection := "", ModificationProtectionStatus := "" } }

/-- A desired load balancer that asks for another master zone. -/
def otherMasterZoneLb : LoadBalancer :=
  { emptyLb with
    LoadBalancerAttribute := { emptyLb.LoadBalancerAttribute with MasterZoneId := "zone-c" } }

/-- A desired load balancer that asks for another resource group. -/
def otherResourceGroupLb : LoadBalancer :=
  { emptyLb with
    LoadBalancerAttribute := { emptyLb.LoadBalancerAttribute with ResourceGroupId := "rg-2" } }

/-- A desired load balancer that asks for another instance spec and another name. -/
def otherSpecAndNameLb : LoadBalancer :=
  { emptyLb with
    LoadBalancerAttribute :=
      { emptyLb.LoadBalancerAttribute with
        LoadBalancerSpec := "slb.s2.small", LoadBalancerName := "web-2" } }

/-- A desired load balancer that asks for another address IP version. -/
def otherIPVersionLb : LoadBalancer :=
  { emptyLb with
    LoadBalancerAttribute := { emptyLb.LoadBalancerAttribute with AddressIPVersion := "ipv6" } }

/-- An observed load balancer like `observedLb`, on an intranet address. -/
def observedIntranetLb : LoadBalancer :=
  { observedLb with
    LoadBalancerAttribute := { observedLb.LoadBalancerAttribute with AddressType := "intranet" } }

/-- A desired load balancer that asks for pay-by-bandwidth with bandwidth 10. -/
def payByBandwidthLb : LoadBalancer :=
  { emptyLb with
    LoadBalancerAttribute :=
      { emptyLb.LoadBalancerAttribute with
        InternetChargeType := "paybybandwidth", Bandwidth := 10 } }

/-- The label map that holds the given pairs. -/
def labelsOf (pairs : List (String × String)) : GoMap String := fun k => pairs.lookup k

/-- A ready worker node with the given name and labels. -/
def labelledNode (name : String) (pairs : List (String × String)) : Node :=
  { Name := name, Labels := labelsOf pairs, Unschedulable := false, ProviderID := "i-" ++ name,
    Conditions := [⟨"Ready", "True"⟩] }

/-- An unschedulable worker node whose `Ready` condition is `False`. -/
def cordonedNode : Node :=
  { Name := "node-x", Labels := GoMap.empty, Unschedulable := true, ProviderID := "i-x",
    Conditions := [⟨"Ready", "False"⟩] }

/-- The annotations that set only the remove-unscheduled annotation, to `v`. -/
def annoRemoveUnscheduled (v : String) : AnnotationRequest :=
  { Get := fun k => if k = "remove-unscheduled-backend" then v else "" }

/-- The annotations that set only the backend-label annotation, to the selector `v`. -/
def annoBackendLabel (v : String) : AnnotationRequest :=
  { Get := fun k => if k = "backend-label" then v else "" }

/-- A provider whose interface lookup has two pages: the first, under the empty token,
holds interface `eni-1` with address `10.0.0.1`, the second, under token `t1`, holds
interface `eni-2` with address `10.0.0.2`. -/
def twoPageCloud : Provider :=
  { VpcID := .ok "vpc-1",
    DescribeNetworkInterfaces := fun _ _ token =>
      if token = "" then .ok ⟨[⟨"eni-1", [⟨"10.0.0.1"⟩]⟩], "t1"⟩
      else .ok ⟨[⟨"eni-2", [⟨"10.0.0.2"⟩]⟩], ""⟩,
    call := fun _ => .ok () }

/-- The two pages of `twoPageCloud`. -/
def twoPages : List DescribeNetworkInterfacesResponse :=
  [⟨[⟨"eni-1", [⟨"10.0.0.1"⟩]⟩], "t1"⟩, ⟨[⟨"eni-2", [⟨"10.0.0.2"⟩]⟩], ""⟩]

/-- An endpoint backend as `setGenericBackendAttribute` builds it, for the address `ip`. -/
def endpointB (ip : String) : BackendAttribute :=
  { NodeName := some "node-a", Description := "g", ServerId := "", ServerIp := ip, Weight := 0,
    Port := 8080, BackendType := "" }

/-- A candidate set in ENI mode with two endpoint addresses in one subset. -/
def twoAddresses : EndpointWithENI :=
  { TrafficPolicy := "ENI", Nodes := [],
    Endpoints :=
      ⟨[⟨[⟨"10.0.0.1", some "node-a"⟩, ⟨"10.0.0.2", some "node-a"⟩], [⟨"http", 8080⟩]⟩]⟩ }

/-- A provider whose interface lookup has one page, on which the interface `eni-1` has the
two addresses `10.0.1.1` and `10.0.1.2`. -/
def sharedEniCloud : Provider :=
  { VpcID := .ok "vpc-1",
    DescribeNetworkInterfaces := fun _ _ _ =>
      .ok ⟨[⟨"eni-1", [⟨"10.0.1.1"⟩, ⟨"10.0.1.2"⟩]⟩], ""⟩,
    call := fun _ => .ok () }

/-- A candidate set in local mode: a worker node with two endpoint addresses and a virtual
node with two endpoint addresses. -/
def localCandidates : EndpointWithENI :=
  { TrafficPolicy := "Local",
    Nodes := [labelledNode "a" [], labelledNode "vk" [("type", "virtual-kubelet")]],
    Endpoints :=
      ⟨[⟨[⟨"10.0.0.1", some "a"⟩, ⟨"10.0.0.2", some "a"⟩,
          ⟨"10.0.1.1", some "vk"⟩, ⟨"10.0.1.2", some "vk"⟩], [⟨"http", 8080⟩]⟩]⟩ }

/-- A provider whose calls to add backends fail and whose other calls succeed. -/
def addFailingCloud : Provider :=
  { VpcID := .ok "vpc-1",
    DescribeNetworkInterfaces := fun _ _ _ => .ok ⟨[], ""⟩,
    call := fun c =>
      match c with
      | .AddVServerGroupBackendServers _ _ => .error "add failed"
      | _ => .ok () }

/-- An observed internet-facing load balancer that is already pay-by-bandwidth. -/
def observedPbbLb : LoadBalancer :=
  { observedLb with
    LoadBalancerAttribute :=
      { observedLb.LoadBalancerAttribute with InternetChargeType := "paybybandwidth" } }

/-- A desired load balancer that sets only the bandwidth, to 10. -/
def bandwidthOnlyLb : LoadBalancer :=
  { emptyLb with
    LoadBalancerAttribute := { emptyLb.LoadBalancerAttribute with Bandwidth := 10 } }

/-- A desired load balancer that differs from `observedLb` in charge type and bandwidth,
spec, delete protection, modification protection and name. -/
def allDifferentLb : LoadBalancer :=
  { emptyLb with
    LoadBalancerAttribute :=
      { emptyLb.LoadBalancerAttribute with
        InternetChargeType := "paybybandwidth", Bandwidth := 10,
        LoadBalancerSpec := "slb.s2.small", DeleteProtection := "off",
        ModificationProtectionStatus := "NonProtection", LoadBalancerName := "web-2" } }

/-- A provider whose calls to remove backends fail and whose other calls succeed. -/
def removeFailingCloud : Provider :=
  { VpcID := .ok "vpc-1",
    DescribeNetworkInterfaces := fun _ _ _ => .ok ⟨[], ""⟩,
    call := fun c =>
      match c with
      | .RemoveVServerGroupBackendServers _ _ => .error "remove failed"
      | _ => .ok () }

/-- The declarations of `testEnv` with chunks of at most two backends. -/
def smallChunkEnv : Env :=
  { testEnv with MAX_BACKEND_NUM := 2 }

/-- A desired server group `g-l` with the backends `i-1`, `i-2`, `i-3` and, with weight 3,
`i-4`. -/
def desiredGroup : VServerGroup :=
  { groupOf [ecsB "i-1" "10.0.0.1" 100, ecsB "i-2" "10.0.0.2" 100, ecsB "i-3" "10.0.0.3" 100,
      ecsB "i-4" "10.0.0.4" 3] with VGroupId := "g-l" }

/-- An observed server group `g-r` with the backends `i-4`, with weight 1, and `i-5`. -/
def observedGroup : VServerGroup :=
  { groupOf [ecsB "i-4" "10.0.0.4" 1, ecsB "i-5" "10.0.0.5" 100] with VGroupId := "g-r" }

/-! ## Properties of `diff` -/

/-- A loop that appends the elements satisfying a test computes a filter. -/
theorem foldl_append_if {α : Type} (p : α → Bool) (xs : List α) (init : List α) :
    xs.foldl (fun acc x => if p x then acc ++ [x] else acc) init = init ++ xs.filter p := by
  induction xs generalizing init with
  | nil => simp
  | cons x xs ih =>
    simp only [List.foldl_cons, ih, List.filter_cons]
    by_cases h : p x = true <;> simp [h]

theorem sameKey_refl (b : BackendAttribute) : sameKey b b := by
  unfold sameKey; split <;> simp

theorem diffFoundLocal_iff (r : BackendAttribute) (ls : List BackendAttribute) :
    diffFoundLocal r ls = true ↔ ∃ l ∈ ls, sameKey l r := by
  induction ls with
  | nil => simp [diffFoundLocal]
  | cons l ls ih =>
    have hcons : (∃ x ∈ l :: ls, sameKey x r) ↔ sameKey l r ∨ ∃ x ∈ ls, sameKey x r := by simp
    rw [hcons, ← ih]
    simp only [diffFoundLocal]
    unfold sameKey
    by_cases ht : l.BackendType = "eni"
    · by_cases hk : r.ServerId = l.ServerId ∧ r.ServerIp = l.ServerIp
      · simp [ht, hk]
      · simp [ht, hk]
    · by_cases hk : r.ServerId = l.ServerId
      · simp [ht, hk]
      · simp [ht, hk]

theorem diffFoundRemote_iff (l : BackendAttribute) (rs : List BackendAttribute) :
    diffFoundRemote l rs = true ↔ ∃ r ∈ rs, sameKey l r := by
  induction rs with
  | nil => simp [diffFoundRemote]
  | cons r rs ih =>
    have hcons : (∃ x ∈ r :: rs, sameKey l x) ↔ sameKey l r ∨ ∃ x ∈ rs, sameKey l x := by simp
    rw [hcons, ← ih]
    simp only [diffFoundRemote]
    unfold sameKey
    by_cases ht : l.BackendType = "eni"
    · by_cases hk : r.ServerId = l.ServerId ∧ r.ServerIp = l.ServerIp
      · simp [ht, hk]
      · simp [ht, hk]
    · by_cases hk : r.ServerId = l.ServerId
      · simp [ht, hk]
      · simp [ht, hk]

theorem diffUpdateScan_eq (l : BackendAttribute) (acc rs : List BackendAttribute) :
    diffUpdateScan l acc rs =
      if ∃ r ∈ rs, sameKey l r ∧ l.Weight ≠ r.Weight then acc ++ [l] else acc := by
  induction rs with
  | nil => simp [diffUpdateScan]
  | cons r rs ih =>
    have hcons : (∃ x ∈ r :: rs, sameKey l x ∧ l.Weight ≠ x.Weight) ↔
        (sameKey l r ∧ l.Weight ≠ r.Weight) ∨ ∃ x ∈ rs, sameKey l x ∧ l.Weight ≠ x.Weight := by
      simp
    simp only [diffUpdateScan]
    by_cases ht : l.BackendType = "eni"
    · rw [if_pos ht]
      by_cases hk : l.ServerId = r.ServerId ∧ l.ServerIp = r.ServerIp ∧ l.Weight ≠ r.Weight
      · have hk' : sameKey l r ∧ l.Weight ≠ r.Weight := by
          unfold sameKey; rw [if_pos ht]; exact ⟨⟨hk.1.symm, hk.2.1.symm⟩, hk.2.2⟩
        rw [if_pos hk, if_pos (hcons.2 (Or.inl hk'))]
      · have hk' : ¬ (sameKey l r ∧ l.Weight ≠ r.Weight) := by
          unfold sameKey; rw [if_pos ht]
          exact fun h => hk ⟨h.1.1.symm, h.1.2.symm, h.2⟩
        rw [if_neg hk, ih]
        by_cases hr : ∃ x ∈ rs, sameKey l x ∧ l.Weight ≠ x.Weight
        · rw [if_pos hr, if_pos (hcons.2 (Or.inr hr))]
        · rw [if_neg hr, if_neg (fun h => (hcons.1 h).elim hk' hr)]
    · rw [if_neg ht]
      by_cases hk : l.ServerId = r.ServerId ∧ l.Weight ≠ r.Weight
      · have hk' : sameKey l r ∧ l.Weight ≠ r.Weight := by
          unfold sameKey; rw [if_neg ht]; exact ⟨hk.1.symm, hk.2⟩
        rw [if_pos hk, if_pos (hcons.2 (Or.inl hk'))]
      · have hk' : ¬ (sameKey l r ∧ l.Weight ≠ r.Weight) := by
          unfold sameKey; rw [if_neg ht]
          exact fun h => hk ⟨h.1.symm, h.2⟩
        rw [if_neg hk, ih]
        by_cases hr : ∃ x ∈ rs, sameKey l x ∧ l.Weight ≠ x.Weight
        · rw [if_pos hr, if_pos (hcons.2 (Or.inr hr))]
        · rw [if_neg hr, if_neg (fun h => (hcons.1 h).elim hk' hr)]

theorem diff_additions_eq (remote lcl : VServerGroup) :
    (diff remote lcl).1 =
      lcl.Backends.filter (fun l => decide (¬ ∃ r ∈ remote.Backends, sameKey l r)) := by
  simp only [diff]
  rw [foldl_append_if (fun l => !(diffFoundRemote l remote.Backends))]
  simp only [List.nil_append]
  apply List.filter_congr
  intro l _
  by_cases h : diffFoundRemote l remote.Backends = true
  · have := (diffFoundRemote_iff l remote.Backends).1 h
    simp [h, this]
  · have := mt (diffFoundRemote_iff l remote.Backends).2 h
    simp [h, this]

theorem diff_deletions_eq (remote lcl : VServerGroup) :
    (diff remote lcl).2.1 =
      remote.Backends.filter (fun r => decide (¬ ∃ l ∈ lcl.Backends, sameKey l r)) := by
  simp only [diff]
  rw [foldl_append_if (fun r => !(diffFoundLocal r lcl.Backends))]
  simp only [List.nil_append]
  apply List.filter_congr
  intro r _
  by_cases h : diffFoundLocal r lcl.Backends = true
  · have := (diffFoundLocal_iff r lcl.Backends).1 h
    simp [h, this]
  · have := mt (diffFoundLocal_iff r lcl.Backends).2 h
    simp [h, this]

theorem diff_updates_eq (remote lcl : VServerGroup) :
    (diff remote lcl).2.2 =
      lcl.Backends.filter
        (fun l => decide (∃ r ∈ remote.Backends, sameKey l r ∧ l.Weight ≠ r.Weight)) := by
  simp only [diff]
  have h : (fun updates l => diffUpdateScan l updates remote.Backends) =
      (fun acc l => if (fun l => decide (∃ r ∈ remote.Backends,
        sameKey l r ∧ l.Weight ≠ r.Weight)) l then acc ++ [l] else acc) := by
    funext acc l
    rw [diffUpdateScan_eq]
    simp
  rw [h, foldl_append_if]
  simp

/-- C1: the additions returned by `diff remote lcl` are exactly the desired backends, in
desired order, for which no observed backend carries the same matching key, the key being
`(ServerId, ServerIp)` when the desired backend has type `"eni"` and `ServerId` otherwise. -/
theorem diff_additions (remote lcl : VServerGroup) :
    (diff remote lcl).1 =
      lcl.Backends.filter (fun l => decide (¬ ∃ r ∈ remote.Backends, sameKey l r)) :=
  diff_additions_eq remote lcl

/-- C2, as stated, fails: an observed backend of type `"eni"` whose `(ServerId, ServerIp)` no
desired backend carries is not removed when a desired backend of another type has the same
`ServerId`; the list the claim describes holds the observed backend, the code returns an
empty list. -/
theorem diff_removals_own_key_counterexample :
    (diff (groupOf [eniB "s-1" "10.0.0.1" 100]) (groupOf [ecsB "s-1" "10.0.0.2" 100])).2.1 = [] ∧
    (groupOf [eniB "s-1" "10.0.0.1" 100]).Backends.filter
      (fun r => decide (¬ ∃ l ∈ (groupOf [ecsB "s-1" "10.0.0.2" 100]).Backends, sameKey r l)) =
      [eniB "s-1" "10.0.0.1" 100] := by
  decide

/-- C2, amended: the removals returned by `diff remote lcl` are exactly the observed
backends, in observed order, that no desired backend matches, where a desired backend `l`
matches an observed backend `r` when `l` has type `"eni"` and `ServerId` and `ServerIp` agree,
or `l` has another type and `ServerId` agrees: the key is selected by the type of the desired
backend. -/
theorem diff_removals (remote lcl : VServerGroup) :
    (diff remote lcl).2.1 =
      remote.Backends.filter (fun r => decide (¬ ∃ l ∈ lcl.Backends, sameKey l r)) :=
  diff_deletions_eq remote lcl

/-- C3: the weight updates returned by `diff remote lcl` are exactly the desired backends, in
desired order and each entry of the desired list at most once, for which some observed
backend carries the same matching key and a different weight; so a backend is listed only
for a weight difference. -/
theorem diff_updates (remote lcl : VServerGroup) :
    (diff remote lcl).2.2 =
      lcl.Backends.filter
        (fun l => decide (∃ r ∈ remote.Backends, sameKey l r ∧ l.Weight ≠ r.Weight)) ∧
    (∀ b, (diff remote lcl).2.2.count b ≤ lcl.Backends.count b) ∧
    (∀ l ∈ (diff remote lcl).2.2, ∃ r ∈ remote.Backends, sameKey l r ∧ l.Weight ≠ r.Weight) := by
  refine ⟨diff_updates_eq remote lcl, ?_, ?_⟩
  · intro b
    rw [diff_updates_eq]
    exact List.Sublist.count_le (List.filter_sublist _) b
  · intro l hl
    rw [diff_updates_eq, List.mem_filter] at hl
    simpa using hl.2

/-- C4, as stated, fails: a list with two entries of one `ServerId` and different weights,
diffed against itself, yields weight updates. -/
theorem diff_self_counterexample :
    diff (groupOf [ecsB "i-1" "10.0.0.1" 1, ecsB "i-1" "10.0.0.2" 2])
         (groupOf [ecsB "i-1" "10.0.0.1" 1, ecsB "i-1" "10.0.0.2" 2]) ≠ ([], [], []) := by
  decide

/-- C4, amended: when the observed backends equal the desired backends and no two entries
that share a matching key have different weights, `diff` returns three empty lists. -/
theorem diff_self (remote lcl : VServerGroup) (hsame : remote.Backends = lcl.Backends)
    (hweights : ∀ l ∈ lcl.Backends, ∀ r ∈ lcl.Backends, sameKey l r → l.Weight = r.Weight) :
    diff remote lcl = ([], [], []) := by
  have hadd := diff_additions_eq remote lcl
  have hdel := diff_deletions_eq remote lcl
  have hupd := diff_updates_eq remote lcl
  rw [hsame] at hadd hdel hupd
  have h1 : (diff remote lcl).1 = [] := by
    rw [hadd, List.filter_eq_nil_iff]
    intro l hl
    have : ∃ r ∈ lcl.Backends, sameKey l r := ⟨l, hl, sameKey_refl l⟩
    simp [this]
  have h2 : (diff remote lcl).2.1 = [] := by
    rw [hdel, List.filter_eq_nil_iff]
    intro r hr
    have : ∃ l ∈ lcl.Backends, sameKey l r := ⟨r, hr, sameKey_refl r⟩
    simp [this]
  have h3 : (diff remote lcl).2.2 = [] := by
    rw [hupd, List.filter_eq_nil_iff]
    intro l hl
    have : ¬ ∃ r ∈ lcl.Backends, sameKey l r ∧ l.Weight ≠ r.Weight := by
      rintro ⟨r, hr, hk, hw⟩
      exact hw (hweights l hl r hr hk)
    simp [this]
  exact Prod.ext h1 (Prod.ext h2 h3)

/-- Witness of `diff_self`: two backends with different keys, diffed against themselves. -/
theorem diff_self_witness :
    diff (groupOf [ecsB "i-1" "10.0.0.1" 3, eniB "eni-1" "10.0.0.2" 100])
         (groupOf [ecsB "i-1" "10.0.0.1" 3, eniB "eni-1" "10.0.0.2" 100]) = ([], [], []) :=
  diff_self _ _ rfl (by decide)

/-- C5: the three lists returned by `diff` are pairwise disjoint: no backend value occurs in
two of additions, removals and weight updates. -/
theorem diff_disjoint (remote lcl : VServerGroup) :
    List.Disjoint (diff remote lcl).1 (diff remote lcl).2.1 ∧
    List.Disjoint (diff remote lcl).1 (diff remote lcl).2.2 ∧
    List.Disjoint (diff remote lcl).2.1 (diff remote lcl).2.2 := by
  rw [diff_additions_eq, diff_deletions_eq, diff_updates_eq]
  refine ⟨?_, ?_, ?_⟩
  · intro b hadd hdel
    rw [List.mem_filter] at hadd hdel
    have hno : ¬ ∃ r ∈ remote.Backends, sameKey b r := by simpa using hadd.2
    exact hno ⟨b, hdel.1, sameKey_refl b⟩
  · intro b hadd hupd
    rw [List.mem_filter] at hadd hupd
    have hno : ¬ ∃ r ∈ remote.Backends, sameKey b r := by simpa using hadd.2
    have hyes : ∃ r ∈ remote.Backends, sameKey b r ∧ b.Weight ≠ r.Weight := by
      simpa using hupd.2
    obtain ⟨r, hr, hk, _⟩ := hyes
    exact hno ⟨r, hr, hk⟩
  · intro b hdel hupd
    rw [List.mem_filter] at hdel hupd
    have hno : ¬ ∃ l ∈ lcl.Backends, sameKey l b := by simpa using hdel.2
    exact hno ⟨b, hupd.1, sameKey_refl b⟩

/-! ## Properties of the local-mode weights -/

theorem ecsPods_foldl (bs : List BackendAttribute) (m : GoMap Int) (k : String) :
    ((bs.foldl (fun ecsPods b => ecsPods.set b.ServerId ((ecsPods b.ServerId).getD 0 + 1)) m)
      k).getD 0 = (m k).getD 0 + (podCount bs k : Int) := by
  induction bs generalizing m with
  | nil => simp [podCount]
  | cons b bs ih =>
    rw [List.foldl_cons, ih]
    unfold podCount GoMap.set
    by_cases hk : b.ServerId = k
    · subst hk
      simp [List.filter_cons]
      ring
    · have hk' : ¬ k = b.ServerId := fun h => hk h.symm
      simp [List.filter_cons, hk, hk']

theorem ecsPodsOf_getD (bs : List BackendAttribute) (k : String) :
    (ecsPodsOf bs k).getD 0 = (podCount bs k : Int) := by
  unfold ecsPodsOf
  rw [ecsPods_foldl]
  simp [GoMap.empty]

theorem setWeightForLocalBackends_eq (bs : List BackendAttribute) :
    setWeightForLocalBackends bs =
      bs.map (fun b => { b with Weight := (podCount bs b.ServerId : Int) }) := by
  unfold setWeightForLocalBackends
  apply List.map_congr_left
  intro b _
  rw [ecsPodsOf_getD]

theorem setWeightForLocalBackends_ids (bs : List BackendAttribute) :
    (setWeightForLocalBackends bs).map (fun b => b.ServerId) = bs.map (fun b => b.ServerId) := by
  rw [setWeightForLocalBackends_eq, List.map_map]
  rfl

theorem remoteDuplicatedECS_foldl (bs : List BackendAttribute) (seen : GoMap Bool)
    (acc : List BackendAttribute) :
    (bs.foldl
      (fun (st : GoMap Bool × List BackendAttribute) backend =>
        match st.1 backend.ServerId with
        | some _ => st
        | none => (st.1.set backend.ServerId true, st.2 ++ [backend]))
      (seen, acc)).2 =
    acc ++ (firstByServerId bs).filter (fun x => decide (seen x.ServerId = none)) := by
  induction bs generalizing seen acc with
  | nil => simp [firstByServerId]
  | cons b bs ih =>
    rw [List.foldl_cons]
    cases hb : seen b.ServerId with
    | some v =>
      simp only []
      rw [ih, firstByServerId, List.filter_cons]
      simp only [hb, reduceCtorEq, decide_False, Bool.false_eq_true, if_false]
      rw [List.filter_filter]
      congr 1
      apply List.filter_congr
      intro x _
      by_cases hx : x.ServerId = b.ServerId
      · simp [hx, hb]
      · simp [hx]
    | none =>
      simp only []
      rw [ih, firstByServerId, List.filter_cons]
      simp only [hb, decide_True, if_true]
      rw [List.filter_filter, List.append_assoc]
      congr 1
      simp only [List.singleton_append]
      congr 1
      apply List.filter_congr
      intro x _
      by_cases hx : x.ServerId = b.ServerId
      · simp [hx, GoMap.set]
      · simp [hx, GoMap.set]

theorem remoteDuplicatedECS_eq (bs : List BackendAttribute) :
    remoteDuplicatedECS bs = firstByServerId bs := by
  unfold remoteDuplicatedECS
  rw [remoteDuplicatedECS_foldl]
  simp [GoMap.empty]

theorem mem_firstOccurrences (ks : List String) (k : String) :
    k ∈ firstOccurrences ks ↔ k ∈ ks := by
  induction ks with
  | nil => simp [firstOccurrences]
  | cons x xs ih =>
    simp only [firstOccurrences, List.mem_cons, List.mem_filter, ih]
    by_cases h : k = x
    · simp [h]
    · simp [h]

theorem firstOccurrences_nodup (ks : List String) : (firstOccurrences ks).Nodup := by
  induction ks with
  | nil => simp [firstOccurrences]
  | cons x xs ih =>
    simp only [firstOccurrences, List.nodup_cons, List.mem_filter]
    exact ⟨by simp, ih.filter _⟩

theorem firstByServerId_ids (bs : List BackendAttribute) :
    (firstByServerId bs).map (fun b => b.ServerId) =
      firstOccurrences (bs.map (fun b => b.ServerId)) := by
  induction bs with
  | nil => simp [firstByServerId, firstOccurrences]
  | cons b bs ih =>
    simp only [firstByServerId, firstOccurrences, List.map_cons]
    rw [← ih, List.filter_map]
    rfl

theorem firstByServerId_subset (bs : List BackendAttribute) (x : BackendAttribute)
    (hx : x ∈ firstByServerId bs) : x ∈ bs := by
  induction bs with
  | nil => simp [firstByServerId] at hx
  | cons b bs ih =>
    simp only [firstByServerId, List.mem_cons, List.mem_filter] at hx
    rcases hx with h | h
    · simp [h]
    · exact List.mem_cons_of_mem _ (ih h.1)

theorem podCount_eq_count (bs : List BackendAttribute) (k : String) :
    podCount bs k = (bs.map (fun b => b.ServerId)).count k := by
  induction bs with
  | nil => simp [podCount]
  | cons b bs ih =>
    unfold podCount at ih ⊢
    rw [List.map_cons, List.count_cons, ← ih, List.filter_cons]
    by_cases h : b.ServerId = k
    · simp [h]
    · simp [h]

theorem sum_count_firstOccurrences (ks : List String) :
    ((firstOccurrences ks).map (fun k => ((ks.count k : Nat) : Int))).sum = (ks.length : Int) := by
  rw [← List.sum_toFinset _ (firstOccurrences_nodup ks)]
  have hfin : (firstOccurrences ks).toFinset = ks.toFinset := by
    ext k
    simp [mem_firstOccurrences]
  rw [hfin, ← Nat.cast_sum, List.sum_toFinset_count_eq_length]

/-- C6: after `setWeightForLocalBackends` and `remoteDuplicatedECS` the list holds exactly
one entry per distinct `ServerId` of the input, in order of first occurrence, the weight of
each entry is the number of input entries with that `ServerId`, and the weights sum to the
length of the input. -/
theorem local_weights (bs : List BackendAttribute) :
    (remoteDuplicatedECS (setWeightForLocalBackends bs)).map (fun b => b.ServerId) =
      firstOccurrences (bs.map (fun b => b.ServerId)) ∧
    ((remoteDuplicatedECS (setWeightForLocalBackends bs)).map (fun b => b.ServerId)).Nodup ∧
    (∀ k, k ∈ (remoteDuplicatedECS (setWeightForLocalBackends bs)).map (fun b => b.ServerId) ↔
      k ∈ bs.map (fun b => b.ServerId)) ∧
    (∀ e ∈ remoteDuplicatedECS (setWeightForLocalBackends bs),
      e.Weight = ((bs.filter (fun b => decide (b.ServerId = e.ServerId))).length : Int)) ∧
    ((remoteDuplicatedECS (setWeightForLocalBackends bs)).map (fun b => b.Weight)).sum =
      (bs.length : Int) := by
  have hids : (remoteDuplicatedECS (setWeightForLocalBackends bs)).map (fun b => b.ServerId) =
      firstOccurrences (bs.map (fun b => b.ServerId)) := by
    rw [remoteDuplicatedECS_eq, firstByServerId_ids, setWeightForLocalBackends_ids]
  have hw : ∀ e ∈ remoteDuplicatedECS (setWeightForLocalBackends bs),
      e.Weight = (podCount bs e.ServerId : Int) := by
    intro e he
    rw [remoteDuplicatedECS_eq] at he
    have he' := firstByServerId_subset _ _ he
    rw [setWeightForLocalBackends_eq, List.mem_map] at he'
    obtain ⟨b, _, rfl⟩ := he'
    rfl
  refine ⟨hids, ?_, ?_, hw, ?_⟩
  · rw [hids]; exact firstOccurrences_nodup _
  · intro k
    rw [hids]; exact mem_firstOccurrences _ k
  · have hmap : (remoteDuplicatedECS (setWeightForLocalBackends bs)).map (fun b => b.Weight) =
        ((remoteDuplicatedECS (setWeightForLocalBackends bs)).map (fun b => b.ServerId)).map
          (fun k => (((bs.map (fun b => b.ServerId)).count k : Nat) : Int)) := by
      rw [List.map_map]
      apply List.map_congr_left
      intro e he
      simp only [Function.comp]
      rw [hw e he, podCount_eq_count]
    rw [hmap, hids, sum_count_firstOccurrences, List.length_map]

/-- The example of C6: three addresses on node A and one on node B give two entries, with
weights 3 and 1. -/
theorem local_weights_example :
    remoteDuplicatedECS (setWeightForLocalBackends
      [ecsB "i-a" "10.0.0.1" 0, ecsB "i-a" "10.0.0.2" 0, ecsB "i-b" "10.0.0.3" 0,
       ecsB "i-a" "10.0.0.4" 0]) =
      [ecsB "i-a" "10.0.0.1" 3, ecsB "i-b" "10.0.0.3" 1] := by
  decide

/-! ## Properties of `buildClusterBackends` -/

theorem setGenericBackendAttribute_inner (vgroup : VServerGroup) (ep : EndpointSubset)
    (addrs : List EndpointAddress) (acc : List BackendAttribute) :
    addrs.foldl
      (fun backends addr =>
        backends ++ [{ NodeName := addr.NodeName, ServerIp := addr.IP,
                       Port := backendPortOf vgroup.ServicePort.Name ep.Ports,
                       Description := vgroup.VGroupName, ServerId := "", Weight := 0,
                       BackendType := "" }])
      acc = acc ++ addrs.map (genericBackend vgroup ep) := by
  induction addrs generalizing acc with
  | nil => simp
  | cons a addrs ih =>
    rw [List.foldl_cons, ih]
    simp [genericBackend]

theorem setGenericBackendAttribute_outer (vgroup : VServerGroup) (eps : List EndpointSubset)
    (acc : List BackendAttribute) :
    eps.foldl
      (fun backends ep =>
        let backendPort := backendPortOf vgroup.ServicePort.Name ep.Ports
        ep.Addresses.foldl
          (fun backends addr =>
            backends ++ [{ NodeName := addr.NodeName, ServerIp := addr.IP, Port := backendPort,
                           Description := vgroup.VGroupName, ServerId := "", Weight := 0,
                           BackendType := "" }])
          backends)
      acc = acc ++ eps.flatMap (fun ep => ep.Addresses.map (genericBackend vgroup ep)) := by
  induction eps generalizing acc with
  | nil => simp
  | cons ep eps ih =>
    rw [List.foldl_cons]
    simp only []
    rw [setGenericBackendAttribute_inner, ih]
    simp

theorem setGenericBackendAttribute_eq (candidates : EndpointWithENI) (vgroup : VServerGroup) :
    setGenericBackendAttribute candidates vgroup =
      candidates.Endpoints.Subsets.flatMap
        (fun ep => ep.Addresses.map (genericBackend vgroup ep)) := by
  unfold setGenericBackendAttribute
  rw [setGenericBackendAttribute_outer]
  simp

theorem clusterEcsBackends_eq (env : Env) (vgroup : VServerGroup) (nodes : List Node)
    (acc : List BackendAttribute)
    (hparse : ∀ n ∈ nodes, env.isExcludeNode n = false →
      ∃ r, env.nodeFromProviderID n.ProviderID = .ok r) :
    clusterEcsBackends env vgroup nodes acc =
      .ok (acc ++ (nodes.filter (fun n => !env.isExcludeNode n)).map
        (fun n => clusterEcsBackend vgroup (instanceIdOf env n))) := by
  induction nodes generalizing acc with
  | nil => simp [clusterEcsBackends]
  | cons n nodes ih =>
    have ih' := fun acc => ih acc (fun m hm => hparse m (List.mem_cons_of_mem _ hm))
    rw [clusterEcsBackends]
    cases hex : env.isExcludeNode n with
    | true => simp [hex, ih']
    | false =>
      obtain ⟨r, hr⟩ := hparse n (List.mem_cons_self _ _) hex
      obtain ⟨region, id⟩ := r
      simp [hr, ih', hex, instanceIdOf]

theorem clusterEciBackends_eq (env : Env) (svcKey : String) (nodes : List Node)
    (bs acc : List BackendAttribute) (hnames : ∀ b ∈ bs, b.NodeName ≠ none) :
    clusterEciBackends env svcKey nodes bs acc =
      .ok (acc ++ bs.filter (onEciNode env nodes)) := by
  induction bs generalizing acc with
  | nil => simp [clusterEciBackends]
  | cons b bs ih =>
    have ih' := fun acc => ih acc (fun m hm => hnames m (List.mem_cons_of_mem _ hm))
    rw [clusterEciBackends]
    cases hn : b.NodeName with
    | none => exact absurd hn (hnames b (List.mem_cons_self _ _))
    | some nodeName =>
      simp only []
      cases hf : env.findNodeByNodeName nodes nodeName with
      | none => simp [ih', List.filter_cons, onEciNode, hn, hf]
      | some node =>
        by_cases hl : (node.Labels "type").getD "" = env.ECINodeLabel
        · simp [ih', List.filter_cons, onEciNode, hn, hf, hl]
        · simp [ih', List.filter_cons, onEciNode, hn, hf, hl]

theorem eniAssign_type (vpcId : String) (ecis : GoMap String) (bs out : List BackendAttribute)
    (h : eniAssign vpcId ecis bs = .ok out) : ∀ e ∈ out, e.BackendType = ENIBackendType := by
  induction bs generalizing out with
  | nil =>
    simp only [eniAssign, Except.ok.injEq] at h
    subst h; simp
  | cons b bs ih =>
    rw [eniAssign] at h
    cases he : ecis b.ServerIp with
    | none => simp [he] at h
    | some eniid =>
      cases hr : eniAssign vpcId ecis bs with
      | error err => simp [he, hr] at h
      | ok rest =>
        simp only [he, hr, Except.ok.injEq] at h
        subst h
        intro e hmem
        rcases List.mem_cons.1 hmem with h1 | h1
        · subst h1; rfl
        · exact ih rest hr e h1

theorem updateENIBackends_type (cloud : Provider) (fuel : Nat) (bs out : List BackendAttribute)
    (h : updateENIBackends cloud fuel bs = some (.ok out)) :
    ∀ e ∈ out, e.BackendType = ENIBackendType := by
  unfold updateENIBackends at h
  cases hv : cloud.VpcID with
  | error err => simp [hv] at h
  | ok vpcId =>
    simp only [hv] at h
    cases hp : eniPages cloud vpcId (bs.map (fun b => b.ServerIp)) fuel "" GoMap.empty with
    | none => simp [hp] at h
    | some res =>
      cases res with
      | error err => simp [hp] at h
      | ok ecis =>
        simp only [hp, Option.some.injEq] at h
        exact eniAssign_type vpcId ecis bs out h

/-- C7, as stated, fails: with three eligible nodes whose provider ids parse and an endpoint
object without subsets, `buildClusterBackends` returns no backend at all. -/
theorem buildClusterBackends_no_subsets_counterexample :
    buildClusterBackends testEnv testCloud 1 "default/web" threeNodesNoEndpoints (groupOf []) =
      some (.ok []) ∧
    (threeNodesNoEndpoints.Nodes.map (fun n => testEnv.isExcludeNode n)) =
      [false, false, false] ∧
    (threeNodesNoEndpoints.Nodes.map (fun n => instanceIdOf testEnv n)) =
      ["i-a", "i-b", "i-c"] := by
  refine ⟨rfl, by decide, by decide⟩

/-- C7, amended: when the provider ids of the nodes that `isExcludeNode` keeps parse, every
endpoint address carries a node name and the interface lookup for the addresses on ECI nodes
succeeds with `enis` (or there is no such address), `buildClusterBackends` succeeds; with no
endpoint subset it returns no backend, otherwise it returns one `ecs` backend per kept node,
in node order, each with the default weight and the `NodePort` of the service port, followed
by the resolved interface backends, which have type `eni`, at default weight. -/
theorem buildClusterBackends_complete (env : Env) (cloud : Provider) (fuel : Nat)
    (svcKey : String) (candidates : EndpointWithENI) (vgroup : VServerGroup)
    (enis : List BackendAttribute)
    (hparse : ∀ n ∈ candidates.Nodes, env.isExcludeNode n = false →
      ∃ r, env.nodeFromProviderID n.ProviderID = .ok r)
    (hnames : ∀ ep ∈ candidates.Endpoints.Subsets, ∀ a ∈ ep.Addresses, a.NodeName ≠ none)
    (hres :
      ((setGenericBackendAttribute candidates vgroup).filter (onEciNode env candidates.Nodes) = []
        ∧ enis = []) ∨
      updateENIBackends cloud fuel
        ((setGenericBackendAttribute candidates vgroup).filter (onEciNode env candidates.Nodes)) =
        some (.ok enis)) :
    buildClusterBackends env cloud fuel svcKey candidates vgroup =
      (if candidates.Endpoints.Subsets.length = 0 then some (.ok [])
       else some (.ok
        ((candidates.Nodes.filter (fun n => !env.isExcludeNode n)).map
            (fun n => ({ NodeName := none, ServerId := instanceIdOf env n, ServerIp := "",
                         Weight := DEFAULT_SERVER_WEIGHT, Port := vgroup.ServicePort.NodePort,
                         BackendType := ECSBackendType,
                         Description := vgroup.VGroupName } : BackendAttribute)) ++
          enis.map (fun b => { b with Weight := DEFAULT_SERVER_WEIGHT })))) ∧
    ∀ e ∈ enis, e.BackendType = ENIBackendType := by
  have hnames' : ∀ b ∈ setGenericBackendAttribute candidates vgroup, b.NodeName ≠ none := by
    intro b hb
    rw [setGenericBackendAttribute_eq, List.mem_flatMap] at hb
    obtain ⟨ep, hep, hb⟩ := hb
    rw [List.mem_map] at hb
    obtain ⟨a, ha, rfl⟩ := hb
    exact hnames ep hep a ha
  have hecs := clusterEcsBackends_eq env vgroup candidates.Nodes [] hparse
  have heci := clusterEciBackends_eq env svcKey candidates.Nodes
    (setGenericBackendAttribute candidates vgroup) [] hnames'
  simp only [List.nil_append] at hecs heci
  constructor
  · unfold buildClusterBackends
    by_cases hlen : candidates.Endpoints.Subsets.length = 0
    · simp [hlen]
    · rw [if_neg hlen, if_neg hlen]
      simp only [hecs, heci]
      have hmap : ∀ xs : List Node,
          (xs.map (fun n => clusterEcsBackend vgroup (instanceIdOf env n))).map
            (fun b => { b with Weight := DEFAULT_SERVER_WEIGHT }) =
          xs.map (fun n => clusterEcsBackend vgroup (instanceIdOf env n)) := by
        intro xs
        rw [List.map_map]
        rfl
      rcases hres with ⟨hnil, henis⟩ | hres
      · subst henis
        simp only [hnil, List.length_nil, ne_eq, not_true_eq_false, if_false, List.append_nil,
          List.map_nil]
        rw [hmap]
        rfl
      · by_cases hnil : (setGenericBackendAttribute candidates vgroup).filter
            (onEciNode env candidates.Nodes) = []
        · rw [hnil] at hres
          have : enis = [] := by
            unfold updateENIBackends at hres
            cases hv : cloud.VpcID with
            | error err => simp [hv] at hres
            | ok vpcId =>
              simp only [hv, List.map_nil] at hres
              cases hp : eniPages cloud vpcId [] fuel "" GoMap.empty with
              | none => simp [hp] at hres
              | some res =>
                cases res with
                | error err => simp [hp] at hres
                | ok ecis =>
                  simp only [hp, eniAssign, Option.some.injEq, Except.ok.injEq] at hres
                  exact hres.symm
          subst this
          simp only [hnil, List.length_nil, ne_eq, not_true_eq_false, if_false, List.append_nil,
            List.map_nil]
          rw [hmap]
          rfl
        · have hlen2 : ((setGenericBackendAttribute candidates vgroup).filter
              (onEciNode env candidates.Nodes)).length ≠ 0 := by
            simpa [List.length_eq_zero] using hnil
          rw [if_pos hlen2, hres]
          simp only [List.map_append]
          rw [hmap]
          rfl
  · rcases hres with ⟨_, henis⟩ | hres
    · subst henis; simp
    · exact updateENIBackends_type cloud fuel _ enis hres

/-- Witness of `buildClusterBackends_complete`: three eligible nodes and one endpoint address
on node A give three `ecs` backends at default weight and no interface backend. -/
theorem buildClusterBackends_complete_witness :
    buildClusterBackends testEnv testCloud 1 "default/web" threeNodes (groupOf []) =
      some (.ok
        [⟨none, "g", "i-a", "", 100, 30080, "ecs"⟩, ⟨none, "g", "i-b", "", 100, 30080, "ecs"⟩,
         ⟨none, "g", "i-c", "", 100, 30080, "ecs"⟩]) := by
  have h := (buildClusterBackends_complete testEnv testCloud 1 "default/web" threeNodes
    (groupOf []) []
    (by
      intro n hn _
      simp only [threeNodes, List.mem_cons, List.mem_singleton, List.not_mem_nil, or_false] at hn
      rcases hn with h | h | h <;> subst h <;> exact ⟨_, rfl⟩)
    (by
      intro ep hep a ha
      simp only [threeNodes, List.mem_singleton] at hep
      subst hep
      simp only [List.mem_singleton] at ha
      subst ha
      simp)
    (Or.inl ⟨by decide, rfl⟩)).1
  rw [h]
  rfl

/-! ## Properties of `Update` -/

theorem invoke_trace (cloud : Provider) (c : Call) : (invoke cloud c).1 = [c] := rfl

theorem invoke_result (cloud : Provider) (c : Call) : (invoke cloud c).2 = cloud.call c := rfl

theorem updateAttributes_length (cloud : Provider) (lbId : String)
    (l r : LoadBalancerAttribute) : (updateAttributes cloud lbId l r).1.length ≤ 1 := by
  unfold updateAttributes
  split_ifs <;> simp [invoke]

theorem updateAttributes_error (cloud : Provider) (lbId : String)
    (l r : LoadBalancerAttribute) (msg : String)
    (h : (updateAttributes cloud lbId l r).2 = .error msg) :
    ∃ c, (updateAttributes cloud lbId l r).1 = [c] ∧ cloud.call c = .error msg := by
  unfold updateAttributes at h ⊢
  split_ifs at h ⊢
  · exact ⟨_, rfl, h⟩
  · exact ⟨_, rfl, h⟩
  · exact ⟨_, rfl, h⟩
  · exact ⟨_, rfl, h⟩

/-- When all five guards pass, `Update` is the charge/bandwidth step followed by the
attribute steps. -/
theorem Update_guards_pass (env : Env) (cloud : Provider) (lcl remote : LoadBalancer)
    (hm : ¬ (lcl.LoadBalancerAttribute.MasterZoneId ≠ "" ∧
      lcl.LoadBalancerAttribute.MasterZoneId ≠ remote.LoadBalancerAttribute.MasterZoneId))
    (hs : ¬ (lcl.LoadBalancerAttribute.SlaveZoneId ≠ "" ∧
      lcl.LoadBalancerAttribute.SlaveZoneId ≠ remote.LoadBalancerAttribute.SlaveZoneId))
    (ha : ¬ (lcl.LoadBalancerAttribute.AddressType ≠ "" ∧
      lcl.LoadBalancerAttribute.AddressType ≠ remote.LoadBalancerAttribute.AddressType))
    (hv : equalsAddressIPVersion env lcl.LoadBalancerAttribute.AddressIPVersion
      remote.LoadBalancerAttribute.AddressIPVersion = true)
    (hr : ¬ (lcl.LoadBalancerAttribute.ResourceGroupId ≠ "" ∧
      lcl.LoadBalancerAttribute.ResourceGroupId ≠ remote.LoadBalancerAttribute.ResourceGroupId)) :
    Update env cloud lcl remote =
      if (chargeAndBandwidth env lcl.LoadBalancerAttribute remote.LoadBalancerAttribute).1 = true ∧
          remote.LoadBalancerAttribute.AddressType = env.InternetAddressType then
        invoke cloud (.ModifyLoadBalancerInternetSpec remote.LoadBalancerAttribute.LoadBalancerId
          (chargeAndBandwidth env lcl.LoadBalancerAttribute remote.LoadBalancerAttribute).2.1
          (chargeAndBandwidth env lcl.LoadBalancerAttribute remote.LoadBalancerAttribute).2.2)
      else updateAttributes cloud remote.LoadBalancerAttribute.LoadBalancerId
        lcl.LoadBalancerAttribute remote.LoadBalancerAttribute := by
  unfold Update
  simp only [hm, hs, ha, hr, hv, if_false, Bool.not_true, Bool.false_eq_true]
  rcases hcb : chargeAndBandwidth env lcl.LoadBalancerAttribute remote.LoadBalancerAttribute
    with ⟨needUpdate, charge, bandwidth⟩
  simp only []
  cases needUpdate with
  | false => simp
  | true =>
    by_cases hi : remote.LoadBalancerAttribute.AddressType = env.InternetAddressType
    · simp [hi]
    · simp [hi]

theorem Update_guards_pass_length (env : Env) (cloud : Provider) (lcl remote : LoadBalancer)
    (hm : ¬ (lcl.LoadBalancerAttribute.MasterZoneId ≠ "" ∧
      lcl.LoadBalancerAttribute.MasterZoneId ≠ remote.LoadBalancerAttribute.MasterZoneId))
    (hs : ¬ (lcl.LoadBalancerAttribute.SlaveZoneId ≠ "" ∧
      lcl.LoadBalancerAttribute.SlaveZoneId ≠ remote.LoadBalancerAttribute.SlaveZoneId))
    (ha : ¬ (lcl.LoadBalancerAttribute.AddressType ≠ "" ∧
      lcl.LoadBalancerAttribute.AddressType ≠ remote.LoadBalancerAttribute.AddressType))
    (hv : equalsAddressIPVersion env lcl.LoadBalancerAttribute.AddressIPVersion
      remote.LoadBalancerAttribute.AddressIPVersion = true)
    (hr : ¬ (lcl.LoadBalancerAttribute.ResourceGroupId ≠ "" ∧
      lcl.LoadBalancerAttribute.ResourceGroupId ≠ remote.LoadBalancerAttribute.ResourceGroupId)) :
    (Update env cloud lcl remote).1.length ≤ 1 := by
  rw [Update_guards_pass env cloud lcl remote hm hs ha hv hr]
  split_ifs
  · simp [invoke]
  · exact updateAttributes_length _ _ _ _

theorem Update_guards_pass_error (env : Env) (cloud : Provider) (lcl remote : LoadBalancer)
    (hm : ¬ (lcl.LoadBalancerAttribute.MasterZoneId ≠ "" ∧
      lcl.LoadBalancerAttribute.MasterZoneId ≠ remote.LoadBalancerAttribute.MasterZoneId))
    (hs : ¬ (lcl.LoadBalancerAttribute.SlaveZoneId ≠ "" ∧
      lcl.LoadBalancerAttribute.SlaveZoneId ≠ remote.LoadBalancerAttribute.SlaveZoneId))
    (ha : ¬ (lcl.LoadBalancerAttribute.AddressType ≠ "" ∧
      lcl.LoadBalancerAttribute.AddressType ≠ remote.LoadBalancerAttribute.AddressType))
    (hv : equalsAddressIPVersion env lcl.LoadBalancerAttribute.AddressIPVersion
      remote.LoadBalancerAttribute.AddressIPVersion = true)
    (hr : ¬ (lcl.LoadBalancerAttribute.ResourceGroupId ≠ "" ∧
      lcl.LoadBalancerAttribute.ResourceGroupId ≠ remote.LoadBalancerAttribute.ResourceGroupId))
    (msg : String) (h : (Update env cloud lcl remote).2 = .error msg) :
    ∃ c, (Update env cloud lcl remote).1 = [c] ∧ cloud.call c = .error msg := by
  rw [Update_guards_pass env cloud lcl remote hm hs ha hv hr] at h ⊢
  split_ifs at h ⊢
  · exact ⟨_, rfl, h⟩
  · exact updateAttributes_error _ _ _ _ msg h

theorem Update_guard_hit (env : Env) (cloud : Provider) (lcl remote : LoadBalancer)
    (h : (lcl.LoadBalancerAttribute.MasterZoneId ≠ "" ∧
        lcl.LoadBalancerAttribute.MasterZoneId ≠ remote.LoadBalancerAttribute.MasterZoneId) ∨
      (lcl.LoadBalancerAttribute.SlaveZoneId ≠ "" ∧
        lcl.LoadBalancerAttribute.SlaveZoneId ≠ remote.LoadBalancerAttribute.SlaveZoneId) ∨
      (lcl.LoadBalancerAttribute.AddressType ≠ "" ∧
        lcl.LoadBalancerAttribute.AddressType ≠ remote.LoadBalancerAttribute.AddressType) ∨
      equalsAddressIPVersion env lcl.LoadBalancerAttribute.AddressIPVersion
        remote.LoadBalancerAttribute.AddressIPVersion = false ∨
      (lcl.LoadBalancerAttribute.ResourceGroupId ≠ "" ∧
        lcl.LoadBalancerAttribute.ResourceGroupId ≠
          remote.LoadBalancerAttribute.ResourceGroupId)) :
    ∃ msg, Update env cloud lcl remote = ([], .error msg) := by
  unfold Update
  simp only []
  by_cases h1 : lcl.LoadBalancerAttribute.MasterZoneId ≠ "" ∧
      lcl.LoadBalancerAttribute.MasterZoneId ≠ remote.LoadBalancerAttribute.MasterZoneId
  · rw [if_pos h1]; exact ⟨_, rfl⟩
  rw [if_neg h1]
  by_cases h2 : lcl.LoadBalancerAttribute.SlaveZoneId ≠ "" ∧
      lcl.LoadBalancerAttribute.SlaveZoneId ≠ remote.LoadBalancerAttribute.SlaveZoneId
  · rw [if_pos h2]; exact ⟨_, rfl⟩
  rw [if_neg h2]
  by_cases h3 : lcl.LoadBalancerAttribute.AddressType ≠ "" ∧
      lcl.LoadBalancerAttribute.AddressType ≠ remote.LoadBalancerAttribute.AddressType
  · rw [if_pos h3]; exact ⟨_, rfl⟩
  rw [if_neg h3]
  cases h4 : equalsAddressIPVersion env lcl.LoadBalancerAttribute.AddressIPVersion
      remote.LoadBalancerAttribute.AddressIPVersion with
  | false => exact ⟨_, rfl⟩
  | true =>
    simp only [Bool.not_true, Bool.false_eq_true, if_false]
    by_cases h5 : lcl.LoadBalancerAttribute.ResourceGroupId ≠ "" ∧
        lcl.LoadBalancerAttribute.ResourceGroupId ≠ remote.LoadBalancerAttribute.ResourceGroupId
    · rw [if_pos h5]; exact ⟨_, rfl⟩
    · rcases h with h | h | h | h | h
      · exact absurd h h1
      · exact absurd h h2
      · exact absurd h h3
      · rw [h4] at h; exact absurd h (by decide)
      · exact absurd h h5

/-- C8: one pass of `Update` issues at most one provider call. -/
theorem Update_at_most_one_call (env : Env) (cloud : Provider) (lcl remote : LoadBalancer) :
    (Update env cloud lcl remote).1.length ≤ 1 := by
  by_cases h : (lcl.LoadBalancerAttribute.MasterZoneId ≠ "" ∧
        lcl.LoadBalancerAttribute.MasterZoneId ≠ remote.LoadBalancerAttribute.MasterZoneId) ∨
      (lcl.LoadBalancerAttribute.SlaveZoneId ≠ "" ∧
        lcl.LoadBalancerAttribute.SlaveZoneId ≠ remote.LoadBalancerAttribute.SlaveZoneId) ∨
      (lcl.LoadBalancerAttribute.AddressType ≠ "" ∧
        lcl.LoadBalancerAttribute.AddressType ≠ remote.LoadBalancerAttribute.AddressType) ∨
      equalsAddressIPVersion env lcl.LoadBalancerAttribute.AddressIPVersion
        remote.LoadBalancerAttribute.AddressIPVersion = false ∨
      (lcl.LoadBalancerAttribute.ResourceGroupId ≠ "" ∧
        lcl.LoadBalancerAttribute.ResourceGroupId ≠
          remote.LoadBalancerAttribute.ResourceGroupId)
  · obtain ⟨msg, hmsg⟩ := Update_guard_hit env cloud lcl remote h
    rw [hmsg]
    simp
  · simp only [not_or] at h
    obtain ⟨hm, hs, ha, hv, hr⟩ := h
    have hv' : equalsAddressIPVersion env lcl.LoadBalancerAttribute.AddressIPVersion
        remote.LoadBalancerAttribute.AddressIPVersion = true := by
      simpa using hv
    exact Update_guards_pass_length env cloud lcl remote hm hs ha hv' hr

/-- C9: when the desired master zone, slave zone, address type or resource group is set and
differs from the observed one, `Update` returns an error and issues no provider call; when
none of the four is set and different and the IP versions agree, an error returned by
`Update` is the error of the one provider call it issued, not an immutability error. -/
theorem Update_immutability (env : Env) (cloud : Provider) (lcl remote : LoadBalancer) :
    ((lcl.LoadBalancerAttribute.MasterZoneId ≠ "" ∧
        lcl.LoadBalancerAttribute.MasterZoneId ≠ remote.LoadBalancerAttribute.MasterZoneId) ∨
      (lcl.LoadBalancerAttribute.SlaveZoneId ≠ "" ∧
        lcl.LoadBalancerAttribute.SlaveZoneId ≠ remote.LoadBalancerAttribute.SlaveZoneId) ∨
      (lcl.LoadBalancerAttribute.AddressType ≠ "" ∧
        lcl.LoadBalancerAttribute.AddressType ≠ remote.LoadBalancerAttribute.AddressType) ∨
      (lcl.LoadBalancerAttribute.ResourceGroupId ≠ "" ∧
        lcl.LoadBalancerAttribute.ResourceGroupId ≠
          remote.LoadBalancerAttribute.ResourceGroupId) →
      ∃ msg, Update env cloud lcl remote = ([], .error msg)) ∧
    (¬ (lcl.LoadBalancerAttribute.MasterZoneId ≠ "" ∧
        lcl.LoadBalancerAttribute.MasterZoneId ≠ remote.LoadBalancerAttribute.MasterZoneId) →
      ¬ (lcl.LoadBalancerAttribute.SlaveZoneId ≠ "" ∧
        lcl.LoadBalancerAttribute.SlaveZoneId ≠ remote.LoadBalancerAttribute.SlaveZoneId) →
      ¬ (lcl.LoadBalancerAttribute.AddressType ≠ "" ∧
        lcl.LoadBalancerAttribute.AddressType ≠ remote.LoadBalancerAttribute.AddressType) →
      ¬ (lcl.LoadBalancerAttribute.ResourceGroupId ≠ "" ∧
        lcl.LoadBalancerAttribute.ResourceGroupId ≠
          remote.LoadBalancerAttribute.ResourceGroupId) →
      equalsAddressIPVersion env lcl.LoadBalancerAttribute.AddressIPVersion
        remote.LoadBalancerAttribute.AddressIPVersion = true →
      ∀ msg, (Update env cloud lcl remote).2 = .error msg →
        ∃ c, (Update env cloud lcl remote).1 = [c] ∧ cloud.call c = .error msg) := by
  constructor
  · intro h
    apply Update_guard_hit
    rcases h with h | h | h | h
    · exact Or.inl h
    · exact Or.inr (Or.inl h)
    · exact Or.inr (Or.inr (Or.inl h))
    · exact Or.inr (Or.inr (Or.inr (Or.inr h)))
  · intro hm hs ha hr hv msg h
    exact Update_guards_pass_error env cloud lcl remote hm hs ha hv hr msg h

/-- Witness of `Update_immutability`: a desired master zone that differs is refused without
a call; a desired spec and name that differ, with the guarded fields unset, lead to one call
whose failure is the error returned. -/
theorem Update_immutability_witness :
    (∃ msg, Update testEnv testCloud otherMasterZoneLb observedLb = ([], .error msg)) ∧
    (∀ msg, (Update testEnv failingCloud otherSpecAndNameLb observedLb).2 = .error msg →
      ∃ c, (Update testEnv failingCloud otherSpecAndNameLb observedLb).1 = [c] ∧
        failingCloud.call c = .error msg) :=
  ⟨(Update_immutability testEnv testCloud otherMasterZoneLb observedLb).1
      (Or.inl ⟨by decide, by decide⟩),
   (Update_immutability testEnv failingCloud otherSpecAndNameLb observedLb).2
      (by decide) (by decide) (by decide) (by decide) (by decide)⟩

/-- C10, as stated, fails: with agreeing IP versions and passing zone and address-type
guards, `Update` still returns an error without any provider call when the desired resource
group differs. -/
theorem Update_ip_version_counterexample :
    equalsAddressIPVersion testEnv otherResourceGroupLb.LoadBalancerAttribute.AddressIPVersion
      observedLb.LoadBalancerAttribute.AddressIPVersion = true ∧
    Update testEnv testCloud otherResourceGroupLb observedLb =
      ([], .error "alicloud: can not change ResourceGroupId once created") := by
  constructor
  · decide
  · rfl

/-- C10, amended: `equalsAddressIPVersion` is true iff its arguments are equal after each
empty one is replaced by the IPv4 value (empty agrees with empty and with IPv4, any other
value disagrees with empty); once the zone and address-type guards have passed, `Update`
returns the address-IP-version error without a provider call exactly when the versions
disagree, and, when the resource-group guard passes too, it returns an error without a
provider call exactly when the versions disagree. -/
theorem Update_ip_version (env : Env) (cloud : Provider) (lcl remote : LoadBalancer)
    (hm : ¬ (lcl.LoadBalancerAttribute.MasterZoneId ≠ "" ∧
      lcl.LoadBalancerAttribute.MasterZoneId ≠ remote.LoadBalancerAttribute.MasterZoneId))
    (hs : ¬ (lcl.LoadBalancerAttribute.SlaveZoneId ≠ "" ∧
      lcl.LoadBalancerAttribute.SlaveZoneId ≠ remote.LoadBalancerAttribute.SlaveZoneId))
    (ha : ¬ (lcl.LoadBalancerAttribute.AddressType ≠ "" ∧
      lcl.LoadBalancerAttribute.AddressType ≠ remote.LoadBalancerAttribute.AddressType)) :
    (∀ a b : String, equalsAddressIPVersion env a b = true ↔
      (if a = "" then env.IPv4 else a) = (if b = "" then env.IPv4 else b)) ∧
    equalsAddressIPVersion env "" "" = true ∧
    equalsAddressIPVersion env "" env.IPv4 = true ∧
    (∀ v : String, v ≠ "" → v ≠ env.IPv4 → equalsAddressIPVersion env v "" = false) ∧
    (Update env cloud lcl remote =
        ([], .error "alicloud: can not change LoadBalancer AddressIPVersion once created") ↔
      equalsAddressIPVersion env lcl.LoadBalancerAttribute.AddressIPVersion
        remote.LoadBalancerAttribute.AddressIPVersion = false) ∧
    (¬ (lcl.LoadBalancerAttribute.ResourceGroupId ≠ "" ∧
        lcl.LoadBalancerAttribute.ResourceGroupId ≠
          remote.LoadBalancerAttribute.ResourceGroupId) →
      ((∃ msg, Update env cloud lcl remote = ([], .error msg)) ↔
        equalsAddressIPVersion env lcl.LoadBalancerAttribute.AddressIPVersion
          remote.LoadBalancerAttribute.AddressIPVersion = false)) := by
  have hfalse : equalsAddressIPVersion env lcl.LoadBalancerAttribute.AddressIPVersion
      remote.LoadBalancerAttribute.AddressIPVersion = false →
      Update env cloud lcl remote =
        ([], .error "alicloud: can not change LoadBalancer AddressIPVersion once created") := by
    intro hv
    unfold Update
    simp only [hm, hs, ha, hv, if_false, Bool.not_false, if_true]
  have hnocall : ∀ msg, equalsAddressIPVersion env lcl.LoadBalancerAttribute.AddressIPVersion
      remote.LoadBalancerAttribute.AddressIPVersion = true →
      ¬ (lcl.LoadBalancerAttribute.ResourceGroupId ≠ "" ∧
        lcl.LoadBalancerAttribute.ResourceGroupId ≠
          remote.LoadBalancerAttribute.ResourceGroupId) →
      Update env cloud lcl remote ≠ ([], .error msg) := by
    intro msg hv hr heq
    have herr : (Update env cloud lcl remote).2 = .error msg := by rw [heq]
    obtain ⟨c, hc, _⟩ := Update_guards_pass_error env cloud lcl remote hm hs ha hv hr msg herr
    rw [heq] at hc
    simp at hc
  refine ⟨?_, ?_, ?_, ?_, ⟨?_, hfalse⟩, ?_⟩
  · intro a b
    simp [equalsAddressIPVersion]
  · simp [equalsAddressIPVersion]
  · simp [equalsAddressIPVersion]
  · intro v hv1 hv2
    simp [equalsAddressIPVersion, hv1, hv2]
  · intro heq
    cases hv : equalsAddressIPVersion env lcl.LoadBalancerAttribute.AddressIPVersion
        remote.LoadBalancerAttribute.AddressIPVersion with
    | false => rfl
    | true =>
      exfalso
      by_cases hr : lcl.LoadBalancerAttribute.ResourceGroupId ≠ "" ∧
          lcl.LoadBalancerAttribute.ResourceGroupId ≠
            remote.LoadBalancerAttribute.ResourceGroupId
      · have : Update env cloud lcl remote =
            ([], .error "alicloud: can not change ResourceGroupId once created") := by
          unfold Update
          simp only []
          rw [if_neg hm, if_neg hs, if_neg ha, hv]
          simp only [Bool.not_true, Bool.false_eq_true, if_false]
          rw [if_pos hr]
        rw [this] at heq
        simp only [Prod.mk.injEq, Except.error.injEq, true_and] at heq
        exact absurd heq (by decide)
      · exact hnocall _ hv hr heq
  · intro hr
    constructor
    · rintro ⟨msg, heq⟩
      cases hv : equalsAddressIPVersion env lcl.LoadBalancerAttribute.AddressIPVersion
          remote.LoadBalancerAttribute.AddressIPVersion with
      | false => rfl
      | true => exact absurd heq (hnocall msg hv hr)
    · intro hv
      exact ⟨_, hfalse hv⟩

/-- Witness of `Update_ip_version`: a desired `ipv6` against an observed empty version. -/
theorem Update_ip_version_witness :
    Update testEnv testCloud otherIPVersionLb observedLb =
      ([], .error "alicloud: can not change LoadBalancer AddressIPVersion once created") :=
  (Update_ip_version testEnv testCloud otherIPVersionLb observedLb
    (by decide) (by decide) (by decide)).2.2.2.2.1.2 (by decide)

theorem two_flags_eq (A B : Prop) [Decidable A] [Decidable B] (c1 c2 : String) (b1 b2 : Int) :
    (let needUpdate := false
     let (needUpdate, charge) := if A then (true, c1) else (needUpdate, c2)
     let (needUpdate, bandwidth) := if B then (true, b1) else (needUpdate, b2)
     (needUpdate, charge, bandwidth)) =
      (decide (A ∨ B), (if A then c1 else c2), (if B then b1 else b2)) := by
  by_cases hA : A <;> by_cases hB : B <;> simp [hA, hB]

theorem chargeAndBandwidth_eq (env : Env) (l r : LoadBalancerAttribute) :
    chargeAndBandwidth env l r =
      (decide ((l.InternetChargeType ≠ "" ∧ l.InternetChargeType ≠ r.InternetChargeType) ∨
        (l.Bandwidth ≠ 0 ∧ l.Bandwidth ≠ r.Bandwidth ∧
          l.InternetChargeType = env.PayByBandwidth)),
       (if l.InternetChargeType ≠ "" ∧ l.InternetChargeType ≠ r.InternetChargeType then
          l.InternetChargeType else r.InternetChargeType),
       (if l.Bandwidth ≠ 0 ∧ l.Bandwidth ≠ r.Bandwidth ∧
            l.InternetChargeType = env.PayByBandwidth then l.Bandwidth else r.Bandwidth)) := by
  unfold chargeAndBandwidth
  exact two_flags_eq _ _ _ _ _ _

theorem Update_of_guardsPass (env : Env) (cloud : Provider) (lcl remote : LoadBalancer)
    (h : guardsPass env lcl remote) :
    Update env cloud lcl remote =
      if (chargeAndBandwidth env lcl.LoadBalancerAttribute remote.LoadBalancerAttribute).1 = true ∧
          remote.LoadBalancerAttribute.AddressType = env.InternetAddressType then
        invoke cloud (.ModifyLoadBalancerInternetSpec remote.LoadBalancerAttribute.LoadBalancerId
          (chargeAndBandwidth env lcl.LoadBalancerAttribute remote.LoadBalancerAttribute).2.1
          (chargeAndBandwidth env lcl.LoadBalancerAttribute remote.LoadBalancerAttribute).2.2)
      else updateAttributes cloud remote.LoadBalancerAttribute.LoadBalancerId
        lcl.LoadBalancerAttribute remote.LoadBalancerAttribute :=
  Update_guards_pass env cloud lcl remote h.1 h.2.1 h.2.2.1 h.2.2.2.1 h.2.2.2.2

theorem Update_of_not_guardsPass (env : Env) (cloud : Provider) (lcl remote : LoadBalancer)
    (h : ¬ guardsPass env lcl remote) :
    ∃ msg, Update env cloud lcl remote = ([], .error msg) := by
  apply Update_guard_hit
  unfold guardsPass at h
  by_contra hcon
  simp only [not_or] at hcon
  obtain ⟨h1, h2, h3, h4, h5⟩ := hcon
  exact h ⟨h1, h2, h3, by simpa using h4, h5⟩

theorem Update_steps (env : Env) (cloud : Provider) (lcl remote : LoadBalancer)
    (h : guardsPass env lcl remote) :
    Update env cloud lcl remote =
      (match (updateSteps env lcl.LoadBalancerAttribute remote.LoadBalancerAttribute).find?
          (fun s => s.1) with
       | some s => invoke cloud s.2
       | none => ([], .ok ())) := by
  rw [Update_of_guardsPass env cloud lcl remote h, chargeAndBandwidth_eq]
  unfold updateSteps updateAttributes
  simp only [List.find?, decide_eq_true_eq]
  by_cases h0 : ((lcl.LoadBalancerAttribute.InternetChargeType ≠ "" ∧
        lcl.LoadBalancerAttribute.InternetChargeType ≠
          remote.LoadBalancerAttribute.InternetChargeType) ∨
      (lcl.LoadBalancerAttribute.Bandwidth ≠ 0 ∧
        lcl.LoadBalancerAttribute.Bandwidth ≠ remote.LoadBalancerAttribute.Bandwidth ∧
        lcl.LoadBalancerAttribute.InternetChargeType = env.PayByBandwidth)) ∧
      remote.LoadBalancerAttribute.AddressType = env.InternetAddressType
  · rw [if_pos h0, decide_eq_true h0]
  · rw [if_neg h0, decide_eq_false h0]
    simp only []
    by_cases h1 : lcl.LoadBalancerAttribute.LoadBalancerSpec ≠ "" ∧
        lcl.LoadBalancerAttribute.LoadBalancerSpec ≠ remote.LoadBalancerAttribute.LoadBalancerSpec
    · rw [if_pos h1, decide_eq_true h1]
    · rw [if_neg h1, decide_eq_false h1]
      simp only []
      by_cases h2 : lcl.LoadBalancerAttribute.DeleteProtection ≠ "" ∧
          lcl.LoadBalancerAttribute.DeleteProtection ≠
            remote.LoadBalancerAttribute.DeleteProtection
      · rw [if_pos h2, decide_eq_true h2]
      · rw [if_neg h2, decide_eq_false h2]
        simp only []
        by_cases h3 : lcl.LoadBalancerAttribute.ModificationProtectionStatus ≠ "" ∧
            lcl.LoadBalancerAttribute.ModificationProtectionStatus ≠
              remote.LoadBalancerAttribute.ModificationProtectionStatus
        · rw [if_pos h3, decide_eq_true h3]
        · rw [if_neg h3, decide_eq_false h3]
          simp only []
          by_cases h4 : lcl.LoadBalancerAttribute.LoadBalancerName ≠ "" ∧
              lcl.LoadBalancerAttribute.LoadBalancerName ≠
                remote.LoadBalancerAttribute.LoadBalancerName
          · rw [if_pos h4, decide_eq_true h4]
          · rw [if_neg h4, decide_eq_false h4]

theorem updateAttributes_not_internetSpec (cloud : Provider) (lbId : String)
    (l r : LoadBalancerAttribute) :
    ∀ c ∈ (updateAttributes cloud lbId l r).1, c.isInternetSpec = false := by
  unfold updateAttributes
  split_ifs <;> simp [invoke, Call.isInternetSpec]

/-- C11: when the guards pass, `Update` issues the call of the first unmet condition in the
order charge/bandwidth (internet-facing only), instance spec, delete protection, modification
protection, name, and returns that call's result; it issues no call and succeeds when no
condition is unmet; every condition before the one acted on is met or skipped; with the
charge step met or skipped and the spec different, the only call is
`ModifyLoadBalancerInstanceSpec`, whatever the name is. -/
theorem Update_priority (env : Env) (cloud : Provider) (lcl remote : LoadBalancer)
    (h : guardsPass env lcl remote) :
    (Update env cloud lcl remote =
      (match (updateSteps env lcl.LoadBalancerAttribute remote.LoadBalancerAttribute).find?
          (fun s => s.1) with
       | some s => invoke cloud s.2
       | none => ([], .ok ()))) ∧
    (∀ c, (Update env cloud lcl remote).1 = [c] →
      ∃ before after,
        updateSteps env lcl.LoadBalancerAttribute remote.LoadBalancerAttribute =
          before ++ (true, c) :: after ∧
        ∀ s ∈ before, s.1 = false) ∧
    ((Update env cloud lcl remote).1 = [] →
      ∀ s ∈ updateSteps env lcl.LoadBalancerAttribute remote.LoadBalancerAttribute,
        s.1 = false) ∧
    ((updateSteps env lcl.LoadBalancerAttribute remote.LoadBalancerAttribute).head?.map
        (fun s => s.1) = some false →
      lcl.LoadBalancerAttribute.LoadBalancerSpec ≠ "" →
      lcl.LoadBalancerAttribute.LoadBalancerSpec ≠ remote.LoadBalancerAttribute.LoadBalancerSpec →
      (Update env cloud lcl remote).1 =
        [.ModifyLoadBalancerInstanceSpec remote.LoadBalancerAttribute.LoadBalancerId
          lcl.LoadBalancerAttribute.LoadBalancerSpec]) := by
  have hsteps := Update_steps env cloud lcl remote h
  refine ⟨hsteps, ?_, ?_, ?_⟩
  · intro c hc
    rw [hsteps] at hc
    cases hf : (updateSteps env lcl.LoadBalancerAttribute remote.LoadBalancerAttribute).find?
        (fun s => s.1) with
    | none => rw [hf] at hc; simp at hc
    | some s =>
      rw [hf] at hc
      simp only [invoke, List.cons.injEq, and_true] at hc
      obtain ⟨hp, before, after, heq, hbefore⟩ := List.find?_eq_some.1 hf
      obtain ⟨flag, call⟩ := s
      simp only at hp hc
      subst hp hc
      refine ⟨before, after, heq, ?_⟩
      intro s hs
      simpa using hbefore s hs
  · intro hc
    rw [hsteps] at hc
    cases hf : (updateSteps env lcl.LoadBalancerAttribute remote.LoadBalancerAttribute).find?
        (fun s => s.1) with
    | none =>
      intro s hs
      simpa using List.find?_eq_none.1 hf s hs
    | some s => rw [hf] at hc; simp [invoke] at hc
  · intro h0 h1 h2
    rw [hsteps]
    unfold updateSteps at h0 ⊢
    simp only [List.head?_cons, Option.map_some', Option.some.injEq] at h0
    simp only [List.find?, h0, decide_eq_true (And.intro h1 h2), invoke]

/-- Witness of `Update_priority`: the desired spec and the desired name both differ, the
charge type and bandwidth are unset; the one call is `ModifyLoadBalancerInstanceSpec`. -/
theorem Update_priority_witness :
    (Update testEnv testCloud otherSpecAndNameLb observedLb).1 =
      [.ModifyLoadBalancerInstanceSpec "lb-1" "slb.s2.small"] :=
  (Update_priority testEnv testCloud otherSpecAndNameLb observedLb (by decide)).2.2.2
    (by decide) (by decide) (by decide)

/-- C12: when the observed address type is not internet-facing, `Update` never calls
`ModifyLoadBalancerInternetSpec`, and it behaves as for a desired load balancer whose charge
type and bandwidth equal the observed ones: a charge-type or bandwidth difference neither
fails the pass nor stops the later attribute checks. -/
theorem Update_not_internet (env : Env) (cloud : Provider) (lcl remote : LoadBalancer)
    (hintra : remote.LoadBalancerAttribute.AddressType ≠ env.InternetAddressType) :
    (∀ c ∈ (Update env cloud lcl remote).1, c.isInternetSpec = false) ∧
    Update env cloud lcl remote =
      Update env cloud
        { lcl with
          LoadBalancerAttribute :=
            { lcl.LoadBalancerAttribute with
              InternetChargeType := remote.LoadBalancerAttribute.InternetChargeType,
              Bandwidth := remote.LoadBalancerAttribute.Bandwidth } }
        remote ∧
    (guardsPass env lcl remote →
      Update env cloud lcl remote =
        updateAttributes cloud remote.LoadBalancerAttribute.LoadBalancerId
          lcl.LoadBalancerAttribute remote.LoadBalancerAttribute) := by
  have hpass : guardsPass env lcl remote →
      Update env cloud lcl remote =
        updateAttributes cloud remote.LoadBalancerAttribute.LoadBalancerId
          lcl.LoadBalancerAttribute remote.LoadBalancerAttribute := by
    intro hg
    rw [Update_of_guardsPass env cloud lcl remote hg, if_neg (fun hc => hintra hc.2)]
  refine ⟨?_, ?_, hpass⟩
  · by_cases hg : guardsPass env lcl remote
    · rw [hpass hg]
      exact updateAttributes_not_internetSpec _ _ _ _
    · obtain ⟨msg, hmsg⟩ := Update_of_not_guardsPass env cloud lcl remote hg
      rw [hmsg]
      simp
  · unfold Update
    simp only [chargeAndBandwidth_eq, hintra, if_false]
    simp only [ne_eq, not_true_eq_false, and_false, false_and, or_self, decide_False,
      Bool.false_eq_true, if_false, ite_self]
    rfl

/-- Witness of `Update_not_internet`: on an intranet load balancer a desired pay-by-bandwidth
charge type with another bandwidth leads to no call at all. -/
theorem Update_not_internet_witness :
    Update testEnv testCloud payByBandwidthLb observedIntranetLb = ([], .ok ()) := by
  have h := (Update_not_internet testEnv testCloud payByBandwidthLb observedIntranetLb
    (by decide)).2.2 (by decide)
  rw [h]
  rfl

theorem mem_ite_trace {c : Prop} [Decidable c] (a b : List Call × Except String Unit)
    (x : Call) (h : x ∈ (if c then a else b).1) : (c ∧ x ∈ a.1) ∨ (¬ c ∧ x ∈ b.1) := by
  by_cases hc : c
  · rw [if_pos hc] at h; exact Or.inl ⟨hc, h⟩
  · rw [if_neg hc] at h; exact Or.inr ⟨hc, h⟩

/-- C13: when the pay-by-bandwidth value is not the empty string, a call of
`ModifyLoadBalancerInternetSpec` by `Update` whose bandwidth argument differs from the
observed bandwidth has the pay-by-bandwidth value as charge-type argument. -/
theorem Update_bandwidth_charge (env : Env) (cloud : Provider) (lcl remote : LoadBalancer)
    (hpbb : env.PayByBandwidth ≠ "") (lbId charge : String) (bandwidth : Int)
    (hcall : Call.ModifyLoadBalancerInternetSpec lbId charge bandwidth ∈
      (Update env cloud lcl remote).1)
    (hbw : bandwidth ≠ remote.LoadBalancerAttribute.Bandwidth) :
    charge = env.PayByBandwidth := by
  by_cases hg : guardsPass env lcl remote
  · rw [Update_of_guardsPass env cloud lcl remote hg, chargeAndBandwidth_eq] at hcall
    rcases mem_ite_trace _ _ _ hcall with ⟨_, hmem⟩ | ⟨_, hmem⟩
    · simp only [invoke, List.mem_singleton, Call.ModifyLoadBalancerInternetSpec.injEq] at hmem
      obtain ⟨_, hcharge, hband⟩ := hmem
      by_cases hb : lcl.LoadBalancerAttribute.Bandwidth ≠ 0 ∧
          lcl.LoadBalancerAttribute.Bandwidth ≠ remote.LoadBalancerAttribute.Bandwidth ∧
          lcl.LoadBalancerAttribute.InternetChargeType = env.PayByBandwidth
      · by_cases hc : lcl.LoadBalancerAttribute.InternetChargeType ≠ "" ∧
            lcl.LoadBalancerAttribute.InternetChargeType ≠
              remote.LoadBalancerAttribute.InternetChargeType
        · rw [if_pos hc] at hcharge
          rw [hcharge, hb.2.2]
        · rw [if_neg hc] at hcharge
          have hne : lcl.LoadBalancerAttribute.InternetChargeType ≠ "" := by
            rw [hb.2.2]; exact hpbb
          have heq : lcl.LoadBalancerAttribute.InternetChargeType =
              remote.LoadBalancerAttribute.InternetChargeType := by
            by_contra hcon
            exact hc ⟨hne, hcon⟩
          rw [hcharge, ← heq, hb.2.2]
      · rw [if_neg hb] at hband
        exact absurd hband hbw
    · have := updateAttributes_not_internetSpec _ _ _ _ _ hmem
      simp [Call.isInternetSpec] at this
  · obtain ⟨msg, hmsg⟩ := Update_of_not_guardsPass env cloud lcl remote hg
    rw [hmsg] at hcall
    simp at hcall

/-- Witness of `Update_bandwidth_charge`: pay-by-bandwidth with bandwidth 10 desired,
pay-by-traffic with bandwidth 5 observed. -/
theorem Update_bandwidth_charge_witness :
    (Update testEnv testCloud payByBandwidthLb observedLb).1 =
      [.ModifyLoadBalancerInternetSpec "lb-1" "paybybandwidth" 10] ∧
    "paybybandwidth" = testEnv.PayByBandwidth :=
  ⟨by decide,
   Update_bandwidth_charge testEnv testCloud payByBandwidthLb observedLb (by decide)
    "lb-1" "paybybandwidth" 10 (by decide) (by decide)⟩

/-! ## Properties of `filterOutByLabel` and `getNodes` -/

theorem splitChars_of_not_mem (sep : Char) (cs : List Char) (h : sep ∉ cs) :
    splitChars sep cs = [cs] := by
  induction cs with
  | nil => rfl
  | cons c cs ih =>
    have hc : c ≠ sep := fun e => h (by simp [e])
    have hcs : sep ∉ cs := fun e => h (List.mem_cons_of_mem _ e)
    simp [splitChars, hc, ih hcs]

theorem splitChars_ne_nil (sep : Char) (cs : List Char) : splitChars sep cs ≠ [] := by
  induction cs with
  | nil => simp [splitChars]
  | cons c cs ih =>
    unfold splitChars
    by_cases hc : c = sep
    · simp [hc]
    · rw [if_neg hc]
      cases h : splitChars sep cs with
      | nil => exact absurd h ih
      | cons p ps => simp

theorem splitChars_append (sep : Char) (k rest : List Char) (h : sep ∉ k) :
    splitChars sep (k ++ sep :: rest) = k :: splitChars sep rest := by
  induction k with
  | nil => simp [splitChars]
  | cons c k ih =>
    have hc : c ≠ sep := fun e => h (by simp [e])
    have hk : sep ∉ k := fun e => h (List.mem_cons_of_mem _ e)
    simp [splitChars, hc, ih hk]

theorem exists_first_sep (sep : Char) (cs : List Char) (h : sep ∈ cs) :
    ∃ k rest, cs = k ++ sep :: rest ∧ sep ∉ k := by
  induction cs with
  | nil => simp at h
  | cons c cs ih =>
    by_cases hc : c = sep
    · exact ⟨[], cs, by simp [hc], by simp⟩
    · have hcs : sep ∈ cs := by
        rcases List.mem_cons.1 h with e | e
        · exact absurd e.symm hc
        · exact e
      obtain ⟨k, rest, heq, hk⟩ := ih hcs
      refine ⟨c :: k, rest, by simp [heq], ?_⟩
      intro hmem
      rcases List.mem_cons.1 hmem with e | e
      · exact hc e.symm
      · exact hk e

theorem splitChars_length (sep : Char) (cs : List Char) :
    (splitChars sep cs).length = cs.count sep + 1 := by
  induction cs with
  | nil => simp [splitChars]
  | cons c cs ih =>
    unfold splitChars
    by_cases hc : c = sep
    · simp [hc, ih]
    · rw [if_neg hc]
      cases h : splitChars sep cs with
      | nil => exact absurd h (splitChars_ne_nil sep cs)
      | cons p ps =>
        rw [h] at ih
        simp only [List.length_cons] at ih ⊢
        rw [List.count_cons_of_ne (fun e => hc e.symm)]
        exact ih

theorem stringsSplit_length (t : String) (sep : Char) :
    (stringsSplit t sep).length = t.data.count sep + 1 := by
  simp [stringsSplit, splitChars_length]

theorem stringsSplit_short_iff (t : String) (sep : Char) :
    (stringsSplit t sep).length < 2 ↔ sep ∉ t.data := by
  rw [stringsSplit_length]
  constructor
  · intro h
    have : t.data.count sep = 0 := by omega
    exact List.count_eq_zero.1 this
  · intro h
    rw [List.count_eq_zero.2 h]
    decide

theorem term_of_one_sep (t : String) (h : t.data.count '=' = 1) :
    t = termKey t ++ "=" ++ termValue t := by
  have hmem : '=' ∈ t.data := by
    apply List.count_pos_iff.1
    omega
  obtain ⟨k, rest, heq, hk⟩ := exists_first_sep '=' t.data hmem
  have hrest : '=' ∉ rest := by
    rw [heq, List.count_append, List.count_cons_self, List.count_eq_zero.2 hk] at h
    apply List.count_eq_zero.1
    omega
  have hsplit : stringsSplit t '=' = [String.mk k, String.mk rest] := by
    unfold stringsSplit
    rw [heq, splitChars_append _ _ _ hk, splitChars_of_not_mem _ _ hrest]
    rfl
  apply String.ext
  simp only [termKey, termValue, hsplit, List.getD_cons_zero, List.getD_cons_succ,
    String.data_append]
  rw [heq]
  simp

theorem term_of_two_seps (t : String) (h : 2 ≤ t.data.count '=') :
    ∃ k v rest, t.data = k ++ '=' :: (v ++ '=' :: rest) ∧ '=' ∉ k ∧ '=' ∉ v ∧
      termKey t = String.mk k ∧ termValue t = String.mk v := by
  have hmem : '=' ∈ t.data := by
    apply List.count_pos_iff.1
    omega
  obtain ⟨k, rest, heq, hk⟩ := exists_first_sep '=' t.data hmem
  have hrest : '=' ∈ rest := by
    rw [heq, List.count_append, List.count_cons_self, List.count_eq_zero.2 hk] at h
    apply List.count_pos_iff.1
    omega
  obtain ⟨v, rest', heq', hv⟩ := exists_first_sep '=' rest hrest
  refine ⟨k, v, rest', by rw [heq, heq'], hk, hv, ?_, ?_⟩
  · unfold termKey stringsSplit
    rw [heq, splitChars_append _ _ _ hk]
    rfl
  · unfold termValue stringsSplit
    rw [heq, splitChars_append _ _ _ hk, heq', splitChars_append _ _ _ hv]
    rfl

theorem label_match_eq (x : Option String) (v : String) (a : Except String Bool) :
    (match x with
      | none => Except.ok false
      | some nv => if nv ≠ v then Except.ok false else a) =
    if x = some v then a else Except.ok false := by
  cases x with
  | none => simp
  | some nv =>
    by_cases hv : nv = v
    · simp [hv]
    · simp [hv]

theorem labelsFound_cons_wf (n : Node) (t : String) (lbl : List String)
    (ht : '=' ∈ t.data) :
    labelsFound n (t :: lbl) = if termHolds n t then labelsFound n lbl else .ok false := by
  have hlen : ¬ (stringsSplit t '=').length < 2 := by
    rw [stringsSplit_short_iff]; exact not_not.2 ht
  simp only [labelsFound]
  rw [if_neg hlen]
  unfold termHolds termKey termValue
  exact label_match_eq _ _ _

theorem labelsFound_cons_bad (n : Node) (t : String) (lbl : List String)
    (ht : '=' ∉ t.data) :
    labelsFound n (t :: lbl) = .error ("parse backend label: " ++ t ++ ", [k1=v1,k2=v2]") := by
  have hlen : (stringsSplit t '=').length < 2 := (stringsSplit_short_iff t '=').2 ht
  simp only [labelsFound]
  rw [if_pos hlen]

theorem labelsFound_wf (n : Node) (lbl : List String) (hwf : ∀ t ∈ lbl, '=' ∈ t.data) :
    labelsFound n lbl = .ok (decide (∀ t ∈ lbl, termHolds n t)) := by
  induction lbl with
  | nil => simp [labelsFound]
  | cons t lbl ih =>
    rw [labelsFound_cons_wf n t lbl (hwf t (List.mem_cons_self _ _)),
      ih (fun u hu => hwf u (List.mem_cons_of_mem _ hu))]
    by_cases h : termHolds n t
    · simp [h]
    · simp [h]

theorem labelsFound_bad (n : Node) (pre : List String) (bad : String) (post : List String)
    (hpre : ∀ t ∈ pre, '=' ∈ t.data) (hbad : '=' ∉ bad.data) :
    labelsFound n (pre ++ bad :: post) =
      if ∀ t ∈ pre, termHolds n t then
        .error ("parse backend label: " ++ bad ++ ", [k1=v1,k2=v2]")
      else .ok false := by
  induction pre with
  | nil => simp [labelsFound_cons_bad n bad post hbad]
  | cons t pre ih =>
    rw [List.cons_append, labelsFound_cons_wf n t _ (hpre t (List.mem_cons_self _ _)),
      ih (fun u hu => hpre u (List.mem_cons_of_mem _ hu))]
    by_cases h : termHolds n t
    · simp [h]
    · simp [h]

theorem filterOutByLabelLoop_wf (lbl : List String) (nodes acc : List Node)
    (hwf : ∀ t ∈ lbl, '=' ∈ t.data) :
    filterOutByLabelLoop lbl nodes acc =
      .ok (acc ++ nodes.filter (fun n => decide (∀ t ∈ lbl, termHolds n t))) := by
  induction nodes generalizing acc with
  | nil => simp [filterOutByLabelLoop]
  | cons n nodes ih =>
    rw [filterOutByLabelLoop, labelsFound_wf n lbl hwf]
    simp only []
    rw [ih, List.filter_cons]
    by_cases h : ∀ t ∈ lbl, termHolds n t
    · simp only [decide_eq_true h, if_true, List.append_assoc, List.singleton_append]
    · simp only [decide_eq_false h, Bool.false_eq_true, if_false]

theorem filterOutByLabelLoop_bad (pre : List String) (bad : String) (post : List String)
    (nodes acc : List Node) (hpre : ∀ t ∈ pre, '=' ∈ t.data) (hbad : '=' ∉ bad.data) :
    filterOutByLabelLoop (pre ++ bad :: post) nodes acc =
      if ∃ n ∈ nodes, ∀ t ∈ pre, termHolds n t then
        .error ("parse backend label: " ++ bad ++ ", [k1=v1,k2=v2]")
      else .ok acc := by
  induction nodes generalizing acc with
  | nil => simp [filterOutByLabelLoop]
  | cons n nodes ih =>
    rw [filterOutByLabelLoop, labelsFound_bad n pre bad post hpre hbad]
    by_cases h : ∀ t ∈ pre, termHolds n t
    · have hex : ∃ m ∈ n :: nodes, ∀ t ∈ pre, termHolds m t := ⟨n, List.mem_cons_self _ _, h⟩
      rw [if_pos h, if_pos hex]
    · rw [if_neg h]
      simp only [Bool.false_eq_true, if_false]
      rw [ih]
      by_cases hex : ∃ m ∈ nodes, ∀ t ∈ pre, termHolds m t
      · have hex' : ∃ m ∈ n :: nodes, ∀ t ∈ pre, termHolds m t := by
          obtain ⟨m, hm, hh⟩ := hex
          exact ⟨m, List.mem_cons_of_mem _ hm, hh⟩
        rw [if_pos hex, if_pos hex']
      · have hex' : ¬ ∃ m ∈ n :: nodes, ∀ t ∈ pre, termHolds m t := by
          rintro ⟨m, hm, hh⟩
          rcases List.mem_cons.1 hm with e | e
          · subst e; exact h hh
          · exact hex ⟨m, e, hh⟩
        rw [if_neg hex, if_neg hex']

theorem exists_first_bad (lbl : List String) (h : ∃ t ∈ lbl, '=' ∉ t.data) :
    ∃ pre bad post, lbl = pre ++ bad :: post ∧ (∀ t ∈ pre, '=' ∈ t.data) ∧ '=' ∉ bad.data := by
  induction lbl with
  | nil => simp at h
  | cons t lbl ih =>
    by_cases ht : '=' ∈ t.data
    · have h' : ∃ u ∈ lbl, '=' ∉ u.data := by
        obtain ⟨u, hu, hbad⟩ := h
        rcases List.mem_cons.1 hu with e | e
        · subst e; exact absurd ht hbad
        · exact ⟨u, e, hbad⟩
      obtain ⟨pre, bad, post, heq, hpre, hbad⟩ := ih h'
      refine ⟨t :: pre, bad, post, by simp [heq], ?_, hbad⟩
      intro u hu
      rcases List.mem_cons.1 hu with e | e
      · subst e; exact ht
      · exact hpre u e
    · exact ⟨[], t, lbl, by simp, by simp, ht⟩

/-- C14 does not hold of the code: `filterOutByLabel` returns an empty list and no error
for the selector `zone`, which has a term without `=`, on the empty node list, and for the
selector `zone=a,disk`, whose second term has no `=`, on one node labelled `zone=b`. The
check of the number of parts of a term (lines 330-332) stands inside the loop over the nodes
and after the `break` on the first unsatisfied term, so it is reached only when some node
satisfies every term before the term without `=`. -/
theorem filterOutByLabel_malformed_counterexample :
    filterOutByLabel [] "zone" = .ok [] ∧
    ("zone" ≠ "" ∧ "zone" ∈ stringsSplit "zone" ',' ∧ '=' ∉ "zone".data) ∧
    filterOutByLabel [labelledNode "node-a" [("zone", "b")]] "zone=a,disk" = .ok [] ∧
    ("zone=a,disk" ≠ "" ∧ "disk" ∈ stringsSplit "zone=a,disk" ',' ∧ '=' ∉ "disk".data) := by
  refine ⟨rfl, by decide, rfl, by decide⟩

/-- When the check of lines 330-332 is reached: for a non-empty selector that contains a
term without `=`, `filterOutByLabel` returns the parse error of the first such term exactly
when some node carries `key=value` for every term before it; otherwise it returns an empty
list and no error. -/
theorem filterOutByLabel_malformed (nodes : List Node) (labels : String)
    (hne : labels ≠ "") (hbad : ∃ t ∈ stringsSplit labels ',', '=' ∉ t.data) :
    ∃ pre bad post,
      stringsSplit labels ',' = pre ++ bad :: post ∧
      (∀ t ∈ pre, '=' ∈ t.data) ∧ '=' ∉ bad.data ∧
      filterOutByLabel nodes labels =
        if ∃ n ∈ nodes, ∀ t ∈ pre, termHolds n t then
          .error ("parse backend label: " ++ bad ++ ", [k1=v1,k2=v2]")
        else .ok [] := by
  obtain ⟨pre, bad, post, heq, hpre, hb⟩ := exists_first_bad _ hbad
  refine ⟨pre, bad, post, heq, hpre, hb, ?_⟩
  unfold filterOutByLabel
  rw [if_neg hne, heq]
  exact filterOutByLabelLoop_bad pre bad post nodes [] hpre hb

/-- The selector `zone=a,disk` on one node labelled `zone=a`: the term `disk` is reached
and the parse error is returned. -/
theorem filterOutByLabel_malformed_witness :
    ∃ pre bad post,
      stringsSplit "zone=a,disk" ',' = pre ++ bad :: post ∧
      (∀ t ∈ pre, '=' ∈ t.data) ∧ '=' ∉ bad.data ∧
      filterOutByLabel [labelledNode "node-a" [("zone", "a")]] "zone=a,disk" =
        if ∃ n ∈ [labelledNode "node-a" [("zone", "a")]], ∀ t ∈ pre, termHolds n t then
          .error ("parse backend label: " ++ bad ++ ", [k1=v1,k2=v2]")
        else .ok [] :=
  filterOutByLabel_malformed [labelledNode "node-a" [("zone", "a")]] "zone=a,disk"
    (by decide) ⟨"disk", by decide, by decide⟩

/-- C15, as stated, fails: the selector `a=b=c` is accepted and selects the node labelled
`a=b`. -/
theorem filterOutByLabel_two_seps_counterexample :
    filterOutByLabel [labelledNode "node-a" [("a", "b")]] "a=b=c" =
      .ok [labelledNode "node-a" [("a", "b")]] ∧
    ("a=b=c" ∈ stringsSplit "a=b=c" ',' ∧ 2 ≤ "a=b=c".data.count '=') := by
  refine ⟨rfl, by decide⟩

/-- C15, amended: a term with two or more `=` is not an error; it is read as the key before
its first `=` and the value between its first and second `=`, the rest being ignored. For a
non-empty selector whose terms all contain at least one `=`, `filterOutByLabel` succeeds with
the nodes, in input order, that carry `key=value` for every term. -/
theorem filterOutByLabel_accepts (nodes : List Node) (labels : String) (hne : labels ≠ "")
    (hwf : ∀ t ∈ stringsSplit labels ',', 1 ≤ t.data.count '=') :
    filterOutByLabel nodes labels =
      .ok (nodes.filter (fun n => decide (∀ t ∈ stringsSplit labels ',', termHolds n t))) ∧
    (∀ t ∈ stringsSplit labels ',', 2 ≤ t.data.count '=' →
      ∃ k v rest, t.data = k ++ '=' :: (v ++ '=' :: rest) ∧ '=' ∉ k ∧ '=' ∉ v ∧
        termKey t = String.mk k ∧ termValue t = String.mk v) := by
  constructor
  · unfold filterOutByLabel
    rw [if_neg hne, filterOutByLabelLoop_wf _ _ _
      (fun t ht => List.count_pos_iff.1 (hwf t ht))]
    simp
  · intro t _ h2
    exact term_of_two_seps t h2

/-- Witness of `filterOutByLabel_accepts`: the selector `a=b=c` and a node labelled `a=b`. -/
theorem filterOutByLabel_accepts_witness :
    filterOutByLabel [labelledNode "node-a" [("a", "b")]] "a=b=c" =
      .ok ([labelledNode "node-a" [("a", "b")]].filter
        (fun n => decide (∀ t ∈ stringsSplit "a=b=c" ',', termHolds n t))) :=
  (filterOutByLabel_accepts [labelledNode "node-a" [("a", "b")]] "a=b=c" (by decide)
    (by decide)).1

/-- C16: for a selector whose terms all contain exactly one `=`, every term is
`key=value` and `filterOutByLabel` succeeds with the nodes, in input order, whose labels
carry `key=value` for every term; for the empty selector it returns the node list
unchanged. -/
theorem filterOutByLabel_selects (nodes : List Node) (labels : String)
    (hwf : labels ≠ "" → ∀ t ∈ stringsSplit labels ',', t.data.count '=' = 1) :
    filterOutByLabel nodes labels =
      (if labels = "" then .ok nodes
       else .ok (nodes.filter
        (fun n => decide (∀ t ∈ stringsSplit labels ',', termHolds n t)))) ∧
    (labels ≠ "" → ∀ t ∈ stringsSplit labels ',', t = termKey t ++ "=" ++ termValue t) := by
  constructor
  · by_cases hne : labels = ""
    · simp [filterOutByLabel, hne]
    · unfold filterOutByLabel
      rw [if_neg hne, if_neg hne, filterOutByLabelLoop_wf _ _ _
        (fun t ht => List.count_pos_iff.1 (by rw [hwf hne t ht]; decide))]
      simp
  · intro hne t ht
    exact term_of_one_sep t (hwf hne t ht)

/-- Witness of `filterOutByLabel_selects`: the selector `zone=a,disk=ssd` keeps the one node
of three that carries both labels. -/
theorem filterOutByLabel_selects_witness :
    filterOutByLabel
      [labelledNode "node-a" [("zone", "a")],
       labelledNode "node-b" [("zone", "a"), ("disk", "ssd")],
       labelledNode "node-c" [("disk", "ssd")]] "zone=a,disk=ssd" =
      .ok [labelledNode "node-b" [("zone", "a"), ("disk", "ssd")]] := by
  have h := (filterOutByLabel_selects
    [labelledNode "node-a" [("zone", "a")],
     labelledNode "node-b" [("zone", "a"), ("disk", "ssd")],
     labelledNode "node-c" [("disk", "ssd")]] "zone=a,disk=ssd"
    (fun _ => by decide)).1
  rw [h]
  rfl

theorem getNodesLoop_eq (env : Env) (anno : AnnotationRequest) (items acc : List Node) :
    getNodesLoop env anno items acc = acc ++ items.filter (nodeKept env anno) := by
  induction items generalizing acc with
  | nil => simp [getNodesLoop]
  | cons n items ih =>
    rw [getNodesLoop, List.filter_cons]
    simp only [ih]
    unfold nodeKept
    have hon : OnFlag ≠ "" := by decide
    cases hu : n.Unschedulable with
    | true =>
      by_cases hf : anno.Get env.RemoveUnscheduled = OnFlag
      · have hne : anno.Get env.RemoveUnscheduled ≠ "" := by rw [hf]; exact hon
        simp [hf, hon]
      · cases hm : n.Labels env.LabelNodeRoleMaster with
        | some v => simp [hf]
        | none =>
          by_cases he : n.Labels "type" = some env.ECINodeLabel
          · simp [hf, he]
          · cases hc : n.Conditions with
            | nil => simp [hf, he]
            | cons c cs => simp [hf, he]
    | false =>
      cases hm : n.Labels env.LabelNodeRoleMaster with
      | some v => simp
      | none =>
        by_cases he : n.Labels "type" = some env.ECINodeLabel
        · simp [he]
        · cases hc : n.Conditions with
          | nil => simp [he]
          | cons c cs => simp [he]

theorem getNodes_eq (env : Env) (anno : AnnotationRequest) (nodeList items : List Node)
    (hitems : filterByLabelStage env anno nodeList = .ok items) :
    getNodes env (.ok nodeList) anno = .ok (items.filter (nodeKept env anno)) := by
  unfold getNodes
  simp only [hitems, getNodesLoop_eq, List.nil_append]

/-- C17, as stated, fails: the node `cordonedNode` is unschedulable, is not labelled as
master and reports a condition, and the remove-unscheduled annotation is unset; under the
backend-label annotation `zone=a`, which the node does not carry, the filter by label of
lines 264-271 drops it and `getNodes` returns no node. -/
theorem getNodes_unschedulable_counterexample :
    (cordonedNode.Unschedulable = true ∧
      cordonedNode.Labels testEnv.LabelNodeRoleMaster = none ∧
      cordonedNode.Conditions.length = 1 ∧
      (annoBackendLabel "zone=a").Get testEnv.RemoveUnscheduled = "") ∧
    getNodes testEnv (.ok [cordonedNode]) (annoBackendLabel "zone=a") = .ok [] :=
  ⟨⟨rfl, rfl, rfl, rfl⟩, rfl⟩

/-- C17, amended: the filter by label is one of the rules a node has to pass. When the
filter by label succeeds (the backend-label annotation is unset, or its selector is parsed
without error) and yields `items`, a node of `items` that is not labelled as master, is
labelled as ECI node or reports a condition, and is unschedulable, is in the result of
`getNodes` when the remove-unscheduled annotation is unset or has a value other than `on`,
and is not in the result when the annotation has the value `on`. -/
theorem getNodes_unschedulable (env : Env) (anno : AnnotationRequest)
    (nodeList items : List Node) (n : Node)
    (hitems : filterByLabelStage env anno nodeList = .ok items) (hn : n ∈ items)
    (hu : n.Unschedulable = true) (hm : n.Labels env.LabelNodeRoleMaster = none)
    (hc : n.Labels "type" = some env.ECINodeLabel ∨ n.Conditions ≠ []) :
    ∃ nodes, getNodes env (.ok nodeList) anno = .ok nodes ∧
      (anno.Get env.RemoveUnscheduled ≠ OnFlag → n ∈ nodes) ∧
      (anno.Get env.RemoveUnscheduled = OnFlag → n ∉ nodes) := by
  refine ⟨_, getNodes_eq env anno nodeList items hitems, ?_, ?_⟩
  · intro hf
    rw [List.mem_filter]
    refine ⟨hn, ?_⟩
    unfold nodeKept
    rcases hc with he | hne
    · simp [hu, hm, hf, he]
    · have : n.Conditions.isEmpty = false := by
        cases hcs : n.Conditions with
        | nil => exact absurd hcs hne
        | cons c cs => rfl
      simp [hu, hm, hf, this]
  · intro hf hmem
    rw [List.mem_filter] at hmem
    have hk := hmem.2
    unfold nodeKept at hk
    simp [hu, hf] at hk

/-- Witness of `getNodes_unschedulable`: a cordoned node is kept without the annotation. -/
theorem getNodes_unschedulable_witness :
    ∃ nodes, getNodes testEnv (.ok [cordonedNode]) (annoRemoveUnscheduled "") = .ok nodes ∧
      ((annoRemoveUnscheduled "").Get testEnv.RemoveUnscheduled ≠ OnFlag →
        cordonedNode ∈ nodes) ∧
      ((annoRemoveUnscheduled "").Get testEnv.RemoveUnscheduled = OnFlag →
        cordonedNode ∉ nodes) :=
  getNodes_unschedulable testEnv (annoRemoveUnscheduled "") [cordonedNode] [cordonedNode]
    cordonedNode rfl (List.mem_singleton.2 rfl) rfl rfl (Or.inr (by simp [cordonedNode]))

/-- The two cases of C17 evaluated: the cordoned node is kept under the values `""` and
`off` of the annotation and dropped under the value `on`. -/
theorem getNodes_unschedulable_example :
    getNodes testEnv (.ok [cordonedNode]) (annoRemoveUnscheduled "") = .ok [cordonedNode] ∧
    getNodes testEnv (.ok [cordonedNode]) (annoRemoveUnscheduled "off") = .ok [cordonedNode] ∧
    getNodes testEnv (.ok [cordonedNode]) (annoRemoveUnscheduled "on") = .ok [] :=
  ⟨rfl, rfl, rfl⟩

/-- C18, as stated, fails: a schedulable node that is not labelled as master and reports
one condition is not in the result of `getNodes` when the backend-label annotation holds
the selector `zone=a`, which the node does not carry; and under the selector `zone`, which
has no `=`, `getNodes` returns an error and keeps no node at all. -/
theorem getNodes_readiness_counterexample :
    (({ cordonedNode with Unschedulable := false } : Node).Unschedulable = false ∧
      ({ cordonedNode with Unschedulable := false } : Node).Labels
        testEnv.LabelNodeRoleMaster = none ∧
      ({ cordonedNode with Unschedulable := false } : Node).Conditions.length = 1) ∧
    getNodes testEnv (.ok [{ cordonedNode with Unschedulable := false }])
      (annoBackendLabel "zone=a") = .ok [] ∧
    getNodes testEnv (.ok [{ cordonedNode with Unschedulable := false }])
      (annoBackendLabel "zone") =
      .error "filter nodes by label error: parse backend label: zone, [k1=v1,k2=v2]" :=
  ⟨⟨rfl, rfl, rfl⟩, rfl, rfl⟩

/-- C18, amended: the readiness scan rejects no node, among the nodes that pass the filter
by label. When the filter by label succeeds (the backend-label annotation is unset, or its
selector is parsed without error) and yields `items`, the result of `getNodes` is the nodes
of `items` that are not dropped by the unschedulable rule, are not labelled as master, and
are labelled as ECI node or report at least one condition; a node of `items` that is not
master, not dropped by the unschedulable rule and has a condition is kept whatever its
conditions say, and whether a node is kept depends on its conditions only through their
being empty. -/
theorem getNodes_readiness (env : Env) (anno : AnnotationRequest)
    (nodeList items : List Node)
    (hitems : filterByLabelStage env anno nodeList = .ok items) :
    getNodes env (.ok nodeList) anno = .ok (items.filter (nodeKept env anno)) ∧
    (∀ n ∈ items, n.Labels env.LabelNodeRoleMaster = none →
      ¬ (n.Unschedulable = true ∧ anno.Get env.RemoveUnscheduled = OnFlag) →
      n.Conditions ≠ [] →
      n ∈ items.filter (nodeKept env anno)) ∧
    (∀ (n : Node) (conditions : List NodeCondition),
      (conditions = [] ↔ n.Conditions = []) →
      nodeKept env anno { n with Conditions := conditions } = nodeKept env anno n) := by
  refine ⟨getNodes_eq env anno nodeList items hitems, ?_, ?_⟩
  · intro n hn hm hu hne
    rw [List.mem_filter]
    refine ⟨hn, ?_⟩
    have hcs : n.Conditions.isEmpty = false := by
      cases hcs : n.Conditions with
      | nil => exact absurd hcs hne
      | cons c cs => rfl
    unfold nodeKept
    cases hun : n.Unschedulable with
    | true =>
      have hf : ¬ anno.Get env.RemoveUnscheduled = OnFlag := fun e => hu ⟨hun, e⟩
      simp [hm, hcs, hf]
    | false => simp [hm, hcs]
  · intro n conditions hiff
    unfold nodeKept
    have : conditions.isEmpty = n.Conditions.isEmpty := by
      cases hc : conditions with
      | nil => rw [hiff.1 hc]
      | cons c cs =>
        cases hn : n.Conditions with
        | nil => exact absurd (hiff.2 hn) (by rw [hc]; simp)
        | cons d ds => rfl
    simp only [this]

/-- Witness of `getNodes_readiness`: a schedulable node whose `Ready` condition is `False`
is in the result. -/
theorem getNodes_readiness_witness :
    getNodes testEnv (.ok [{ cordonedNode with Unschedulable := false }])
      (annoRemoveUnscheduled "on") =
      .ok [{ cordonedNode with Unschedulable := false }] := by
  have h := (getNodes_readiness testEnv (annoRemoveUnscheduled "on")
    [{ cordonedNode with Unschedulable := false }]
    [{ cordonedNode with Unschedulable := false }] rfl).1
  rw [h]
  rfl

/-! ## Properties of the interface lookup and of `buildENIBackends` -/

theorem GoMap_set_set (m : GoMap String) (k v : String) : (m.set k v).set k v = m.set k v := by
  funext x
  unfold GoMap.set
  by_cases h : x = k <;> simp [h]

theorem eniRecord_private (ip id : String) (addrs : List PrivateIpSet) (m : GoMap String) :
    addrs.foldl
      (fun ecis privateIp =>
        if ip = privateIp.PrivateIpAddress then GoMap.set ecis ip id else ecis) m =
    if addrs.any (fun a => decide (ip = a.PrivateIpAddress)) then m.set ip id else m := by
  induction addrs generalizing m with
  | nil => simp
  | cons a addrs ih =>
    rw [List.foldl_cons, ih, List.any_cons]
    by_cases h : ip = a.PrivateIpAddress
    · simp only [if_pos h, decide_eq_true h, Bool.true_or, if_true, GoMap_set_set]
      split_ifs <;> rfl
    · simp only [if_neg h, decide_eq_false h, Bool.false_or]

theorem or_or_self (a b : Option String) : a.or (a.or b) = a.or b := by
  cases a <;> simp

theorem eniRecord_enis (ip : String) (enis : List NetworkInterfaceSet) (m : GoMap String)
    (k : String) :
    (enis.foldl
      (fun ecis eni =>
        eni.PrivateIpSets.foldl
          (fun ecis privateIp =>
            if ip = privateIp.PrivateIpAddress then GoMap.set ecis ip eni.NetworkInterfaceId
            else ecis)
          ecis) m) k =
    if k = ip then (carrierIn enis ip).or (m ip) else m k := by
  induction enis generalizing m with
  | nil => by_cases h : k = ip <;> simp [carrierIn, h]
  | cons eni enis ih =>
    rw [List.foldl_cons, ih, eniRecord_private, carrierIn, Option.or_assoc]
    by_cases hk : k = ip
    · subst hk
      simp only [if_true]
      congr 1
      by_cases ha : eni.PrivateIpSets.any (fun a => decide (k = a.PrivateIpAddress)) = true
      · simp [ha, GoMap.set]
      · simp [ha]
    · simp only [if_neg hk]
      by_cases ha : eni.PrivateIpSets.any (fun a => decide (ip = a.PrivateIpAddress)) = true
      · simp [ha, GoMap.set, hk]
      · simp [ha]

theorem eniRecord_ips (ips : List String) (enis : List NetworkInterfaceSet) (m : GoMap String)
    (k : String) :
    (ips.foldl
      (fun ecis ip =>
        enis.foldl
          (fun ecis eni =>
            eni.PrivateIpSets.foldl
              (fun ecis privateIp =>
                if ip = privateIp.PrivateIpAddress then
                  GoMap.set ecis ip eni.NetworkInterfaceId
                else ecis)
              ecis)
          ecis) m) k =
    if k ∈ ips then (carrierIn enis k).or (m k) else m k := by
  induction ips generalizing m with
  | nil => simp
  | cons ip ips ih =>
    rw [List.foldl_cons, ih, eniRecord_enis]
    by_cases hk : k = ip
    · subst hk
      by_cases hmem : k ∈ ips
      · simp [hmem, or_or_self]
      · simp [hmem]
    · by_cases hmem : k ∈ ips
      · simp [hmem, hk]
      · simp [hmem, hk]

theorem eniRecord_apply (ips : List String) (resp : DescribeNetworkInterfacesResponse)
    (m : GoMap String) (k : String) :
    eniRecord ips resp m k =
      if k ∈ ips then (carrierIn resp.NetworkInterfaceSets k).or (m k) else m k := by
  unfold eniRecord
  exact eniRecord_ips ips resp.NetworkInterfaceSets m k

theorem eniRecord_pages (ips : List String) (pages : List DescribeNetworkInterfacesResponse)
    (m : GoMap String) (k : String) :
    (pages.foldl (fun ecis resp => eniRecord ips resp ecis) m) k =
      if k ∈ ips then (resolveIP pages k).or (m k) else m k := by
  induction pages generalizing m with
  | nil => simp [resolveIP]
  | cons p pages ih =>
    rw [List.foldl_cons, ih, eniRecord_apply, resolveIP]
    by_cases hmem : k ∈ ips
    · simp [hmem, Option.or_assoc]
    · simp [hmem]

theorem eniPages_of_followed (cloud : Provider) (vpcId : String) (ips : List String)
    (token : String) (pages : List DescribeNetworkInterfacesResponse)
    (hp : PagesFollowed cloud vpcId ips token pages) (fuel : Nat) (hfuel : pages.length ≤ fuel)
    (m : GoMap String) :
    eniPages cloud vpcId ips fuel token m =
      some (.ok (pages.foldl (fun ecis resp => eniRecord ips resp ecis) m)) := by
  induction hp generalizing fuel m with
  | last token resp hcall hlast =>
    cases fuel with
    | zero => simp at hfuel
    | succ fuel => simp [eniPages, hcall, hlast]
  | next token resp rest hcall hmore _ ih =>
    cases fuel with
    | zero => simp at hfuel
    | succ fuel =>
      have hle : rest.length ≤ fuel := by
        simp only [List.length_cons] at hfuel
        omega
      simp [eniPages, hcall, hmore, ih fuel hle]

theorem carrierIn_eq_none (enis : List NetworkInterfaceSet) (ip : String) :
    carrierIn enis ip = none ↔
      ∀ eni ∈ enis, ∀ a ∈ eni.PrivateIpSets, a.PrivateIpAddress ≠ ip := by
  induction enis with
  | nil => simp [carrierIn]
  | cons eni enis ih =>
    rw [carrierIn, Option.or_eq_none, ih]
    simp only [List.forall_mem_cons]
    constructor
    · rintro ⟨h1, h2⟩
      refine ⟨?_, h1⟩
      intro a ha heq
      by_cases hany : eni.PrivateIpSets.any (fun a => decide (ip = a.PrivateIpAddress)) = true
      · simp [hany] at h2
      · apply hany
        rw [List.any_eq_true]
        exact ⟨a, ha, by simp [heq]⟩
    · rintro ⟨h1, h2⟩
      refine ⟨h2, ?_⟩
      have hany : ¬ eni.PrivateIpSets.any (fun a => decide (ip = a.PrivateIpAddress)) = true := by
        rw [List.any_eq_true]
        rintro ⟨a, ha, heq⟩
        exact h1 a ha (by simpa using (of_decide_eq_true heq).symm)
      simp [hany]

theorem carrierIn_eq_some (enis : List NetworkInterfaceSet) (ip id : String)
    (h : carrierIn enis ip = some id) :
    ∃ eni ∈ enis, eni.NetworkInterfaceId = id ∧
      ∃ a ∈ eni.PrivateIpSets, a.PrivateIpAddress = ip := by
  induction enis with
  | nil => simp [carrierIn] at h
  | cons eni enis ih =>
    rw [carrierIn, Option.or_eq_some] at h
    rcases h with h | ⟨_, h⟩
    · obtain ⟨e, he, hid, ha⟩ := ih h
      exact ⟨e, List.mem_cons_of_mem _ he, hid, ha⟩
    · by_cases hany : eni.PrivateIpSets.any (fun a => decide (ip = a.PrivateIpAddress)) = true
      · rw [if_pos hany] at h
        rw [List.any_eq_true] at hany
        obtain ⟨a, ha, heq⟩ := hany
        refine ⟨eni, List.mem_cons_self _ _, by simpa using h, a, ha, ?_⟩
        exact (of_decide_eq_true heq).symm
      · rw [if_neg hany] at h
        simp at h

theorem resolveIP_eq_none (pages : List DescribeNetworkInterfacesResponse) (ip : String) :
    resolveIP pages ip = none ↔ ¬ Carried pages ip := by
  induction pages with
  | nil => simp [resolveIP, Carried]
  | cons p pages ih =>
    rw [resolveIP, Option.or_eq_none, ih, carrierIn_eq_none]
    unfold Carried
    constructor
    · rintro ⟨h1, h2⟩ ⟨q, hq, eni, heni, a, ha, heq⟩
      rcases List.mem_cons.1 hq with e | e
      · subst e; exact h2 eni heni a ha heq
      · exact h1 ⟨q, e, eni, heni, a, ha, heq⟩
    · intro h
      refine ⟨?_, ?_⟩
      · rintro ⟨q, hq, rest⟩
        exact h ⟨q, List.mem_cons_of_mem _ hq, rest⟩
      · intro eni heni a ha heq
        exact h ⟨p, List.mem_cons_self _ _, eni, heni, a, ha, heq⟩

theorem resolveIP_eq_some (pages : List DescribeNetworkInterfacesResponse) (ip id : String)
    (h : resolveIP pages ip = some id) : CarriedBy pages id ip := by
  induction pages with
  | nil => simp [resolveIP] at h
  | cons p pages ih =>
    rw [resolveIP, Option.or_eq_some] at h
    rcases h with h | ⟨_, h⟩
    · obtain ⟨q, hq, rest⟩ := ih h
      exact ⟨q, List.mem_cons_of_mem _ hq, rest⟩
    · obtain ⟨eni, heni, rest⟩ := carrierIn_eq_some _ _ _ h
      exact ⟨p, List.mem_cons_self _ _, eni, heni, rest⟩

theorem eniAssign_ok (vpcId : String) (ecis : GoMap String) (bs : List BackendAttribute)
    (h : ∀ b ∈ bs, ecis b.ServerIp ≠ none) :
    eniAssign vpcId ecis bs =
      .ok (bs.map (fun b =>
        { b with ServerId := (ecis b.ServerIp).getD "", BackendType := ENIBackendType })) := by
  induction bs with
  | nil => rfl
  | cons b bs ih =>
    rw [eniAssign, ih (fun c hc => h c (List.mem_cons_of_mem _ hc))]
    cases hb : ecis b.ServerIp with
    | none => exact absurd hb (h b (List.mem_cons_self _ _))
    | some id => simp [hb]

theorem eniAssign_error (vpcId : String) (ecis : GoMap String) (bs : List BackendAttribute)
    (h : ∃ b ∈ bs, ecis b.ServerIp = none) :
    ∃ err, eniAssign vpcId ecis bs = .error err := by
  induction bs with
  | nil => simp at h
  | cons b bs ih =>
    rw [eniAssign]
    cases hb : ecis b.ServerIp with
    | none => exact ⟨_, rfl⟩
    | some id =>
      have h' : ∃ c ∈ bs, ecis c.ServerIp = none := by
        obtain ⟨c, hc, hnone⟩ := h
        rcases List.mem_cons.1 hc with e | e
        · subst e; rw [hb] at hnone; simp at hnone
        · exact ⟨c, e, hnone⟩
      obtain ⟨err, herr⟩ := ih h'
      exact ⟨err, by simp [herr]⟩

theorem updateENIBackends_followed (cloud : Provider) (fuel : Nat)
    (bs : List BackendAttribute) (vpcId : String)
    (pages : List DescribeNetworkInterfacesResponse)
    (hv : cloud.VpcID = .ok vpcId)
    (hp : PagesFollowed cloud vpcId (bs.map (fun b => b.ServerIp)) "" pages)
    (hfuel : pages.length ≤ fuel) :
    ∃ ecis : GoMap String,
      updateENIBackends cloud fuel bs = some (eniAssign vpcId ecis bs) ∧
      ∀ b ∈ bs, ecis b.ServerIp = resolveIP pages b.ServerIp := by
  refine ⟨pages.foldl (fun ecis resp => eniRecord (bs.map (fun b => b.ServerIp)) resp ecis)
    GoMap.empty, ?_, ?_⟩
  · unfold updateENIBackends
    simp only [hv]
    rw [eniPages_of_followed cloud vpcId _ "" pages hp fuel hfuel]
  · intro b hb
    rw [eniRecord_pages]
    have hmem : b.ServerIp ∈ bs.map (fun b => b.ServerIp) := List.mem_map.2 ⟨b, hb, rfl⟩
    simp [hmem, GoMap.empty, Option.or_none]

theorem updateENIBackends_resolved (cloud : Provider) (fuel : Nat)
    (bs : List BackendAttribute) (vpcId : String)
    (pages : List DescribeNetworkInterfacesResponse)
    (hv : cloud.VpcID = .ok vpcId)
    (hp : PagesFollowed cloud vpcId (bs.map (fun b => b.ServerIp)) "" pages)
    (hfuel : pages.length ≤ fuel) (hall : ∀ b ∈ bs, Carried pages b.ServerIp) :
    updateENIBackends cloud fuel bs =
      some (.ok (bs.map (fun b =>
        { b with ServerId := (resolveIP pages b.ServerIp).getD "",
                 BackendType := ENIBackendType }))) := by
  obtain ⟨ecis, hupd, hecis⟩ := updateENIBackends_followed cloud fuel bs vpcId pages hv hp hfuel
  have hsome : ∀ b ∈ bs, ecis b.ServerIp ≠ none := by
    intro b hb
    rw [hecis b hb]
    intro hnone
    exact (resolveIP_eq_none pages b.ServerIp).1 hnone (hall b hb)
  rw [hupd, eniAssign_ok vpcId ecis bs hsome]
  congr 2
  apply List.map_congr_left
  intro b hb
  rw [hecis b hb]

theorem setGenericBackendAttribute_ips (candidates : EndpointWithENI) (vgroup : VServerGroup) :
    (setGenericBackendAttribute candidates vgroup).map (fun b => b.ServerIp) =
      candidates.Endpoints.Subsets.flatMap (fun ep => ep.Addresses.map (fun a => a.IP)) := by
  rw [setGenericBackendAttribute_eq]
  induction candidates.Endpoints.Subsets with
  | nil => rfl
  | cons ep eps ih =>
    simp only [List.flatMap_cons, List.map_append, ih, List.map_map]
    rfl

theorem map_flatMap_addresses (eps : List EndpointSubset)
    (f : EndpointSubset → EndpointAddress → BackendAttribute)
    (g : BackendAttribute → BackendAttribute) :
    (eps.flatMap (fun ep => ep.Addresses.map (f ep))).map g =
      eps.flatMap (fun ep => ep.Addresses.map (fun a => g (f ep a))) := by
  induction eps with
  | nil => rfl
  | cons ep eps ih =>
    simp only [List.flatMap_cons, List.map_append, ih, List.map_map]
    rfl

/-- C19: when the interface lookup succeeds for the endpoint addresses (the VPC lookup
succeeds, the pages are followed within the fuel, and every address is carried by some
interface), `buildENIBackends` returns one backend per endpoint address, in subset and then
address order, of type `eni`, with the address as `ServerIp`, the interface id that the pages
resolve the address to as `ServerId`, and the default weight; with no endpoint subset it
returns no backend and no error, whatever the provider and the fuel are. -/
theorem buildENIBackends_resolved (cloud : Provider) (fuel : Nat)
    (candidates : EndpointWithENI) (vgroup : VServerGroup) (vpcId : String)
    (pages : List DescribeNetworkInterfacesResponse)
    (hv : cloud.VpcID = .ok vpcId)
    (hp : PagesFollowed cloud vpcId
      (candidates.Endpoints.Subsets.flatMap (fun ep => ep.Addresses.map (fun a => a.IP)))
      "" pages)
    (hfuel : pages.length ≤ fuel)
    (hall : ∀ ep ∈ candidates.Endpoints.Subsets, ∀ a ∈ ep.Addresses, Carried pages a.IP) :
    buildENIBackends cloud fuel candidates vgroup =
      some (.ok (candidates.Endpoints.Subsets.flatMap (fun ep => ep.Addresses.map (fun a =>
        ({ NodeName := a.NodeName, Description := vgroup.VGroupName,
           ServerId := (resolveIP pages a.IP).getD "", ServerIp := a.IP,
           Weight := DEFAULT_SERVER_WEIGHT,
           Port := backendPortOf vgroup.ServicePort.Name ep.Ports,
           BackendType := ENIBackendType } : BackendAttribute))))) ∧
    (∀ ep ∈ candidates.Endpoints.Subsets, ∀ a ∈ ep.Addresses,
      ∃ id, resolveIP pages a.IP = some id ∧ CarriedBy pages id a.IP) ∧
    (candidates.Endpoints.Subsets = [] →
      ∀ (cloud' : Provider) (fuel' : Nat),
        buildENIBackends cloud' fuel' candidates vgroup = some (.ok [])) := by
  refine ⟨?_, ?_, ?_⟩
  · unfold buildENIBackends
    by_cases hlen : candidates.Endpoints.Subsets.length = 0
    · rw [if_pos hlen, List.length_eq_zero.1 hlen]
      rfl
    · rw [if_neg hlen]
      have hp' : PagesFollowed cloud vpcId
          ((setGenericBackendAttribute candidates vgroup).map (fun b => b.ServerIp)) ""
          pages := by
        rw [setGenericBackendAttribute_ips]; exact hp
      have hall' : ∀ b ∈ setGenericBackendAttribute candidates vgroup,
          Carried pages b.ServerIp := by
        intro b hb
        rw [setGenericBackendAttribute_eq, List.mem_flatMap] at hb
        obtain ⟨ep, hep, hb⟩ := hb
        rw [List.mem_map] at hb
        obtain ⟨a, ha, rfl⟩ := hb
        exact hall ep hep a ha
      simp only [updateENIBackends_resolved cloud fuel _ vpcId pages hv hp' hfuel hall']
      rw [setGenericBackendAttribute_eq, map_flatMap_addresses, map_flatMap_addresses]
      rfl
  · intro ep hep a ha
    cases hr : resolveIP pages a.IP with
    | none => exact absurd (hall ep hep a ha) ((resolveIP_eq_none pages a.IP).1 hr)
    | some id => exact ⟨id, rfl, resolveIP_eq_some pages a.IP id hr⟩
  · intro hnil cloud' fuel'
    unfold buildENIBackends
    rw [hnil]
    rfl

/-- Witness of `buildENIBackends_resolved`: two addresses resolved on two pages. -/
theorem buildENIBackends_resolved_witness :
    buildENIBackends twoPageCloud 2 twoAddresses (groupOf []) =
      some (.ok
        [⟨some "node-a", "g", "eni-1", "10.0.0.1", 100, 8080, "eni"⟩,
         ⟨some "node-a", "g", "eni-2", "10.0.0.2", 100, 8080, "eni"⟩]) := by
  have h := (buildENIBackends_resolved twoPageCloud 2 twoAddresses (groupOf []) "vpc-1" twoPages
    rfl
    (PagesFollowed.next "" _ _ rfl (by decide) (PagesFollowed.last "t1" _ rfl rfl))
    (by decide) (by decide)).1
  rw [h]
  rfl

/-- C20: given a successful VPC lookup and the pages that the lookup loop follows,
`updateENIBackends` (with fuel for these pages) returns an error iff the `ServerIp` of some
backend is the private address of no interface on any page; otherwise it returns the same
backends in the same order, each with type `eni` and with `ServerId` set to the id of an
interface that has its `ServerIp`, the other fields unchanged. -/
theorem updateENIBackends_all_or_nothing (cloud : Provider) (fuel : Nat)
    (bs : List BackendAttribute) (vpcId : String)
    (pages : List DescribeNetworkInterfacesResponse)
    (hv : cloud.VpcID = .ok vpcId)
    (hp : PagesFollowed cloud vpcId (bs.map (fun b => b.ServerIp)) "" pages)
    (hfuel : pages.length ≤ fuel) :
    ((∃ err, updateENIBackends cloud fuel bs = some (.error err)) ↔
      ∃ b ∈ bs, ¬ Carried pages b.ServerIp) ∧
    ((∀ b ∈ bs, Carried pages b.ServerIp) →
      updateENIBackends cloud fuel bs =
        some (.ok (bs.map (fun b =>
          { b with ServerId := (resolveIP pages b.ServerIp).getD "",
                   BackendType := ENIBackendType }))) ∧
      ∀ b ∈ bs, ∃ id, resolveIP pages b.ServerIp = some id ∧
        CarriedBy pages id b.ServerIp) := by
  have hok := updateENIBackends_resolved cloud fuel bs vpcId pages hv hp hfuel
  constructor
  · constructor
    · rintro ⟨err, herr⟩
      by_contra hcon
      have hall : ∀ b ∈ bs, Carried pages b.ServerIp := by
        intro b hb
        by_contra hnot
        exact hcon ⟨b, hb, hnot⟩
      rw [hok hall] at herr
      simp at herr
    · rintro ⟨b, hb, hnot⟩
      obtain ⟨ecis, hupd, hecis⟩ :=
        updateENIBackends_followed cloud fuel bs vpcId pages hv hp hfuel
      have hnone : ecis b.ServerIp = none := by
        rw [hecis b hb]
        exact (resolveIP_eq_none pages b.ServerIp).2 hnot
      obtain ⟨err, herr⟩ := eniAssign_error vpcId ecis bs ⟨b, hb, hnone⟩
      exact ⟨err, by rw [hupd, herr]⟩
  · intro hall
    refine ⟨hok hall, ?_⟩
    intro b hb
    cases hr : resolveIP pages b.ServerIp with
    | none => exact absurd (hall b hb) ((resolveIP_eq_none pages b.ServerIp).1 hr)
    | some id => exact ⟨id, rfl, resolveIP_eq_some pages b.ServerIp id hr⟩

/-- Witness of `updateENIBackends_all_or_nothing`: two backends resolved on two pages. -/
theorem updateENIBackends_all_or_nothing_witness :
    updateENIBackends twoPageCloud 2 [endpointB "10.0.0.1", endpointB "10.0.0.2"] =
      some (.ok
        [⟨some "node-a", "g", "eni-1", "10.0.0.1", 0, 8080, "eni"⟩,
         ⟨some "node-a", "g", "eni-2", "10.0.0.2", 0, 8080, "eni"⟩]) := by
  have h := ((updateENIBackends_all_or_nothing twoPageCloud 2
    [endpointB "10.0.0.1", endpointB "10.0.0.2"] "vpc-1" twoPages rfl
    (PagesFollowed.next "" _ _ rfl (by decide) (PagesFollowed.last "t1" _ rfl rfl))
    (by decide)).2 (by decide)).1
  rw [h]
  rfl

/-- The failing side of C20 evaluated: an address that no page carries makes
`updateENIBackends` fail. -/
theorem updateENIBackends_missing_example :
    updateENIBackends twoPageCloud 2 [endpointB "10.0.0.1", endpointB "10.0.0.9"] =
      some (.error "can not find eniid for ip 10.0.0.9 in vpc vpc-1") := by
  rfl

/-! ## Properties of `Batch` and `UpdateVServerGroup` -/

theorem batchChunks_nil {α : Type} (maxChunk fuel : Nat) :
    batchChunks maxChunk fuel ([] : List α) = [] := by
  cases fuel <;> simp [batchChunks]

theorem ceil_div_step (n m : Nat) (hm : 0 < m) (hn : 0 < n) :
    (n + m - 1) / m = (n - m + m - 1) / m + 1 := by
  by_cases h : m ≤ n
  · have h1 : n + m - 1 = (n - m + m - 1) + m := by omega
    rw [h1, Nat.add_div_right _ hm]
  · have h0 : n - m = 0 := by omega
    have h2 : (0 + m - 1) / m = 0 := Nat.div_eq_of_lt (by omega)
    rw [h0, h2]
    exact Nat.div_eq_of_lt_le (by omega) (by omega)

theorem batchChunks_spec {α : Type} (maxChunk : Nat) (hm : 0 < maxChunk) (fuel : Nat)
    (target : List α) (hfuel : target.length ≤ fuel) :
    (batchChunks maxChunk fuel target).flatten = target ∧
    (batchChunks maxChunk fuel target).length = (target.length + maxChunk - 1) / maxChunk ∧
    (∀ c ∈ batchChunks maxChunk fuel target, 0 < c.length ∧ c.length ≤ maxChunk) ∧
    (∀ c ∈ (batchChunks maxChunk fuel target).dropLast, c.length = maxChunk) := by
  induction fuel generalizing target with
  | zero =>
    have : target = [] := List.length_eq_zero.1 (by omega)
    subst this
    refine ⟨by simp [batchChunks], ?_, by simp [batchChunks], by simp [batchChunks]⟩
    simp only [batchChunks, List.length_nil]
    exact (Nat.div_eq_of_lt (by omega)).symm
  | succ fuel ih =>
    by_cases hnil : target.length = 0
    · have : target = [] := List.length_eq_zero.1 hnil
      subst this
      refine ⟨by simp [batchChunks], ?_, by simp [batchChunks], by simp [batchChunks]⟩
      simp only [batchChunks, List.length_nil]
      exact (Nat.div_eq_of_lt (by omega)).symm
    · have hdrop : (target.drop maxChunk).length ≤ fuel := by
        rw [List.length_drop]; omega
      obtain ⟨h1, h2, h3, h4⟩ := ih (target.drop maxChunk) hdrop
      have hunfold : batchChunks maxChunk (fuel + 1) target =
          target.take maxChunk :: batchChunks maxChunk fuel (target.drop maxChunk) := by
        simp [batchChunks, hnil]
      rw [hunfold]
      refine ⟨?_, ?_, ?_, ?_⟩
      · rw [List.flatten_cons, h1, List.take_append_drop]
      · rw [List.length_cons, h2, List.length_drop]
        exact (ceil_div_step target.length maxChunk hm (by omega)).symm
      · intro c hc
        rcases List.mem_cons.1 hc with e | e
        · subst e
          rw [List.length_take]
          omega
        · exact h3 c e
      · intro c hc
        cases hrest : batchChunks maxChunk fuel (target.drop maxChunk) with
        | nil => rw [hrest] at hc; simp at hc
        | cons d ds =>
          rw [hrest, List.dropLast_cons₂] at hc
          rcases List.mem_cons.1 hc with e | e
          · subst e
            have hne : target.drop maxChunk ≠ [] := by
              intro hdn
              rw [hdn, batchChunks_nil] at hrest
              simp at hrest
            have hlen : 0 < (target.drop maxChunk).length := List.length_pos.2 hne
            rw [List.length_drop] at hlen
            rw [List.length_take]
            omega
          · apply h4
            rw [hrest]
            exact e

theorem batchRun_all_ok {α : Type} (outcome : List α → Except String Unit)
    (chunks : List (List α)) (hok : ∀ c ∈ chunks, outcome c = .ok ()) :
    batchRun (fun c => ([c], outcome c)) chunks = (chunks, .ok ()) := by
  induction chunks with
  | nil => rfl
  | cons c cs ih =>
    have hc := hok c (List.mem_cons_self _ _)
    have hcs := ih (fun d hd => hok d (List.mem_cons_of_mem _ hd))
    simp [batchRun, hc, hcs]

theorem batchRun_first_failure {α : Type} (outcome : List α → Except String Unit)
    (before : List (List α)) (chunk : List α) (after : List (List α)) (err : String)
    (hbefore : ∀ c ∈ before, outcome c = .ok ()) (hchunk : outcome chunk = .error err) :
    batchRun (fun c => ([c], outcome c)) (before ++ chunk :: after) =
      (before ++ [chunk], .error err) := by
  induction before with
  | nil => simp [batchRun, hchunk]
  | cons c cs ih =>
    have hc := hbefore c (List.mem_cons_self _ _)
    have hcs := ih (fun d hd => hbefore d (List.mem_cons_of_mem _ hd))
    simp [batchRun, hc, hcs]

/-- C21: for a maximum chunk size `m > 0` and an operation that succeeds, `Batch` invokes the
operation on `ceiling(n/m)` chunks, in order, whose concatenation is the input list, each
non-empty and of at most `m` items, and each but the last of exactly `m` items. -/
theorem Batch_chunking {α : Type} (items : List α) (m : Nat) (hm : 0 < m)
    (outcome : List α → Except String Unit) (hok : ∀ c, outcome c = .ok ()) :
    ∃ chunks, Batch items m (fun c => ([c], outcome c)) = (chunks, .ok ()) ∧
      chunks.length = (items.length + m - 1) / m ∧
      chunks.flatten = items ∧
      (∀ c ∈ chunks, 0 < c.length ∧ c.length ≤ m) ∧
      (∀ c ∈ chunks.dropLast, c.length = m) := by
  obtain ⟨h1, h2, h3, h4⟩ := batchChunks_spec m hm items.length items (Nat.le_refl _)
  refine ⟨batchChunks m items.length items, ?_, h2, h1, h3, h4⟩
  unfold Batch
  exact batchRun_all_ok outcome _ (fun c _ => hok c)

/-- Witness of `Batch_chunking`: 205 items and chunk size 50 give chunks of sizes 50, 50,
50, 50 and 5. -/
theorem Batch_chunking_witness :
    ∃ chunks, Batch (List.range 205) 50 (fun c => ([c], Except.ok ())) = (chunks, .ok ()) ∧
      chunks.length = ((List.range 205).length + 50 - 1) / 50 ∧
      chunks.flatten = List.range 205 ∧
      (∀ c ∈ chunks, 0 < c.length ∧ c.length ≤ 50) ∧
      (∀ c ∈ chunks.dropLast, c.length = 50) :=
  Batch_chunking (List.range 205) 50 (by decide) (fun _ => Except.ok ()) (fun _ => rfl)

/-- The example of C21 evaluated: the sizes of the chunks of 205 items at chunk size 50. -/
theorem Batch_chunking_example :
    (Batch (List.range 205) 50 (fun c => ([c], Except.ok ()))).1.map List.length =
      [50, 50, 50, 50, 5] := by
  set_option maxRecDepth 20000 in decide

/-- C22: when the operation succeeds on the chunks before chunk `k` and fails on chunk `k`,
`Batch` returns that failure, has submitted the chunks up to and including `k` once each, in
order, and has submitted no later chunk. -/
theorem Batch_stops_at_failure {α : Type} (items : List α) (m : Nat)
    (outcome : List α → Except String Unit)
    (before : List (List α)) (chunk : List α) (after : List (List α)) (err : String)
    (hchunks : batchChunks m items.length items = before ++ chunk :: after)
    (hbefore : ∀ c ∈ before, outcome c = .ok ()) (hchunk : outcome chunk = .error err) :
    Batch items m (fun c => ([c], outcome c)) = (before ++ [chunk], .error err) := by
  unfold Batch
  rw [hchunks]
  exact batchRun_first_failure outcome before chunk after err hbefore hchunk

/-- Witness of `Batch_stops_at_failure`: five items at chunk size 2 and an operation that
fails on the second chunk; two chunks are submitted, the third is not. -/
theorem Batch_stops_at_failure_witness :
    Batch [1, 2, 3, 4, 5] 2
      (fun c => ([c], if c = [3, 4] then Except.error "failed" else Except.ok ())) =
      ([[1, 2], [3, 4]], .error "failed") :=
  Batch_stops_at_failure [1, 2, 3, 4, 5] 2
    (fun c => if c = [3, 4] then Except.error "failed" else Except.ok ())
    [[1, 2]] [3, 4] [[5]] "failed" rfl
    (by intro c hc; rw [List.mem_singleton.1 hc]; rfl) rfl

/-- The example of C22 evaluated: with 205 items at chunk size 50 and an operation that
fails on the third chunk, three chunks are submitted and the failure is returned. -/
theorem Batch_stops_at_failure_example :
    (Batch (List.range 205) 50
      (fun c => ([c], if c.head? = some 100 then Except.error "failed"
        else Except.ok ()))).1.map List.length = [50, 50, 50] ∧
    (match (Batch (List.range 205) 50
      (fun c => ([c], if c.head? = some 100 then Except.error "failed"
        else Except.ok ()))).2 with
      | .error err => err
      | .ok _ => "") = "failed" := by
  set_option maxRecDepth 20000 in decide

/-! ## Further properties of `diff` and of the builders -/

/-- C23, as stated, fails: the observed group holds the `ServerId` `i-1` twice, with the
weights 5 and 3; the desired backend of `ServerId` `i-1`, of type `ecs` and of weight 3 has
another `ServerIp` than the second observed backend and the same weight, and it is in the
weight updates, because its weight differs from that of the first observed backend. -/
theorem diff_key_stability_counterexample :
    ((ecsB "i-1" "10.0.0.9" 3).BackendType ≠ "eni" ∧
      ecsB "i-1" "10.0.0.2" 3 ∈
        (groupOf [ecsB "i-1" "10.0.0.1" 5, ecsB "i-1" "10.0.0.2" 3]).Backends ∧
      (ecsB "i-1" "10.0.0.2" 3).ServerId = (ecsB "i-1" "10.0.0.9" 3).ServerId ∧
      (ecsB "i-1" "10.0.0.2" 3).ServerIp ≠ (ecsB "i-1" "10.0.0.9" 3).ServerIp ∧
      (ecsB "i-1" "10.0.0.9" 3).Weight = (ecsB "i-1" "10.0.0.2" 3).Weight) ∧
    diff (groupOf [ecsB "i-1" "10.0.0.1" 5, ecsB "i-1" "10.0.0.2" 3])
      (groupOf [ecsB "i-1" "10.0.0.9" 3]) = ([], [], [ecsB "i-1" "10.0.0.9" 3]) ∧
    ecsB "i-1" "10.0.0.9" 3 ∈
      (diff (groupOf [ecsB "i-1" "10.0.0.1" 5, ecsB "i-1" "10.0.0.2" 3])
        (groupOf [ecsB "i-1" "10.0.0.9" 3])).2.2 := by
  refine ⟨by decide, by decide, by decide⟩

/-- C23, amended: a desired backend `l` of a type other than `eni` and an observed backend
`r` with the same `ServerId` and another `ServerIp` are one entity for `diff`: `l` is not
added, `r` is not removed, and `l` is in the weight updates only if its weight differs from
that of some observed backend of its `ServerId`; when all observed backends of that
`ServerId` have the weight of `r`, `l` is in the weight updates exactly when its weight
differs from that of `r`. -/
theorem diff_key_stability (remote lcl : VServerGroup) (l r : BackendAttribute)
    (hl : l ∈ lcl.Backends) (hr : r ∈ remote.Backends) (ht : l.BackendType ≠ "eni")
    (hid : r.ServerId = l.ServerId) (_hip : r.ServerIp ≠ l.ServerIp) :
    l ∉ (diff remote lcl).1 ∧
    r ∉ (diff remote lcl).2.1 ∧
    (l ∈ (diff remote lcl).2.2 →
      ∃ r' ∈ remote.Backends, r'.ServerId = l.ServerId ∧ l.Weight ≠ r'.Weight) ∧
    ((∀ r' ∈ remote.Backends, r'.ServerId = l.ServerId → r'.Weight = r.Weight) →
      (l ∈ (diff remote lcl).2.2 ↔ l.Weight ≠ r.Weight)) := by
  have hkey : ∀ x : BackendAttribute, sameKey l x ↔ x.ServerId = l.ServerId := by
    intro x
    unfold sameKey
    rw [if_neg ht]
  have hmem : l ∈ (diff remote lcl).2.2 ↔
      ∃ r' ∈ remote.Backends, r'.ServerId = l.ServerId ∧ l.Weight ≠ r'.Weight := by
    rw [diff_updates_eq, List.mem_filter, decide_eq_true_eq]
    constructor
    · rintro ⟨_, r', hr', hk, hw⟩
      exact ⟨r', hr', (hkey r').1 hk, hw⟩
    · rintro ⟨r', hr', hk, hw⟩
      exact ⟨hl, r', hr', (hkey r').2 hk, hw⟩
  refine ⟨?_, ?_, hmem.1, ?_⟩
  · rw [diff_additions_eq, List.mem_filter, decide_eq_true_eq]
    rintro ⟨_, hno⟩
    exact hno ⟨r, hr, (hkey r).2 hid⟩
  · rw [diff_deletions_eq, List.mem_filter, decide_eq_true_eq]
    rintro ⟨_, hno⟩
    exact hno ⟨l, hl, (hkey r).2 hid⟩
  · intro hall
    rw [hmem]
    constructor
    · rintro ⟨r', hr', hk, hw⟩
      rw [hall r' hr' hk] at hw
      exact hw
    · intro hw
      exact ⟨r, hr, hid, hw⟩

/-- Witness of `diff_key_stability`: one instance id with addresses `10.0.0.1` (observed,
weight 1) and `10.0.0.2` (desired, weight 3): only a weight update. -/
theorem diff_key_stability_witness :
    diff (groupOf [ecsB "i-1" "10.0.0.1" 1]) (groupOf [ecsB "i-1" "10.0.0.2" 3]) =
      ([], [], [ecsB "i-1" "10.0.0.2" 3]) ∧
    ecsB "i-1" "10.0.0.2" 3 ∉
      (diff (groupOf [ecsB "i-1" "10.0.0.1" 1]) (groupOf [ecsB "i-1" "10.0.0.2" 3])).1 :=
  ⟨by decide,
   (diff_key_stability (groupOf [ecsB "i-1" "10.0.0.1" 1]) (groupOf [ecsB "i-1" "10.0.0.2" 3])
    (ecsB "i-1" "10.0.0.2" 3) (ecsB "i-1" "10.0.0.1" 1)
    (by decide) (by decide) (by decide) (by decide) (by decide)).1⟩

theorem local_entry (resolved : List BackendAttribute) (e : BackendAttribute)
    (he : e ∈ remoteDuplicatedECS (setWeightForLocalBackends resolved)) :
    e.Weight = (podCount resolved e.ServerId : Int) ∧
    ∃ b ∈ resolved, b.ServerId = e.ServerId ∧ b.BackendType = e.BackendType := by
  rw [remoteDuplicatedECS_eq] at he
  have he' := firstByServerId_subset _ _ he
  rw [setWeightForLocalBackends_eq, List.mem_map] at he'
  obtain ⟨b, hb, rfl⟩ := he'
  exact ⟨rfl, b, hb, rfl, rfl⟩

theorem local_ids_nodup (resolved : List BackendAttribute) :
    ((remoteDuplicatedECS (setWeightForLocalBackends resolved)).map
      (fun b => b.ServerId)).Nodup := by
  rw [remoteDuplicatedECS_eq, firstByServerId_ids]
  exact firstOccurrences_nodup _

theorem podCount_pos (resolved : List BackendAttribute) (b : BackendAttribute)
    (hb : b ∈ resolved) : 1 ≤ podCount resolved b.ServerId := by
  unfold podCount
  apply List.length_pos.2
  intro hnil
  have : b ∈ resolved.filter (fun x => decide (x.ServerId = b.ServerId)) := by
    rw [List.mem_filter]
    exact ⟨hb, by simp⟩
  rw [hnil] at this
  simp at this

theorem buildENIBackends_weights (cloud : Provider) (fuel : Nat)
    (candidates : EndpointWithENI) (vgroup : VServerGroup) (out : List BackendAttribute)
    (h : buildENIBackends cloud fuel candidates vgroup = some (.ok out)) :
    ∀ b ∈ out, b.Weight = DEFAULT_SERVER_WEIGHT := by
  unfold buildENIBackends at h
  by_cases hlen : candidates.Endpoints.Subsets.length = 0
  · rw [if_pos hlen] at h
    simp only [Option.some.injEq, Except.ok.injEq] at h
    subst h
    simp
  · rw [if_neg hlen] at h
    simp only [] at h
    cases hu : updateENIBackends cloud fuel (setGenericBackendAttribute candidates vgroup) with
    | none => rw [hu] at h; simp at h
    | some res =>
      cases res with
      | error err => rw [hu] at h; simp at h
      | ok bs =>
        rw [hu] at h
        simp only [Option.some.injEq, Except.ok.injEq] at h
        subst h
        intro b hb
        rw [List.mem_map] at hb
        obtain ⟨x, _, rfl⟩ := hb
        rfl

theorem buildClusterBackends_weights (env : Env) (cloud : Provider) (fuel : Nat)
    (svcKey : String) (candidates : EndpointWithENI) (vgroup : VServerGroup)
    (out : List BackendAttribute)
    (h : buildClusterBackends env cloud fuel svcKey candidates vgroup = some (.ok out)) :
    ∀ b ∈ out, b.Weight = DEFAULT_SERVER_WEIGHT := by
  unfold buildClusterBackends at h
  by_cases hlen : candidates.Endpoints.Subsets.length = 0
  · rw [if_pos hlen] at h
    simp only [Option.some.injEq, Except.ok.injEq] at h
    subst h
    simp
  · rw [if_neg hlen] at h
    simp only [] at h
    cases hecs : clusterEcsBackends env vgroup candidates.Nodes [] with
    | error err => rw [hecs] at h; simp at h
    | ok ecs =>
      rw [hecs] at h
      simp only [] at h
      cases heci : clusterEciBackends env svcKey candidates.Nodes
          (setGenericBackendAttribute candidates vgroup) [] with
      | error err => rw [heci] at h; simp at h
      | ok eci =>
        rw [heci] at h
        simp only [] at h
        cases hres : (if eci.length ≠ 0 then updateENIBackends cloud fuel eci
            else some (.ok eci)) with
        | none => rw [hres] at h; simp at h
        | some res =>
          cases res with
          | error err => rw [hres] at h; simp at h
          | ok enis =>
            rw [hres] at h
            simp only [Option.some.injEq, Except.ok.injEq] at h
            subst h
            intro b hb
            rw [List.mem_map] at hb
            obtain ⟨x, _, rfl⟩ := hb
            rfl

theorem buildLocalBackends_ok (env : Env) (cloud : Provider) (fuel : Nat)
    (svcKey : String) (candidates : EndpointWithENI) (vgroup : VServerGroup)
    (out : List BackendAttribute)
    (h : buildLocalBackends env cloud fuel svcKey candidates vgroup = some (.ok out)) :
    (candidates.Endpoints.Subsets.length = 0 ∧ out = []) ∨
    ∃ ecs eci enis,
      localBackendsLoop env svcKey candidates.Nodes vgroup
        (setGenericBackendAttribute candidates vgroup) [] [] = .ok (ecs, eci) ∧
      ((eci = [] ∧ enis = []) ∨ updateENIBackends cloud fuel eci = some (.ok enis)) ∧
      out = remoteDuplicatedECS (setWeightForLocalBackends (ecs ++ enis)) := by
  unfold buildLocalBackends at h
  by_cases hlen : candidates.Endpoints.Subsets.length = 0
  · rw [if_pos hlen] at h
    simp only [Option.some.injEq, Except.ok.injEq] at h
    exact Or.inl ⟨hlen, h.symm⟩
  · rw [if_neg hlen] at h
    simp only [] at h
    right
    cases hloop : localBackendsLoop env svcKey candidates.Nodes vgroup
        (setGenericBackendAttribute candidates vgroup) [] [] with
    | error err => rw [hloop] at h; simp at h
    | ok pair =>
      obtain ⟨ecs, eci⟩ := pair
      rw [hloop] at h
      simp only [] at h
      by_cases hnil : eci.length ≠ 0
      · rw [if_pos hnil] at h
        cases hres : updateENIBackends cloud fuel eci with
        | none => rw [hres] at h; simp at h
        | some res =>
          cases res with
          | error err => rw [hres] at h; simp at h
          | ok enis =>
            rw [hres] at h
            simp only [Option.some.injEq, Except.ok.injEq] at h
            exact ⟨ecs, eci, enis, rfl, Or.inr hres, h.symm⟩
      · rw [if_neg hnil] at h
        simp only [Option.some.injEq, Except.ok.injEq] at h
        have heci : eci = [] := List.length_eq_zero.1 (by simpa using hnil)
        subst heci
        exact ⟨ecs, [], [], rfl, Or.inl ⟨rfl, rfl⟩, h.symm⟩

/-- C24: every backend of a list that `buildENIBackends` or `buildClusterBackends` returns
without error has the default weight 100, and every backend of a list that
`buildLocalBackends` returns without error has a weight of at least 1. -/
theorem builders_weight_positive (env : Env) (cloud : Provider) (fuel : Nat)
    (svcKey : String) (candidates : EndpointWithENI) (vgroup : VServerGroup) :
    (∀ out, buildENIBackends cloud fuel candidates vgroup = some (.ok out) →
      ∀ b ∈ out, b.Weight = 100 ∧ 1 ≤ b.Weight) ∧
    (∀ out, buildClusterBackends env cloud fuel svcKey candidates vgroup = some (.ok out) →
      ∀ b ∈ out, b.Weight = 100 ∧ 1 ≤ b.Weight) ∧
    (∀ out, buildLocalBackends env cloud fuel svcKey candidates vgroup = some (.ok out) →
      ∀ b ∈ out, 1 ≤ b.Weight) := by
  refine ⟨?_, ?_, ?_⟩
  · intro out h b hb
    have hw := buildENIBackends_weights cloud fuel candidates vgroup out h b hb
    rw [hw]
    exact ⟨rfl, by decide⟩
  · intro out h b hb
    have hw := buildClusterBackends_weights env cloud fuel svcKey candidates vgroup out h b hb
    rw [hw]
    exact ⟨rfl, by decide⟩
  · intro out h b hb
    rcases buildLocalBackends_ok env cloud fuel svcKey candidates vgroup out h with
      ⟨_, hnil⟩ | ⟨ecs, eci, enis, _, _, hout⟩
    · rw [hnil] at hb; simp at hb
    · rw [hout] at hb
      obtain ⟨hw, x, hx, hid, _⟩ := local_entry _ b hb
      rw [hw, ← hid]
      exact_mod_cast podCount_pos _ x hx

/-- Witness of `builders_weight_positive`: the three builders on concrete candidate sets. -/
theorem builders_weight_positive_witness :
    (∀ b ∈ [(⟨some "node-a", "g", "eni-1", "10.0.0.1", 100, 8080, "eni"⟩ : BackendAttribute),
        ⟨some "node-a", "g", "eni-2", "10.0.0.2", 100, 8080, "eni"⟩],
      b.Weight = 100 ∧ 1 ≤ b.Weight) ∧
    (∀ b ∈ [(⟨some "a", "g", "i-a", "10.0.0.1", 2, 30080, "ecs"⟩ : BackendAttribute),
        ⟨some "vk", "g", "eni-1", "10.0.1.1", 2, 8080, "eni"⟩],
      1 ≤ b.Weight) :=
  ⟨(builders_weight_positive testEnv twoPageCloud 2 "default/web" twoAddresses (groupOf [])).1
      _ rfl,
   (builders_weight_positive testEnv sharedEniCloud 1 "default/web" localCandidates
      (groupOf [])).2.2 _ rfl⟩

/-- C28: in the list that `buildLocalBackends` returns, the entries have pairwise distinct
`ServerId`, and every entry, whatever its type, has as weight the number of resolved
backends (compute-backed ones followed by the resolved interface-backed ones) that share its
`ServerId`; the list is the de-duplication of that weighted list. -/
theorem buildLocalBackends_uniform (env : Env) (cloud : Provider) (fuel : Nat)
    (svcKey : String) (candidates : EndpointWithENI) (vgroup : VServerGroup)
    (out : List BackendAttribute)
    (h : buildLocalBackends env cloud fuel svcKey candidates vgroup = some (.ok out)) :
    (out.map (fun b => b.ServerId)).Nodup ∧
    ∃ resolved : List BackendAttribute,
      out = remoteDuplicatedECS (setWeightForLocalBackends resolved) ∧
      (∀ e ∈ out,
        e.Weight = ((resolved.filter (fun b => decide (b.ServerId = e.ServerId))).length : Int) ∧
        ∃ b ∈ resolved, b.ServerId = e.ServerId ∧ b.BackendType = e.BackendType) ∧
      (candidates.Endpoints.Subsets.length ≠ 0 →
        ∃ ecs eci enis,
          localBackendsLoop env svcKey candidates.Nodes vgroup
            (setGenericBackendAttribute candidates vgroup) [] [] = .ok (ecs, eci) ∧
          ((eci = [] ∧ enis = []) ∨ updateENIBackends cloud fuel eci = some (.ok enis)) ∧
          resolved = ecs ++ enis) := by
  rcases buildLocalBackends_ok env cloud fuel svcKey candidates vgroup out h with
    ⟨hlen, hnil⟩ | ⟨ecs, eci, enis, hloop, hres, hout⟩
  · subst hnil
    refine ⟨by simp, [], by decide, by simp, fun hne => absurd hlen hne⟩
  · subst hout
    refine ⟨local_ids_nodup _, ecs ++ enis, rfl, ?_, fun _ => ⟨ecs, eci, enis, hloop, hres, rfl⟩⟩
    intro e he
    exact local_entry _ e he

/-- Witness of `buildLocalBackends_uniform`: two addresses on a worker node and two addresses
on one interface of a virtual node give one `ecs` entry and one `eni` entry, each of
weight 2. -/
theorem buildLocalBackends_uniform_witness :
    buildLocalBackends testEnv sharedEniCloud 1 "default/web" localCandidates (groupOf []) =
      some (.ok
        [⟨some "a", "g", "i-a", "10.0.0.1", 2, 30080, "ecs"⟩,
         ⟨some "vk", "g", "eni-1", "10.0.1.1", 2, 8080, "eni"⟩]) ∧
    ([(⟨some "a", "g", "i-a", "10.0.0.1", 2, 30080, "ecs"⟩ : BackendAttribute),
      ⟨some "vk", "g", "eni-1", "10.0.1.1", 2, 8080, "eni"⟩].map (fun b => b.ServerId)).Nodup :=
  ⟨rfl,
   (buildLocalBackends_uniform testEnv sharedEniCloud 1 "default/web" localCandidates
    (groupOf []) _ rfl).1⟩

theorem UpdateVServerGroup_unfold (env : Env) (cloud : Provider) (batch : BatchFn)
    (lcl remote : VServerGroup) :
    UpdateVServerGroup env cloud batch lcl remote =
      (match dispatchStage (diff remote lcl).1
          (BatchAddVServerGroupBackendServers env cloud batch lcl) with
       | (calls1, .error err) => (calls1, .error err)
       | (calls1, .ok _) =>
         match dispatchStage (diff remote lcl).2.1
            (BatchRemoveVServerGroupBackendServers env cloud batch remote) with
         | (calls2, .error err) => (calls1 ++ calls2, .error err)
         | (calls2, .ok _) =>
           (calls1 ++ calls2 ++
              (dispatchStage (diff remote lcl).2.2
                (BatchUpdateVServerGroupBackendServers env cloud batch remote)).1,
            (dispatchStage (diff remote lcl).2.2
                (BatchUpdateVServerGroupBackendServers env cloud batch remote)).2)) := by
  have hstage : ∀ (items : List BackendAttribute)
      (run : List BackendAttribute → List Call × Except String Unit),
      (if items.length > 0 then run items else ([], .ok ())) = dispatchStage items run := by
    intro items run
    unfold dispatchStage
    cases items with
    | nil => simp
    | cons x xs => simp
  unfold UpdateVServerGroup
  rcases hd : diff remote lcl with ⟨add, del, update⟩
  simp only [hstage]
  rcases dispatchStage add (BatchAddVServerGroupBackendServers env cloud batch lcl) with
    ⟨calls1, r1⟩
  cases r1 with
  | error err => rfl
  | ok u =>
    simp only []
    rcases dispatchStage del (BatchRemoveVServerGroupBackendServers env cloud batch remote)
      with ⟨calls2, r2⟩
    cases r2 with
    | error err => rfl
    | ok u2 =>
      simp only []
      cases update with
      | nil => simp [dispatchStage]
      | cons x xs => simp [dispatchStage]

/-- The stages of `UpdateVServerGroup`, for every function passed as `Batch`: the additions,
then the removals, then the weight updates, each through its batched method and each skipped
when its list is empty; a failure of a stage ends the pass. -/
theorem UpdateVServerGroup_stages (env : Env) (cloud : Provider) (batch : BatchFn)
    (lcl remote : VServerGroup) :
    (diff remote lcl = ([], [], []) →
      UpdateVServerGroup env cloud batch lcl remote = ([], .ok ())) ∧
    (∀ err,
      (dispatchStage (diff remote lcl).1
        (BatchAddVServerGroupBackendServers env cloud batch lcl)).2 = .error err →
      UpdateVServerGroup env cloud batch lcl remote =
        ((dispatchStage (diff remote lcl).1
          (BatchAddVServerGroupBackendServers env cloud batch lcl)).1, .error err)) ∧
    ((dispatchStage (diff remote lcl).1
        (BatchAddVServerGroupBackendServers env cloud batch lcl)).2 = .ok () →
      ∀ err,
      (dispatchStage (diff remote lcl).2.1
        (BatchRemoveVServerGroupBackendServers env cloud batch remote)).2 = .error err →
      UpdateVServerGroup env cloud batch lcl remote =
        ((dispatchStage (diff remote lcl).1
            (BatchAddVServerGroupBackendServers env cloud batch lcl)).1 ++
          (dispatchStage (diff remote lcl).2.1
            (BatchRemoveVServerGroupBackendServers env cloud batch remote)).1, .error err)) ∧
    ((dispatchStage (diff remote lcl).1
        (BatchAddVServerGroupBackendServers env cloud batch lcl)).2 = .ok () →
      (dispatchStage (diff remote lcl).2.1
        (BatchRemoveVServerGroupBackendServers env cloud batch remote)).2 = .ok () →
      UpdateVServerGroup env cloud batch lcl remote =
        ((dispatchStage (diff remote lcl).1
            (BatchAddVServerGroupBackendServers env cloud batch lcl)).1 ++
          (dispatchStage (diff remote lcl).2.1
            (BatchRemoveVServerGroupBackendServers env cloud batch remote)).1 ++
          (dispatchStage (diff remote lcl).2.2
            (BatchUpdateVServerGroupBackendServers env cloud batch remote)).1,
         (dispatchStage (diff remote lcl).2.2
            (BatchUpdateVServerGroupBackendServers env cloud batch remote)).2)) := by
  have hunfold := UpdateVServerGroup_unfold env cloud batch lcl remote
  refine ⟨?_, ?_, ?_, ?_⟩
  · intro hd
    rw [hunfold, hd]
    rfl
  · intro err h1
    rw [hunfold]
    rcases hs : dispatchStage (diff remote lcl).1
        (BatchAddVServerGroupBackendServers env cloud batch lcl) with ⟨calls1, r1⟩
    rw [hs] at h1
    simp only at h1
    subst h1
    rfl
  · intro h1 err h2
    rw [hunfold]
    rcases hs : dispatchStage (diff remote lcl).1
        (BatchAddVServerGroupBackendServers env cloud batch lcl) with ⟨calls1, r1⟩
    rcases hs2 : dispatchStage (diff remote lcl).2.1
        (BatchRemoveVServerGroupBackendServers env cloud batch remote) with ⟨calls2, r2⟩
    rw [hs] at h1
    rw [hs2] at h2
    simp only at h1 h2
    subst h1 h2
    rfl
  · intro h1 h2
    rw [hunfold]
    rcases hs : dispatchStage (diff remote lcl).1
        (BatchAddVServerGroupBackendServers env cloud batch lcl) with ⟨calls1, r1⟩
    rcases hs2 : dispatchStage (diff remote lcl).2.1
        (BatchRemoveVServerGroupBackendServers env cloud batch remote) with ⟨calls2, r2⟩
    rw [hs] at h1
    rw [hs2] at h2
    simp only at h1 h2
    subst h1 h2
    rfl

theorem batchRun_batchOperation (env : Env) (cloud : Provider) (mk : String → String → Call)
    (vGroup : VServerGroup) (chunks : List (List BackendAttribute)) :
    batchRun (batchOperation env cloud mk vGroup) chunks =
      dispatchOps cloud (chunks.map (stageOp env mk vGroup.VGroupId)) := by
  induction chunks with
  | nil => rfl
  | cons chunk chunks ih =>
    rw [List.map_cons, batchRun, ih]
    unfold batchOperation stageOp
    cases hm : env.jsonMarshal chunk with
    | error err => rfl
    | ok payload =>
      simp only [invoke, dispatchOps]
      cases hc : cloud.call (mk vGroup.VGroupId payload) with
      | error err => rfl
      | ok u => rfl

theorem dispatchOps_append (cloud : Provider) (xs ys : List (Except String Call)) :
    dispatchOps cloud (xs ++ ys) =
      match dispatchOps cloud xs with
      | (calls, .error err) => (calls, .error err)
      | (calls, .ok _) => (calls ++ (dispatchOps cloud ys).1, (dispatchOps cloud ys).2) := by
  induction xs with
  | nil => rfl
  | cons x xs ih =>
    cases x with
    | error err => rfl
    | ok c =>
      rw [List.cons_append]
      simp only [dispatchOps]
      cases hc : cloud.call c with
      | error err => rfl
      | ok u =>
        simp only [ih]
        rcases dispatchOps cloud xs with ⟨calls, r⟩
        cases r with
        | error err => rfl
        | ok u2 => rfl

theorem dispatchOps_trace_mem (cloud : Provider) (ops : List (Except String Call)) (c : Call)
    (hc : c ∈ (dispatchOps cloud ops).1) : .ok c ∈ ops := by
  induction ops with
  | nil => simp [dispatchOps] at hc
  | cons x xs ih =>
    cases x with
    | error err => simp [dispatchOps] at hc
    | ok d =>
      simp only [dispatchOps] at hc
      cases hd : cloud.call d with
      | error err =>
        rw [hd] at hc
        simp only [List.mem_singleton] at hc
        subst hc
        exact List.mem_cons_self _ _
      | ok u =>
        rw [hd] at hc
        simp only [List.mem_cons] at hc
        rcases hc with e | e
        · subst e
          exact List.mem_cons_self _ _
        · exact List.mem_cons_of_mem _ (ih e)

theorem stageOps_call (env : Env) (mk : String → String → Call) (vGroupId : String)
    (items : List BackendAttribute) (c : Call)
    (hc : .ok c ∈ stageOps env mk vGroupId items) : ∃ payload, c = mk vGroupId payload := by
  unfold stageOps at hc
  rw [List.mem_map] at hc
  obtain ⟨chunk, _, he⟩ := hc
  unfold stageOp at he
  cases hm : env.jsonMarshal chunk with
  | error err => rw [hm] at he; cases he
  | ok payload =>
    rw [hm] at he
    simp only [Except.ok.injEq] at he
    exact ⟨payload, he.symm⟩

theorem dispatchOps_all_ok (cloud : Provider) (hok : ∀ c, cloud.call c = .ok ())
    (calls : List Call) :
    dispatchOps cloud (calls.map Except.ok) = (calls, .ok ()) := by
  induction calls with
  | nil => rfl
  | cons c cs ih =>
    rw [List.map_cons]
    simp only [dispatchOps, hok, ih]

theorem dispatchStage_Batch (env : Env) (cloud : Provider) (mk : String → String → Call)
    (vGroup : VServerGroup) (items : List BackendAttribute) :
    dispatchStage items
      (fun list => Batch list env.MAX_BACKEND_NUM (batchOperation env cloud mk vGroup)) =
      dispatchOps cloud (stageOps env mk vGroup.VGroupId items) := by
  unfold dispatchStage stageOps
  by_cases h : items = []
  · subst h
    rfl
  · rw [if_neg h]
    exact batchRun_batchOperation env cloud mk vGroup _

theorem UpdateVServerGroup_Batch_unfold (env : Env) (cloud : Provider)
    (lcl remote : VServerGroup) :
    UpdateVServerGroup env cloud Batch lcl remote =
      (match dispatchOps cloud (stageOps env Call.AddVServerGroupBackendServers lcl.VGroupId
          (diff remote lcl).1) with
       | (calls1, .error err) => (calls1, .error err)
       | (calls1, .ok _) =>
         match dispatchOps cloud (stageOps env Call.RemoveVServerGroupBackendServers
            remote.VGroupId (diff remote lcl).2.1) with
         | (calls2, .error err) => (calls1 ++ calls2, .error err)
         | (calls2, .ok _) =>
           (calls1 ++ calls2 ++
              (dispatchOps cloud (stageOps env Call.SetVServerGroupAttribute remote.VGroupId
                (diff remote lcl).2.2)).1,
            (dispatchOps cloud (stageOps env Call.SetVServerGroupAttribute remote.VGroupId
                (diff remote lcl).2.2)).2)) := by
  have hA : dispatchStage (diff remote lcl).1
      (BatchAddVServerGroupBackendServers env cloud Batch lcl) =
      dispatchOps cloud (stageOps env Call.AddVServerGroupBackendServers lcl.VGroupId
        (diff remote lcl).1) :=
    dispatchStage_Batch env cloud Call.AddVServerGroupBackendServers lcl _
  have hD : dispatchStage (diff remote lcl).2.1
      (BatchRemoveVServerGroupBackendServers env cloud Batch remote) =
      dispatchOps cloud (stageOps env Call.RemoveVServerGroupBackendServers remote.VGroupId
        (diff remote lcl).2.1) :=
    dispatchStage_Batch env cloud Call.RemoveVServerGroupBackendServers remote _
  have hU : dispatchStage (diff remote lcl).2.2
      (BatchUpdateVServerGroupBackendServers env cloud Batch remote) =
      dispatchOps cloud (stageOps env Call.SetVServerGroupAttribute remote.VGroupId
        (diff remote lcl).2.2) :=
    dispatchStage_Batch env cloud Call.SetVServerGroupAttribute remote _
  rw [UpdateVServerGroup_unfold, hA, hD, hU]

theorem stageOps_marshalled (env : Env) (mk : String → String → Call) (vGroupId : String)
    (items : List BackendAttribute) (enc : List BackendAttribute → String)
    (hm : ∀ list, env.jsonMarshal list = .ok (enc list)) :
    stageOps env mk vGroupId items =
      ((batchChunks env.MAX_BACKEND_NUM items.length items).map
        (fun chunk => mk vGroupId (enc chunk))).map Except.ok := by
  unfold stageOps
  rw [List.map_map]
  apply List.map_congr_left
  intro chunk _
  simp only [stageOp, hm, Function.comp]

/-- C25: with the function `Batch`, the provider calls of `UpdateVServerGroup` are the
steps of the additions (calls `AddVServerGroupBackendServers` on the desired group), then
those of the removals (calls `RemoveVServerGroupBackendServers` on the observed group), then
those of the weight updates (calls `SetVServerGroupAttribute` on the observed group),
dispatched one after the other up to the first failure; an empty list has no step. With
three empty lists no call is made and the result is success. When the additions fail, the
result is their error and every call made is a call to add, so no removal and no update is
dispatched. When the additions succeed and the removals fail, the result is their error and
every call made is a call to add or to remove, so no update is dispatched. When every chunk
can be marshalled and every call succeeds, the calls are one call to add for each chunk of
the additions, then one call to remove for each chunk of the removals, then one call to
update for each chunk of the weight updates, and the result is success. -/
theorem UpdateVServerGroup_dispatch (env : Env) (cloud : Provider)
    (lcl remote : VServerGroup) :
    UpdateVServerGroup env cloud Batch lcl remote =
      dispatchOps cloud
        (stageOps env Call.AddVServerGroupBackendServers lcl.VGroupId (diff remote lcl).1 ++
          stageOps env Call.RemoveVServerGroupBackendServers remote.VGroupId
            (diff remote lcl).2.1 ++
          stageOps env Call.SetVServerGroupAttribute remote.VGroupId (diff remote lcl).2.2) ∧
    (diff remote lcl = ([], [], []) →
      UpdateVServerGroup env cloud Batch lcl remote = ([], .ok ())) ∧
    (∀ err,
      (dispatchOps cloud (stageOps env Call.AddVServerGroupBackendServers lcl.VGroupId
        (diff remote lcl).1)).2 = .error err →
      UpdateVServerGroup env cloud Batch lcl remote =
        ((dispatchOps cloud (stageOps env Call.AddVServerGroupBackendServers lcl.VGroupId
          (diff remote lcl).1)).1, .error err) ∧
      ∀ c ∈ (UpdateVServerGroup env cloud Batch lcl remote).1,
        ∃ payload, c = Call.AddVServerGroupBackendServers lcl.VGroupId payload) ∧
    ((dispatchOps cloud (stageOps env Call.AddVServerGroupBackendServers lcl.VGroupId
        (diff remote lcl).1)).2 = .ok () →
      ∀ err,
      (dispatchOps cloud (stageOps env Call.RemoveVServerGroupBackendServers remote.VGroupId
        (diff remote lcl).2.1)).2 = .error err →
      UpdateVServerGroup env cloud Batch lcl remote =
        ((dispatchOps cloud (stageOps env Call.AddVServerGroupBackendServers lcl.VGroupId
            (diff remote lcl).1)).1 ++
          (dispatchOps cloud (stageOps env Call.RemoveVServerGroupBackendServers
            remote.VGroupId (diff remote lcl).2.1)).1, .error err) ∧
      ∀ c ∈ (UpdateVServerGroup env cloud Batch lcl remote).1,
        (∃ payload, c = Call.AddVServerGroupBackendServers lcl.VGroupId payload) ∨
        (∃ payload, c = Call.RemoveVServerGroupBackendServers remote.VGroupId payload)) ∧
    (∀ enc : List BackendAttribute → String,
      (∀ list, env.jsonMarshal list = .ok (enc list)) → (∀ c, cloud.call c = .ok ()) →
      UpdateVServerGroup env cloud Batch lcl remote =
        ((batchChunks env.MAX_BACKEND_NUM (diff remote lcl).1.length (diff remote lcl).1).map
            (fun chunk => Call.AddVServerGroupBackendServers lcl.VGroupId (enc chunk)) ++
          (batchChunks env.MAX_BACKEND_NUM (diff remote lcl).2.1.length
              (diff remote lcl).2.1).map
            (fun chunk => Call.RemoveVServerGroupBackendServers remote.VGroupId (enc chunk)) ++
          (batchChunks env.MAX_BACKEND_NUM (diff remote lcl).2.2.length
              (diff remote lcl).2.2).map
            (fun chunk => Call.SetVServerGroupAttribute remote.VGroupId (enc chunk)),
         .ok ())) := by
  have hun := UpdateVServerGroup_Batch_unfold env cloud lcl remote
  have hAc := fun c hc => stageOps_call env Call.AddVServerGroupBackendServers lcl.VGroupId
    (diff remote lcl).1 c (dispatchOps_trace_mem cloud _ c hc)
  have hDc := fun c hc => stageOps_call env Call.RemoveVServerGroupBackendServers
    remote.VGroupId (diff remote lcl).2.1 c (dispatchOps_trace_mem cloud _ c hc)
  have hone : UpdateVServerGroup env cloud Batch lcl remote =
      dispatchOps cloud
        (stageOps env Call.AddVServerGroupBackendServers lcl.VGroupId (diff remote lcl).1 ++
          stageOps env Call.RemoveVServerGroupBackendServers remote.VGroupId
            (diff remote lcl).2.1 ++
          stageOps env Call.SetVServerGroupAttribute remote.VGroupId (diff remote lcl).2.2) := by
    rw [hun, dispatchOps_append, dispatchOps_append]
    rcases dispatchOps cloud (stageOps env Call.AddVServerGroupBackendServers lcl.VGroupId
      (diff remote lcl).1) with ⟨calls1, r1⟩
    cases r1 with
    | error err => rfl
    | ok u =>
      rcases dispatchOps cloud (stageOps env Call.RemoveVServerGroupBackendServers
        remote.VGroupId (diff remote lcl).2.1) with ⟨calls2, r2⟩
      cases r2 with
      | error err => rfl
      | ok u2 => rfl
  refine ⟨hone, ?_, ?_, ?_, ?_⟩
  · intro hd
    rw [hone, hd]
    rfl
  · intro err h1
    rcases hs : dispatchOps cloud (stageOps env Call.AddVServerGroupBackendServers
      lcl.VGroupId (diff remote lcl).1) with ⟨calls1, r1⟩
    rw [hs] at h1 hun hAc
    simp only at h1
    subst h1
    simp only at hun
    refine ⟨hun, ?_⟩
    intro c hc
    rw [hun] at hc
    exact hAc c hc
  · intro h1 err h2
    rcases hs : dispatchOps cloud (stageOps env Call.AddVServerGroupBackendServers
      lcl.VGroupId (diff remote lcl).1) with ⟨calls1, r1⟩
    rcases hs2 : dispatchOps cloud (stageOps env Call.RemoveVServerGroupBackendServers
      remote.VGroupId (diff remote lcl).2.1) with ⟨calls2, r2⟩
    rw [hs] at h1 hun hAc
    rw [hs2] at h2 hun hDc
    simp only at h1 h2
    subst h1 h2
    simp only at hun
    refine ⟨hun, ?_⟩
    intro c hc
    rw [hun] at hc
    rcases List.mem_append.1 hc with h | h
    · exact Or.inl (hAc c h)
    · exact Or.inr (hDc c h)
  · intro enc hm hok
    rw [hone, stageOps_marshalled env _ _ _ enc hm, stageOps_marshalled env _ _ _ enc hm,
      stageOps_marshalled env _ _ _ enc hm, ← List.map_append, ← List.map_append,
      dispatchOps_all_ok cloud hok]

/-- Witness of `UpdateVServerGroup_dispatch`, with chunks of at most two backends, three
backends to add, one to remove and one to update. When the calls to add fail, the first call
to add is the only call. When the calls to remove fail, the two calls to add and the call to
remove are made, and no call to update. When every call succeeds the calls are the two calls
to add, the call to remove and the call to update. Equal groups give no call. -/
theorem UpdateVServerGroup_dispatch_witness :
    UpdateVServerGroup smallChunkEnv addFailingCloud Batch desiredGroup observedGroup =
      ([.AddVServerGroupBackendServers "g-l" "i-1,i-2"], .error "add failed") ∧
    UpdateVServerGroup smallChunkEnv removeFailingCloud Batch desiredGroup observedGroup =
      ([.AddVServerGroupBackendServers "g-l" "i-1,i-2",
        .AddVServerGroupBackendServers "g-l" "i-3",
        .RemoveVServerGroupBackendServers "g-r" "i-5"], .error "remove failed") ∧
    UpdateVServerGroup smallChunkEnv testCloud Batch desiredGroup observedGroup =
      ([.AddVServerGroupBackendServers "g-l" "i-1,i-2",
        .AddVServerGroupBackendServers "g-l" "i-3",
        .RemoveVServerGroupBackendServers "g-r" "i-5",
        .SetVServerGroupAttribute "g-r" "i-4"], .ok ()) ∧
    UpdateVServerGroup smallChunkEnv testCloud Batch desiredGroup desiredGroup =
      ([], .ok ()) :=
  ⟨((UpdateVServerGroup_dispatch smallChunkEnv addFailingCloud desiredGroup observedGroup).2.2.1
      "add failed" rfl).1,
   ((UpdateVServerGroup_dispatch smallChunkEnv removeFailingCloud desiredGroup
      observedGroup).2.2.2.1 rfl "remove failed" rfl).1,
   (UpdateVServerGroup_dispatch smallChunkEnv testCloud desiredGroup observedGroup).2.2.2.2
      (fun bs => String.intercalate "," (bs.map (fun (b : BackendAttribute) => b.ServerId)))
      (fun _ => rfl) (fun _ => rfl),
   (UpdateVServerGroup_dispatch smallChunkEnv testCloud desiredGroup desiredGroup).2.1
      (by decide)⟩

/-- The cases of C25 evaluated with the function `Batch`: one backend to add, one to remove
and one to update give the three calls in the order add, remove, update; when the call to
add fails it is the only call. -/
theorem UpdateVServerGroup_dispatch_example :
    UpdateVServerGroup testEnv testCloud Batch
      (groupOf [ecsB "i-1" "10.0.0.1" 100, ecsB "i-2" "10.0.0.2" 3])
      (groupOf [ecsB "i-2" "10.0.0.2" 1, ecsB "i-3" "10.0.0.3" 100]) =
      ([.AddVServerGroupBackendServers "g" "i-1", .RemoveVServerGroupBackendServers "g" "i-3",
        .SetVServerGroupAttribute "g" "i-2"], .ok ()) ∧
    UpdateVServerGroup testEnv addFailingCloud Batch
      (groupOf [ecsB "i-1" "10.0.0.1" 100, ecsB "i-2" "10.0.0.2" 3])
      (groupOf [ecsB "i-2" "10.0.0.2" 1, ecsB "i-3" "10.0.0.3" 100]) =
      ([.AddVServerGroupBackendServers "g" "i-1"], .error "add failed") :=
  ⟨rfl, rfl⟩

/-- C26: when the pay-by-bandwidth value is not the empty string and the desired charge
type is empty, `Update` makes no call of `ModifyLoadBalancerInternetSpec`, whatever the
bandwidths and the observed load balancer are. -/
theorem Update_empty_charge (env : Env) (cloud : Provider) (lcl remote : LoadBalancer)
    (hpbb : env.PayByBandwidth ≠ "")
    (hempty : lcl.LoadBalancerAttribute.InternetChargeType = "") :
    ∀ c ∈ (Update env cloud lcl remote).1, c.isInternetSpec = false := by
  by_cases hg : guardsPass env lcl remote
  · have hneed : (chargeAndBandwidth env lcl.LoadBalancerAttribute
        remote.LoadBalancerAttribute).1 = false := by
      rw [chargeAndBandwidth_eq]
      have h1 : ¬ (lcl.LoadBalancerAttribute.InternetChargeType ≠ "" ∧
          lcl.LoadBalancerAttribute.InternetChargeType ≠
            remote.LoadBalancerAttribute.InternetChargeType) := fun h => h.1 hempty
      have h2 : ¬ (lcl.LoadBalancerAttribute.Bandwidth ≠ 0 ∧
          lcl.LoadBalancerAttribute.Bandwidth ≠ remote.LoadBalancerAttribute.Bandwidth ∧
          lcl.LoadBalancerAttribute.InternetChargeType = env.PayByBandwidth) := by
        rintro ⟨_, _, h⟩
        rw [hempty] at h
        exact hpbb h.symm
      exact decide_eq_false (fun h => h.elim h1 h2)
    rw [Update_of_guardsPass env cloud lcl remote hg, hneed]
    simp only [Bool.false_eq_true, false_and, if_false]
    exact updateAttributes_not_internetSpec _ _ _ _
  · obtain ⟨msg, hmsg⟩ := Update_of_not_guardsPass env cloud lcl remote hg
    rw [hmsg]
    simp

/-- Witness of `Update_empty_charge`: bandwidth 10 desired without charge type, an
internet-facing pay-by-bandwidth load balancer with bandwidth 5 observed: no call. -/
theorem Update_empty_charge_witness :
    Update testEnv testCloud bandwidthOnlyLb observedPbbLb = ([], .ok ()) ∧
    ∀ c ∈ (Update testEnv testCloud bandwidthOnlyLb observedPbbLb).1,
      c.isInternetSpec = false :=
  ⟨rfl, Update_empty_charge testEnv testCloud bandwidthOnlyLb observedPbbLb
    (by decide) (by decide)⟩

/-- C29: `Delete` makes no call and succeeds for an empty load balancer id; with delete
protection on it first calls `SetLoadBalancerDeleteProtection` with the value off, returns an
error without calling `DeleteLoadBalancer` when that call fails, and calls
`DeleteLoadBalancer` after it otherwise; without delete protection it calls
`DeleteLoadBalancer` only. -/
theorem Delete_lifts_protection (cloud : Provider) (remote : LoadBalancer) :
    (remote.LoadBalancerAttribute.LoadBalancerId = "" → Delete cloud remote = ([], .ok ())) ∧
    (remote.LoadBalancerAttribute.LoadBalancerId ≠ "" →
      remote.LoadBalancerAttribute.DeleteProtection = OnFlag →
      ∀ err,
        cloud.call (.SetLoadBalancerDeleteProtection
          remote.LoadBalancerAttribute.LoadBalancerId OffFlag) = .error err →
        ∃ msg, Delete cloud remote =
          ([.SetLoadBalancerDeleteProtection remote.LoadBalancerAttribute.LoadBalancerId
            OffFlag], .error msg)) ∧
    (remote.LoadBalancerAttribute.LoadBalancerId ≠ "" →
      remote.LoadBalancerAttribute.DeleteProtection = OnFlag →
      cloud.call (.SetLoadBalancerDeleteProtection
        remote.LoadBalancerAttribute.LoadBalancerId OffFlag) = .ok () →
      Delete cloud remote =
        ([.SetLoadBalancerDeleteProtection remote.LoadBalancerAttribute.LoadBalancerId OffFlag,
          .DeleteLoadBalancer remote.LoadBalancerAttribute.LoadBalancerId],
         cloud.call (.DeleteLoadBalancer remote.LoadBalancerAttribute.LoadBalancerId))) ∧
    (remote.LoadBalancerAttribute.LoadBalancerId ≠ "" →
      remote.LoadBalancerAttribute.DeleteProtection ≠ OnFlag →
      Delete cloud remote =
        ([.DeleteLoadBalancer remote.LoadBalancerAttribute.LoadBalancerId],
         cloud.call (.DeleteLoadBalancer remote.LoadBalancerAttribute.LoadBalancerId))) := by
  refine ⟨?_, ?_, ?_, ?_⟩
  · intro hid
    simp [Delete, hid]
  · intro hid hon err herr
    refine ⟨"error to set slb id [" ++ remote.LoadBalancerAttribute.LoadBalancerId ++
      "] delete protection off, svc [" ++ remote.NamespacedName ++ "], err: " ++ err, ?_⟩
    unfold Delete
    rw [if_neg hid]
    simp only []
    rw [if_pos hon, herr]
  · intro hid hon hok
    unfold Delete
    rw [if_neg hid]
    simp only []
    rw [if_pos hon, hok]
    rfl
  · intro hid hoff
    unfold Delete
    rw [if_neg hid]
    simp only []
    rw [if_neg hoff]
    rfl

/-- Witness of `Delete_lifts_protection`: a protected load balancer and a provider whose
calls fail: the one call is the one that lifts the protection. -/
theorem Delete_lifts_protection_witness :
    ∃ msg, Delete failingCloud observedLb =
      ([.SetLoadBalancerDeleteProtection "lb-1" OffFlag], .error msg) :=
  (Delete_lifts_protection failingCloud observedLb).2.1 (by decide) (by decide)
    "provider error" rfl

/-- The cases of C29 evaluated: a protected load balancer is deleted after the protection
is lifted, and a load balancer without id is left alone. -/
theorem Delete_lifts_protection_example :
    Delete testCloud observedLb =
      ([.SetLoadBalancerDeleteProtection "lb-1" "off", .DeleteLoadBalancer "lb-1"], .ok ()) ∧
    Delete failingCloud emptyLb = ([], .ok ()) :=
  ⟨rfl, rfl⟩

/-! ## Convergence of repeated `Update` -/

theorem Update_chain (env : Env) (cloud : Provider) (lcl remote : LoadBalancer)
    (hg : guardsPass env lcl remote) :
    Update env cloud lcl remote =
      if chargeUnmet env lcl.LoadBalancerAttribute remote.LoadBalancerAttribute then
        invoke cloud (.ModifyLoadBalancerInternetSpec remote.LoadBalancerAttribute.LoadBalancerId
          (if lcl.LoadBalancerAttribute.InternetChargeType ≠ "" ∧
              lcl.LoadBalancerAttribute.InternetChargeType ≠
                remote.LoadBalancerAttribute.InternetChargeType then
            lcl.LoadBalancerAttribute.InternetChargeType
           else remote.LoadBalancerAttribute.InternetChargeType)
          (if lcl.LoadBalancerAttribute.Bandwidth ≠ 0 ∧
              lcl.LoadBalancerAttribute.Bandwidth ≠ remote.LoadBalancerAttribute.Bandwidth ∧
              lcl.LoadBalancerAttribute.InternetChargeType = env.PayByBandwidth then
            lcl.LoadBalancerAttribute.Bandwidth
           else remote.LoadBalancerAttribute.Bandwidth))
      else updateAttributes cloud remote.LoadBalancerAttribute.LoadBalancerId
        lcl.LoadBalancerAttribute remote.LoadBalancerAttribute := by
  rw [Update_of_guardsPass env cloud lcl remote hg, chargeAndBandwidth_eq]
  unfold chargeUnmet
  simp only [decide_eq_true_eq]

theorem updatePass_frame (env : Env) (cloud : Provider) (lcl remote : LoadBalancer) :
    (updatePass env cloud lcl remote).LoadBalancerAttribute.MasterZoneId =
      remote.LoadBalancerAttribute.MasterZoneId ∧
    (updatePass env cloud lcl remote).LoadBalancerAttribute.SlaveZoneId =
      remote.LoadBalancerAttribute.SlaveZoneId ∧
    (updatePass env cloud lcl remote).LoadBalancerAttribute.AddressType =
      remote.LoadBalancerAttribute.AddressType ∧
    (updatePass env cloud lcl remote).LoadBalancerAttribute.AddressIPVersion =
      remote.LoadBalancerAttribute.AddressIPVersion ∧
    (updatePass env cloud lcl remote).LoadBalancerAttribute.ResourceGroupId =
      remote.LoadBalancerAttribute.ResourceGroupId := by
  unfold updatePass
  generalize (Update env cloud lcl remote).1 = calls
  induction calls generalizing remote with
  | nil => simp
  | cons c calls ih =>
    have hc0 : (applyCall c remote).LoadBalancerAttribute.MasterZoneId =
          remote.LoadBalancerAttribute.MasterZoneId ∧
        (applyCall c remote).LoadBalancerAttribute.SlaveZoneId =
          remote.LoadBalancerAttribute.SlaveZoneId ∧
        (applyCall c remote).LoadBalancerAttribute.AddressType =
          remote.LoadBalancerAttribute.AddressType ∧
        (applyCall c remote).LoadBalancerAttribute.AddressIPVersion =
          remote.LoadBalancerAttribute.AddressIPVersion ∧
        (applyCall c remote).LoadBalancerAttribute.ResourceGroupId =
          remote.LoadBalancerAttribute.ResourceGroupId := by
      cases c <;> exact ⟨rfl, rfl, rfl, rfl, rfl⟩
    rw [List.foldl_cons]
    cases hcall : cloud.call c with
    | error err => exact ih remote
    | ok u =>
      obtain ⟨h1, h2, h3, h4, h5⟩ := ih (applyCall c remote)
      exact ⟨h1.trans hc0.1, h2.trans hc0.2.1, h3.trans hc0.2.2.1, h4.trans hc0.2.2.2.1,
        h5.trans hc0.2.2.2.2⟩

theorem updatePass_guardsPass (env : Env) (cloud : Provider) (lcl remote : LoadBalancer)
    (hg : guardsPass env lcl remote) :
    guardsPass env lcl (updatePass env cloud lcl remote) := by
  obtain ⟨h1, h2, h3, h4, h5⟩ := updatePass_frame env cloud lcl remote
  unfold guardsPass at hg ⊢
  rw [h1, h2, h3, h4, h5]
  exact hg

theorem unmetRank_le (env : Env) (l r : LoadBalancerAttribute) : unmetRank env l r ≤ 5 := by
  unfold unmetRank
  split_ifs <;> omega

theorem Update_of_rank_zero (env : Env) (cloud : Provider) (lcl remote : LoadBalancer)
    (hg : guardsPass env lcl remote)
    (h0 : unmetRank env lcl.LoadBalancerAttribute remote.LoadBalancerAttribute = 0) :
    Update env cloud lcl remote = ([], .ok ()) := by
  rw [Update_chain env cloud lcl remote hg]
  unfold unmetRank at h0
  unfold updateAttributes
  split_ifs at h0 ⊢
  rfl

theorem updatePass_of_call (env : Env) (cloud : Provider) (lcl remote : LoadBalancer)
    (c : Call) (hok : ∀ c, cloud.call c = .ok ())
    (h : Update env cloud lcl remote = invoke cloud c) :
    updatePass env cloud lcl remote = applyCall c remote := by
  unfold updatePass
  rw [h]
  simp [invoke, hok c]

theorem chargeUnmet_after (env : Env) (l r : LoadBalancerAttribute) :
    ¬ chargeUnmet env l
      { r with
        InternetChargeType :=
          (if l.InternetChargeType ≠ "" ∧ l.InternetChargeType ≠ r.InternetChargeType then
            l.InternetChargeType else r.InternetChargeType),
        Bandwidth :=
          (if l.Bandwidth ≠ 0 ∧ l.Bandwidth ≠ r.Bandwidth ∧
              l.InternetChargeType = env.PayByBandwidth then l.Bandwidth
           else r.Bandwidth) } := by
  unfold chargeUnmet
  simp only []
  rintro ⟨h | h, _⟩
  · by_cases hc : l.InternetChargeType ≠ "" ∧ l.InternetChargeType ≠ r.InternetChargeType
    · rw [if_pos hc] at h
      exact h.2 rfl
    · rw [if_neg hc] at h
      exact hc h
  · by_cases hb : l.Bandwidth ≠ 0 ∧ l.Bandwidth ≠ r.Bandwidth ∧
        l.InternetChargeType = env.PayByBandwidth
    · rw [if_pos hb] at h
      exact h.2.1 rfl
    · rw [if_neg hb] at h
      exact hb h

theorem updatePass_rank (env : Env) (cloud : Provider) (lcl remote : LoadBalancer)
    (hok : ∀ c, cloud.call c = .ok ()) (hg : guardsPass env lcl remote) :
    unmetRank env lcl.LoadBalancerAttribute
        (updatePass env cloud lcl remote).LoadBalancerAttribute ≤
      unmetRank env lcl.LoadBalancerAttribute remote.LoadBalancerAttribute - 1 := by
  have hchain := Update_chain env cloud lcl remote hg
  by_cases h0 : chargeUnmet env lcl.LoadBalancerAttribute remote.LoadBalancerAttribute
  · rw [if_pos h0] at hchain
    rw [updatePass_of_call env cloud lcl remote _ hok hchain]
    have hafter := chargeUnmet_after env lcl.LoadBalancerAttribute remote.LoadBalancerAttribute
    have hr : unmetRank env lcl.LoadBalancerAttribute remote.LoadBalancerAttribute = 5 := by
      unfold unmetRank; rw [if_pos h0]
    rw [hr]
    unfold unmetRank applyCall
    simp only []
    rw [if_neg hafter]
    split_ifs <;> omega
  · rw [if_neg h0] at hchain
    unfold updateAttributes at hchain
    have hsame : ∀ x : LoadBalancerAttribute,
        x.InternetChargeType = remote.LoadBalancerAttribute.InternetChargeType →
        x.Bandwidth = remote.LoadBalancerAttribute.Bandwidth →
        x.AddressType = remote.LoadBalancerAttribute.AddressType →
        ¬ chargeUnmet env lcl.LoadBalancerAttribute x := by
      intro x h1 h2 h3
      unfold chargeUnmet at h0 ⊢
      rw [h1, h2, h3]
      exact h0
    by_cases h1 : lcl.LoadBalancerAttribute.LoadBalancerSpec ≠ "" ∧
        lcl.LoadBalancerAttribute.LoadBalancerSpec ≠ remote.LoadBalancerAttribute.LoadBalancerSpec
    · rw [if_pos h1] at hchain
      rw [updatePass_of_call env cloud lcl remote _ hok hchain]
      have hr : unmetRank env lcl.LoadBalancerAttribute remote.LoadBalancerAttribute = 4 := by
        unfold unmetRank; rw [if_neg h0, if_pos h1]
      rw [hr]
      unfold unmetRank applyCall
      simp only []
      rw [if_neg (hsame { remote.LoadBalancerAttribute with
        LoadBalancerSpec := lcl.LoadBalancerAttribute.LoadBalancerSpec } rfl rfl rfl)]
      simp only [ne_eq, not_true_eq_false, and_false, if_false]
      split_ifs <;> omega
    · rw [if_neg h1] at hchain
      by_cases h2 : lcl.LoadBalancerAttribute.DeleteProtection ≠ "" ∧
          lcl.LoadBalancerAttribute.DeleteProtection ≠
            remote.LoadBalancerAttribute.DeleteProtection
      · rw [if_pos h2] at hchain
        rw [updatePass_of_call env cloud lcl remote _ hok hchain]
        have hr : unmetRank env lcl.LoadBalancerAttribute remote.LoadBalancerAttribute = 3 := by
          unfold unmetRank; rw [if_neg h0, if_neg h1, if_pos h2]
        rw [hr]
        unfold unmetRank applyCall
        simp only []
        rw [if_neg (hsame { remote.LoadBalancerAttribute with
          DeleteProtection := lcl.LoadBalancerAttribute.DeleteProtection } rfl rfl rfl),
          if_neg h1]
        simp only [ne_eq, not_true_eq_false, and_false, if_false]
        split_ifs <;> omega
      · rw [if_neg h2] at hchain
        by_cases h3 : lcl.LoadBalancerAttribute.ModificationProtectionStatus ≠ "" ∧
            lcl.LoadBalancerAttribute.ModificationProtectionStatus ≠
              remote.LoadBalancerAttribute.ModificationProtectionStatus
        · rw [if_pos h3] at hchain
          rw [updatePass_of_call env cloud lcl remote _ hok hchain]
          have hr : unmetRank env lcl.LoadBalancerAttribute
              remote.LoadBalancerAttribute = 2 := by
            unfold unmetRank; rw [if_neg h0, if_neg h1, if_neg h2, if_pos h3]
          rw [hr]
          unfold unmetRank applyCall
          simp only []
          rw [if_neg (hsame { remote.LoadBalancerAttribute with
            ModificationProtectionStatus :=
              lcl.LoadBalancerAttribute.ModificationProtectionStatus } rfl rfl rfl),
            if_neg h1, if_neg h2]
          simp only [ne_eq, not_true_eq_false, and_false, if_false]
          split_ifs <;> omega
        · rw [if_neg h3] at hchain
          by_cases h4 : lcl.LoadBalancerAttribute.LoadBalancerName ≠ "" ∧
              lcl.LoadBalancerAttribute.LoadBalancerName ≠
                remote.LoadBalancerAttribute.LoadBalancerName
          · rw [if_pos h4] at hchain
            rw [updatePass_of_call env cloud lcl remote _ hok hchain]
            have hr : unmetRank env lcl.LoadBalancerAttribute
                remote.LoadBalancerAttribute = 1 := by
              unfold unmetRank; rw [if_neg h0, if_neg h1, if_neg h2, if_neg h3, if_pos h4]
            rw [hr]
            unfold unmetRank applyCall
            simp only []
            rw [if_neg (hsame { remote.LoadBalancerAttribute with
              LoadBalancerName := lcl.LoadBalancerAttribute.LoadBalancerName } rfl rfl rfl),
              if_neg h1, if_neg h2, if_neg h3]
            simp only [ne_eq, not_true_eq_false, and_false, if_false]
            omega
          · rw [if_neg h4] at hchain
            have hpass : updatePass env cloud lcl remote = remote := by
              unfold updatePass
              rw [hchain]
              rfl
            rw [hpass]
            have hr : unmetRank env lcl.LoadBalancerAttribute
                remote.LoadBalancerAttribute = 0 := by
              unfold unmetRank
              rw [if_neg h0, if_neg h1, if_neg h2, if_neg h3, if_neg h4]
            rw [hr]

theorem updatePass_iterate (env : Env) (cloud : Provider) (lcl remote : LoadBalancer)
    (hok : ∀ c, cloud.call c = .ok ()) (hg : guardsPass env lcl remote) (k : Nat) :
    guardsPass env lcl (Nat.iterate (updatePass env cloud lcl) k remote) ∧
    unmetRank env lcl.LoadBalancerAttribute
      (Nat.iterate (updatePass env cloud lcl) k remote).LoadBalancerAttribute ≤ 5 - k := by
  induction k with
  | zero => exact ⟨hg, unmetRank_le _ _ _⟩
  | succ k ih =>
    rw [Function.iterate_succ_apply']
    obtain ⟨hgk, hrk⟩ := ih
    refine ⟨updatePass_guardsPass env cloud lcl _ hgk, ?_⟩
    have := updatePass_rank env cloud lcl _ hok hgk
    omega

/-- C27: against a provider whose calls all succeed and set the observed attributes to the
submitted values, and for a desired and an observed load balancer that pass the guards,
after 5 or more successive passes of `Update` a further pass issues no call and returns
success. -/
theorem Update_converges (env : Env) (cloud : Provider) (lcl remote : LoadBalancer)
    (hok : ∀ c, cloud.call c = .ok ()) (hg : guardsPass env lcl remote)
    (k : Nat) (hk : 5 ≤ k) :
    Update env cloud lcl (Nat.iterate (updatePass env cloud lcl) k remote) = ([], .ok ()) := by
  obtain ⟨hgk, hrk⟩ := updatePass_iterate env cloud lcl remote hok hg k
  apply Update_of_rank_zero env cloud lcl _ hgk
  omega

/-- Witness of `Update_converges`: five attributes to correct, five passes. -/
theorem Update_converges_witness :
    Update testEnv testCloud allDifferentLb
      (Nat.iterate (updatePass testEnv testCloud allDifferentLb) 5 observedLb) =
      ([], .ok ()) :=
  Update_converges testEnv testCloud allDifferentLb observedLb (fun _ => rfl) (by decide) 5
    (by decide)

/-- The passes of C27 evaluated: the fifth pass still issues a call, so that five passes
are needed, and the observed load balancer after five passes has the desired values. -/
theorem Update_converges_example :
    (Update testEnv testCloud allDifferentLb
      (Nat.iterate (updatePass testEnv testCloud allDifferentLb) 4 observedLb)).1 =
      [.SetLoadBalancerName "lb-1" "web-2"] ∧
    (Nat.iterate (updatePass testEnv testCloud allDifferentLb) 5 observedLb) =
      { observedLb with
        LoadBalancerAttribute :=
          { observedLb.LoadBalancerAttribute with
            InternetChargeType := "paybybandwidth", Bandwidth := 10,
            LoadBalancerSpec := "slb.s2.small", DeleteProtection := "off",
            ModificationProtectionStatus := "NonProtection",
            LoadBalancerName := "web-2" } } := by
  constructor
  · decide
  · decide

end AlibabaCloud
